import Mathlib

/-!
RTC click library (`rtc.c`): calendar conversion, BCD codec and register access.

A shallow embedding of `library/src/rtc.c`.

* `uint8_t` values are natural numbers reduced modulo 256 where the C code stores them.
* Inside the two converters `time_date_to_epoch` and `time_epoch_to_date`, `long` and `int`
  values are unbounded integers (`Int`), so that the theorems about them speak of the exact
  values.  The operators `/` and `%` of C truncate toward zero and are `Int.tdiv` and
  `Int.tmod`.  `uint32_t` is an integer reduced modulo `2 ^ 32`, and arithmetic in `size_t` is
  reduced modulo `SIZE_T_MOD` (32 bits).
* Where `rtc_get_local_time` passes its `uint32_t` to the `long` parameter of
  `time_epoch_to_date`, the value is converted to the 32-bit `long` of the targets of the
  library (`toLong`).
* `rtc_type_t` is held as the unsigned value of the enumeration (0..3 for the four chips).
* The byte transport behind `rtc_hal_read` / `rtc_hal_write` is a register file that stores
  what is written, one file per I2C slave address, together with a log of the calls made.
  Static buffers whose addresses the queries return are fields of the state.
-/

namespace RTC

/-! ## Data model -/

/-- Calendar time, `rtc_time_t` of `rtc.h`: seven `uint8_t` fields. -/
structure rtc_time_t where
  seconds : Nat
  minutes : Nat
  hours : Nat
  weekday : Nat
  monthday : Nat
  month : Nat
  year : Nat
deriving DecidableEq

/-- Conversion of a `long` to `uint8_t`: reduction modulo 256. -/
def toU8 (x : Int) : Nat := (x % 256).toNat

/-- Conversion of a `long` to `uint32_t`: reduction modulo `2 ^ 32`. -/
def toU32 (x : Int) : Int := x % 4294967296

/-- Conversion of a `uint32_t` argument to the `long` parameter of `time_epoch_to_date`:
`long` has 32 bits on the targets of the library, so a value from `2 ^ 31` on arrives as the
negative value congruent to it modulo `2 ^ 32`. -/
def toLong (x : Int) : Int := (x + 2147483648) % 4294967296 - 2147483648

/-- Julian day of 1 January 1970, `JULIAN_DAY_1970`. -/
def JULIAN_DAY_1970 : Int := 2440588

/-- Seconds per minute, `TIME_SEC_IN_MIN`. -/
def TIME_SEC_IN_MIN : Int := 60

/-- Seconds per hour, `TIME_SEC_IN_HOUR`. -/
def TIME_SEC_IN_HOUR : Int := TIME_SEC_IN_MIN * 60

/-- Seconds per day, `TIME_SEC_IN_24_HOURS`. -/
def TIME_SEC_IN_24_HOURS : Int := TIME_SEC_IN_HOUR * 24

/-! ## BCD codec -/

/-- The macro `BCD2BIN(val)`: `(val & 15) + (val >> 4) * 10`. -/
def BCD2BIN (val : Nat) : Nat := (val &&& 15) + (val >>> 4) * 10

/-- The macro `BIN2BCD(val)`: `((val / 10) << 4) + val % 10`. -/
def BIN2BCD (val : Nat) : Nat := ((val / 10) <<< 4) + val % 10

/-- The encoder as the specification words it: `((value / 10) << 4) | (value % 10)`. -/
def spec_to_bcd (value : Nat) : Nat := ((value / 10) <<< 4) ||| (value % 10)

/-! ## Calendar / epoch converter -/

/-- The month counter `ji` of `time_date_to_epoch`: months since 1 March of year -4800. -/
def date_ji (ts : rtc_time_t) : Int :=
  let ji : Int := (ts.year : Int) + 2000 + 4800
  let ji := ji * 12
  ji + ((ts.month : Int) - 3)

/-- The Julian day `time_date_to_epoch` computes for `ts`. -/
def date_julian_day (ts : rtc_time_t) : Int :=
  let ji := date_ji ts
  let julian_day := Int.tdiv (2 * (Int.tmod ji 12) + 7 + 365 * ji) 12
  let julian_day := julian_day + ((ts.monthday : Int) + Int.tdiv ji 48 - 32083)
  if julian_day > 2299171 then
    julian_day + (Int.tdiv ji 4800 - Int.tdiv ji 1200 + 38)
  else julian_day

/-- Seconds since the start of the day, `sec` of `time_date_to_epoch`. -/
def date_sec (ts : rtc_time_t) : Int :=
  let sec : Int := (ts.hours : Int)
  let sec := sec * TIME_SEC_IN_HOUR
  let sec := sec + (ts.minutes : Int) * TIME_SEC_IN_MIN
  sec + (ts.seconds : Int)

/-- `time_date_to_epoch`: the returned epoch, and the argument as the call leaves it
(the weekday field is overwritten with `julian_day % 7`). -/
def time_date_to_epoch (ts : rtc_time_t) : Int × rtc_time_t :=
  let julian_day := date_julian_day ts
  let ts1 : rtc_time_t := { ts with weekday := toU8 (Int.tmod julian_day 7) }
  let sec := date_sec ts1
  let e := julian_day - JULIAN_DAY_1970
  let e := e * TIME_SEC_IN_24_HOURS
  let e := e + sec
  (e, ts1)

/-- The Julian day `time_epoch_to_date` derives from the epoch `e`. -/
def epoch_julian_day (e : Int) : Int :=
  let julian_day := e
  let julian_day := Int.tdiv julian_day TIME_SEC_IN_24_HOURS
  let julian_day := julian_day + JULIAN_DAY_1970
  if e < 0 then julian_day - 1 else julian_day

/-- Year, month and day of the month as `time_epoch_to_date` derives them from a Julian day
(the values of `I`, `J`, `K` before they are stored into the `uint8_t` fields). -/
def julian_to_ymd (julian_day : Int) : Int × Int × Int :=
  let L := julian_day + 68569
  let N := 4 * L
  let N := Int.tdiv N 146097
  let NN := 146097 * N
  let NN := NN + 3
  let NN := Int.tdiv NN 4
  let L := L - NN
  let I := 4000 * (L + 1)
  let I := Int.tdiv I 1461001
  let NN := 1461 * I
  let NN := Int.tdiv NN 4
  let NN := NN - 31
  let L := L - NN
  let J := 80 * L
  let J := Int.tdiv J 2447
  let K := L - Int.tdiv (2447 * J) 80
  let L := Int.tdiv J 11
  let J := J + 2 - 12 * L
  let I := (100 * (N - 49) + I + L) - 2000
  (I, J, K)

/-- The epoch after the normalisation `time_epoch_to_date` applies before it extracts the
time of day. -/
def epoch_normalise (e : Int) : Int :=
  if e < 0 then
    let e := e * (-1)
    let e := Int.tmod e TIME_SEC_IN_24_HOURS
    TIME_SEC_IN_24_HOURS - e
  else e

/-- `time_epoch_to_date`: the calendar time written through `ts` for the epoch `e`. -/
def time_epoch_to_date (e : Int) : rtc_time_t :=
  let julian_day := epoch_julian_day e
  let weekday := toU8 (Int.tmod julian_day 7)
  let ymd := julian_to_ymd julian_day
  let year := toU8 ymd.1
  let month := toU8 ymd.2.1
  let monthday := toU8 ymd.2.2
  let e := epoch_normalise e
  let L := Int.tmod e TIME_SEC_IN_24_HOURS
  let K := Int.tdiv L TIME_SEC_IN_HOUR
  let hours := toU8 K
  let K := L
  let K := K - (hours : Int) * TIME_SEC_IN_HOUR
  let K := Int.tdiv K TIME_SEC_IN_MIN
  let minutes := toU8 K
  let K := Int.tmod L TIME_SEC_IN_MIN
  let seconds := toU8 K
  let weekday := toU8 ((weekday : Int) + 1)
  { seconds := seconds, minutes := minutes, hours := hours, weekday := weekday,
    monthday := monthday, month := month, year := year }

/-- The daylight-saving window `get_dst` writes through `start` and `end` for the 2-digit
`year`: second Sunday of March and first Sunday of November, both at 02:00:00. -/
def get_dst (year : Nat) : rtc_time_t × rtc_time_t :=
  let start : rtc_time_t :=
    { seconds := 0, minutes := 0, hours := 2, weekday := 7,
      monthday := toU8 (14 - Int.tmod (1 + Int.tdiv ((year : Int) * 5) 4) 7),
      month := 3, year := year }
  let stop : rtc_time_t :=
    { seconds := 0, minutes := 0, hours := 2, weekday := 7,
      monthday := toU8 (7 - Int.tmod (1 + Int.tdiv ((year : Int) * 5) 4) 7),
      month := 11, year := year }
  (start, stop)

/-! ## Byte transport and session state -/

/-- Device type `RTC_PCF8583` of `rtc_type_t` (RTC1 click); the enumeration is held as its
unsigned value. -/
def RTC_PCF8583 : Nat := 0

/-- Device type `RTC2_DS1307` of `rtc_type_t`. -/
def RTC2_DS1307 : Nat := 1

/-- Device type `RTC3_BQ32000` of `rtc_type_t`. -/
def RTC3_BQ32000 : Nat := 2

/-- Device type `RTC6_MCP7941X` of `rtc_type_t`. -/
def RTC6_MCP7941X : Nat := 3

/-- Slave address `RTC_PCF8583_SLAVE`. -/
def RTC_PCF8583_SLAVE : Nat := 0x50

/-- Slave address `RTC2_DS1307_SLAVE`. -/
def RTC2_DS1307_SLAVE : Nat := 0x68

/-- Slave address `RTC3_BQ32000_SLAVE`. -/
def RTC3_BQ32000_SLAVE : Nat := 0x68

/-- Slave address `RTC6_MCP7941X_SLAVE`. -/
def RTC6_MCP7941X_SLAVE : Nat := 0x6F

/-- Register address `RTC_SECONDS_ADDR`. -/
def RTC_SECONDS_ADDR : Nat := 0x00

/-- Number of time and date registers, `RTC_TIMEDATE_BYTES`. -/
def RTC_TIMEDATE_BYTES : Nat := 7

/-- Oscillator start mask, `RTC_START_OSC_MASK` (`1 << 7`). -/
def RTC_START_OSC_MASK : Nat := 1 <<< 7

/-- Field mask `RTC_SECONDS_MASK`. -/
def RTC_SECONDS_MASK (value : Nat) : Nat := value &&& 0x7f

/-- Clear mask `RTC_SECONDS_CLEAR`. -/
def RTC_SECONDS_CLEAR (value : Nat) : Nat := value &&& 0x80

/-- Field mask `RTC_MINUTES_MASK`. -/
def RTC_MINUTES_MASK (value : Nat) : Nat := value &&& 0x7f

/-- Clear mask `RTC_MINUTES_CLEAR`. -/
def RTC_MINUTES_CLEAR (value : Nat) : Nat := value &&& 0x80

/-- Field mask `RTC_HOURS_MASK`. -/
def RTC_HOURS_MASK (value : Nat) : Nat := value &&& 0x3f

/-- Clear mask `RTC_HOURS_CLEAR`. -/
def RTC_HOURS_CLEAR (value : Nat) : Nat := value &&& 0xc0

/-- Field mask `RTC_DAY_MASK`. -/
def RTC_DAY_MASK (value : Nat) : Nat := value &&& 0x07

/-- Clear mask `RTC_DAY_CLEAR`. -/
def RTC_DAY_CLEAR (value : Nat) : Nat := value &&& 0xf8

/-- Field mask `RTC_DATE_MASK`. -/
def RTC_DATE_MASK (value : Nat) : Nat := value &&& 0x3f

/-- Clear mask `RTC_DATE_CLEAR`. -/
def RTC_DATE_CLEAR (value : Nat) : Nat := value &&& 0xc0

/-- Field mask `RTC_MONTH_MASK`. -/
def RTC_MONTH_MASK (value : Nat) : Nat := value &&& 0x1f

/-- Clear mask `RTC_MONTH_CLEAR`. -/
def RTC_MONTH_CLEAR (value : Nat) : Nat := value &&& 0xe0

/-- Field mask `RTC_YEAR_MASK`. -/
def RTC_YEAR_MASK (value : Nat) : Nat := value &&& 0xff

/-- Clear mask `RTC_YEAR_CLEAR`. -/
def RTC_YEAR_CLEAR (value : Nat) : Nat := value &&& 0x00

/-- A call made to the byte transport: the slave addressed, the register address, and the
number of bytes asked for or the bytes sent. -/
inductive HalCall where
  | read (slave address num_bytes : Nat)
  | write (slave address : Nat) (data : List Nat)
deriving DecidableEq

/-- The calendar time with every field zero (a zero-initialised static `rtc_time_t`). -/
def zero_time : rtc_time_t :=
  { seconds := 0, minutes := 0, hours := 0, weekday := 0, monthday := 0, month := 0, year := 0 }

/-- Everything the library reads or writes: the device registers behind the transport (per
slave address, per register address), the log of transport calls (oldest first), the slave
address `_i2c_address` of `rtc_hal.c`, the module variables of `rtc.c`, and the static
buffers whose addresses the queries return (`gmt_time` of `rtc_get_gmt_time`, `local_time`
of `rtc_get_local_time`, `stamp` of `rtc_get_last_power_failure`, `temp_time` of
`rtc_read_alarm`, held as `alarm_time`, and `unique_id` of `rtc_read_unique_id`). -/
structure State where
  regs : Nat → Nat → Nat
  calls : List HalCall
  i2c_address : Nat
  current_local_time : rtc_time_t
  current_type : Nat
  current_time_zone : Int
  dst_enabled : Bool
  gmt_time : rtc_time_t
  local_time : rtc_time_t
  stamp : rtc_time_t
  alarm_time : rtc_time_t
  unique_id : Nat → Nat

/-- The state at program start over the register content `regs`: statics zero-initialised,
no transport call made yet. -/
def start_state (regs : Nat → Nat → Nat) : State :=
  { regs := regs, calls := [], i2c_address := 0, current_local_time := zero_time,
    current_type := 0, current_time_zone := 0, dst_enabled := false,
    gmt_time := zero_time, local_time := zero_time, stamp := zero_time,
    alarm_time := zero_time, unique_id := fun _ => 0 }

/-- `rtc_hal_init` (ARM build): stores the slave address. -/
def rtc_hal_init (address_id : Nat) (s : State) : State :=
  { s with i2c_address := address_id % 256 }

/-- `rtc_hal_write`: sends `num_bytes` bytes of `data_in` to consecutive registers starting
at `address` of the selected slave; the register file stores them. -/
def rtc_hal_write (address : Nat) (data_in : Nat → Nat) (num_bytes : Nat) (s : State) : State :=
  { s with
    regs := fun slave a =>
      if slave = s.i2c_address ∧ address % 256 ≤ a ∧ a < address % 256 + num_bytes then
        data_in (a - address % 256) % 256
      else s.regs slave a
    calls := s.calls ++
      [HalCall.write s.i2c_address (address % 256)
        ((List.range num_bytes).map fun i => data_in i % 256)] }

/-- `rtc_hal_read`: fills the first `num_bytes` bytes of the buffer `data_out` from
consecutive registers starting at `address` of the selected slave. -/
def rtc_hal_read (address : Nat) (data_out : Nat → Nat) (num_bytes : Nat) (s : State) :
    (Nat → Nat) × State :=
  (fun i => if i < num_bytes then s.regs s.i2c_address (address % 256 + i) % 256 else data_out i,
   { s with calls := s.calls ++ [HalCall.read s.i2c_address (address % 256) num_bytes] })

/-- Logical negation `!x` of C on an integer: 1 when `x` is zero, else 0. -/
def c_not (x : Nat) : Nat := if x = 0 then 1 else 0

/-! ## RTC settings -/

/-- `rtc_init`: the return value and the state after the call. -/
def rtc_init (type : Nat) (time_zone : Int) (s : State) : Int × State :=
  if type > RTC6_MCP7941X ∨ time_zone > 14 ∨ time_zone < -12 then (-1, s)
  else
    let s := { s with current_type := type, current_time_zone := time_zone }
    let selected : Option State :=
      if s.current_type = RTC_PCF8583 then some (rtc_hal_init RTC_PCF8583_SLAVE s)
      else if s.current_type = RTC2_DS1307 then some (rtc_hal_init RTC2_DS1307_SLAVE s)
      else if s.current_type = RTC3_BQ32000 then some (rtc_hal_init RTC3_BQ32000_SLAVE s)
      else if s.current_type = RTC6_MCP7941X then some (rtc_hal_init RTC6_MCP7941X_SLAVE s)
      else none
    match selected with
    | none => (-1, s)
    | some s =>
      let r := rtc_hal_read RTC_SECONDS_ADDR (fun _ => 0) 1 s
      let status := r.1 0
      let s := r.2
      let status := (status ||| RTC_START_OSC_MASK) % 256
      let s := rtc_hal_write RTC_SECONDS_ADDR (fun _ => status) 1 s
      if (c_not status) &&& 0x80 ≠ 0 then
        let status := (status ||| RTC_START_OSC_MASK) % 256
        let s := rtc_hal_write RTC_SECONDS_ADDR (fun _ => status) 1 s
        (0, s)
      else (0, s)

/-- `rtc_enable_dst`. -/
def rtc_enable_dst (s : State) : State := { s with dst_enabled := true }

/-- `rtc_disable_dst`. -/
def rtc_disable_dst (s : State) : State := { s with dst_enabled := false }

/-! ## General usage -/

/-- Decoding of the seven time and date registers shared by `RTC2_DS1307`, `RTC3_BQ32000`
and `RTC6_MCP7941X` in `rtc_get_gmt_time`. -/
def decode_common (buffer : Nat → Nat) : rtc_time_t :=
  { seconds := BCD2BIN (RTC_SECONDS_MASK (buffer 0)) % 256
    minutes := BCD2BIN (RTC_MINUTES_MASK (buffer 1)) % 256
    hours := BCD2BIN (RTC_HOURS_MASK (buffer 2)) % 256
    weekday := BCD2BIN (RTC_DAY_MASK (buffer 3)) % 256
    monthday := BCD2BIN (RTC_DATE_MASK (buffer 4)) % 256
    month := BCD2BIN (RTC_MONTH_MASK (buffer 5)) % 256
    year := BCD2BIN (RTC_YEAR_MASK (buffer 6)) % 256 }

/-- `rtc_get_gmt_time`: the time the returned pointer refers to (the static `gmt_time`)
and the state after the call. -/
def rtc_get_gmt_time (s : State) : rtc_time_t × State :=
  let buffer : Nat → Nat := fun _ => 0
  if s.current_type = RTC_PCF8583 then
    let r := rtc_hal_read 0x02 buffer 5 s
    let buffer := r.1
    let g : rtc_time_t :=
      { seconds := BCD2BIN (buffer 0) % 256
        minutes := BCD2BIN (buffer 1) % 256
        hours := BCD2BIN (RTC_HOURS_MASK (buffer 2)) % 256
        weekday := ((buffer 4 >>> 5) + 1) % 256
        monthday := BCD2BIN (RTC_DATE_MASK (buffer 3)) % 256
        month := BCD2BIN (RTC_MONTH_MASK (buffer 4)) % 256
        year := 0 }
    (g, { r.2 with gmt_time := g })
  else if s.current_type = RTC3_BQ32000 ∨ s.current_type = RTC2_DS1307 then
    let r := rtc_hal_read RTC_SECONDS_ADDR buffer RTC_TIMEDATE_BYTES s
    let g := decode_common r.1
    (g, { r.2 with gmt_time := g })
  else if s.current_type = RTC6_MCP7941X then
    let r := rtc_hal_read RTC_SECONDS_ADDR buffer RTC_TIMEDATE_BYTES s
    let g := decode_common r.1
    (g, { r.2 with gmt_time := g })
  else (s.gmt_time, s)

/-- `rtc_get_gmt_unix_time`: the `uint32_t` returned and the state after the call
(`time_date_to_epoch` rewrites the weekday of the static `gmt_time`). -/
def rtc_get_gmt_unix_time (s : State) : Int × State :=
  let r := rtc_get_gmt_time s
  let c := time_date_to_epoch r.1
  (toU32 c.1, { r.2 with gmt_time := c.2 })

/-- `rtc_get_local_time`: the time the returned pointer refers to (the static
`local_time`) and the state after the call.  Both calls of `time_epoch_to_date` receive the
`uint32_t temp_time_unix` through the `long` parameter. -/
def rtc_get_local_time (s : State) : rtc_time_t × State :=
  let r := rtc_get_gmt_unix_time s
  let s := r.2
  let temp_time_unix := r.1
  let temp_time_unix := toU32 (temp_time_unix + s.current_time_zone * 60 * 60)
  let local_time := time_epoch_to_date (toLong temp_time_unix)
  let adjusted : Int × rtc_time_t :=
    if s.dst_enabled then
      let w := get_dst local_time.year
      let start := w.1
      let stop := w.2
      if local_time.month > start.month ∧ local_time.month < stop.month then
        let c := time_date_to_epoch local_time
        (toU32 (toU32 c.1 + 60 * 60 * 1000), c.2)
      else
        -- the two tests of the end month assign `end.month` to `local_time.month`
        let local_time := { local_time with month := stop.month }
        if (local_time.month ≠ 0 ∧ local_time.monthday < stop.monthday) ∨
            (local_time.month ≠ 0 ∧ local_time.hours < 2) then
          let c := time_date_to_epoch local_time
          (toU32 (toU32 c.1 + 60 * 60 * 1000), c.2)
        else if (local_time.month = start.month ∧ local_time.monthday > start.monthday) ∨
            (local_time.month = start.month ∧ local_time.monthday = start.monthday ∧
              local_time.hours ≥ 2) then
          let c := time_date_to_epoch local_time
          (toU32 (toU32 c.1 + 60 * 60 * 1000), c.2)
        else (toU32 (temp_time_unix - 60 * 60 * 1000), local_time)
    else (temp_time_unix, local_time)
  let local_time := time_epoch_to_date (toLong adjusted.1)
  (local_time, { s with local_time := local_time })

/-- The seven register bytes `rtc_set_gmt_time` writes back on `RTC2_DS1307`,
`RTC3_BQ32000` and `RTC6_MCP7941X`: each byte read is reduced to the bits its clear mask
keeps and the BCD-coded field is or-ed in. -/
def encode_common (time : rtc_time_t) (buffer : Nat → Nat) : Nat → Nat :=
  let b0 := (RTC_SECONDS_CLEAR (buffer 0) ||| BIN2BCD time.seconds) % 256
  let b1 := (RTC_MINUTES_CLEAR (buffer 1) ||| BIN2BCD time.minutes) % 256
  let b2 := (RTC_HOURS_CLEAR (buffer 2) ||| BIN2BCD time.hours) % 256
  let b3 := (RTC_DAY_CLEAR (buffer 3) ||| BIN2BCD time.weekday) % 256
  let b4 := (RTC_DATE_CLEAR (buffer 4) ||| BIN2BCD time.monthday) % 256
  let b5 := (RTC_MONTH_CLEAR (buffer 5) ||| BIN2BCD time.month) % 256
  let b6 := (RTC_YEAR_CLEAR (buffer 6) ||| BIN2BCD time.year) % 256
  fun i =>
    if i = 0 then b0 else if i = 1 then b1 else if i = 2 then b2 else if i = 3 then b3
    else if i = 4 then b4 else if i = 5 then b5 else if i = 6 then b6 else buffer i

/-- `rtc_set_gmt_time`: the return value and the state after the call. -/
def rtc_set_gmt_time (time : rtc_time_t) (s : State) : Int × State :=
  if time.seconds > 59 ∨ time.minutes > 59 ∨ time.hours > 24 ∨ time.weekday > 7 ∨
      time.monthday > 31 ∨ time.month > 12 ∨ time.year > 99 then (-1, s)
  else if s.current_type = RTC_PCF8583 then
    let temp := 0x80
    let s := rtc_hal_write 0 (fun _ => temp) 1 s
    let temp := BIN2BCD time.seconds % 256
    let s := rtc_hal_write 0x02 (fun _ => temp) 1 s
    let s := (rtc_hal_read 0x02 (fun _ => temp) 1 s).2
    let temp := BIN2BCD time.minutes % 256
    let s := rtc_hal_write 0x03 (fun _ => temp) 1 s
    let s := (rtc_hal_read 0x03 (fun _ => temp) 1 s).2
    let temp := BIN2BCD time.hours % 256
    let s := rtc_hal_write 0x04 (fun _ => temp) 1 s
    let s := (rtc_hal_read 0x04 (fun _ => temp) 1 s).2
    let temp := BIN2BCD time.monthday % 256
    let s := rtc_hal_write 0x05 (fun _ => temp) 1 s
    let s := (rtc_hal_read 0x05 (fun _ => temp) 1 s).2
    let temp := BIN2BCD time.month % 256
    -- `temp |= ( time.weekday - 1 ) << 5`, the shifted `int` reduced to the byte or-ed in
    let temp := temp ||| toU8 (((time.weekday : Int) - 1) * 32)
    let s := rtc_hal_write 0x06 (fun _ => temp) 1 s
    let s := (rtc_hal_read 0x06 (fun _ => temp) 1 s).2
    let temp := 0
    let s := rtc_hal_write 0 (fun _ => temp) 1 s
    (0, s)
  else if s.current_type = RTC3_BQ32000 then
    let r := rtc_hal_read RTC_SECONDS_ADDR (fun _ => 0) RTC_TIMEDATE_BYTES s
    let buffer := encode_common time r.1
    let s := rtc_hal_write RTC_SECONDS_ADDR buffer RTC_TIMEDATE_BYTES r.2
    let s := (rtc_hal_read RTC_SECONDS_ADDR buffer RTC_TIMEDATE_BYTES s).2
    (0, s)
  else
    let r := rtc_hal_read RTC_SECONDS_ADDR (fun _ => 0) RTC_TIMEDATE_BYTES s
    let buffer := encode_common time r.1
    let s := rtc_hal_write RTC_SECONDS_ADDR buffer RTC_TIMEDATE_BYTES r.2
    let s := (rtc_hal_read RTC_SECONDS_ADDR buffer RTC_TIMEDATE_BYTES s).2
    (0, s)

/-- `rtc_get_local_unix_time`: the `uint32_t` returned and the state after the call. -/
def rtc_get_local_unix_time (s : State) : Int × State :=
  let r := rtc_get_local_time s
  let c := time_date_to_epoch r.1
  (toU32 c.1, { r.2 with local_time := c.2 })


/-! ## Reference calendar

An independent description of the Gregorian calendar by day counting from 1 January 1970
(a Thursday), against which the converters are checked. -/

/-- Gregorian leap-year rule for the full year number `Y`. -/
def is_leap (Y : Nat) : Bool := (Y % 4 == 0 && Y % 100 != 0) || Y % 400 == 0

/-- Number of days of month `m` (1..12) of the year `Y`. -/
def days_in_month (Y m : Nat) : Nat :=
  if m = 2 then (if is_leap Y then 29 else 28)
  else if m = 4 ∨ m = 6 ∨ m = 9 ∨ m = 11 then 30
  else 31

/-- Number of days of the year `Y`. -/
def days_in_year (Y : Nat) : Nat := if is_leap Y then 366 else 365

/-- Days from 1 January 1970 to 1 January of the year `1970 + n`. -/
def days_to_year : Nat → Nat
  | 0 => 0
  | n + 1 => days_to_year n + days_in_year (1970 + n)

/-- Days of the year `Y` that lie in its first `k` months. -/
def days_before_month (Y : Nat) : Nat → Nat
  | 0 => 0
  | k + 1 => days_before_month Y k + days_in_month Y (k + 1)

/-- Days from 1 January 1970 to the date `monthday`.`month`.`2000 + year`. -/
def ref_days (year month monthday : Nat) : Nat :=
  days_to_year (year + 30) + days_before_month (2000 + year) (month - 1) + (monthday - 1)

/-- Day of the week of the date, MONDAY = 1 ... SUNDAY = 7, counted from Thursday
1 January 1970. -/
def ref_weekday (year month monthday : Nat) : Nat := (ref_days year month monthday + 3) % 7 + 1

/-- The Julian Day Number by the standard civil-calendar formula of the specification. -/
def spec_jdn (year month monthday : Nat) : Int :=
  let a : Int := (14 - (month : Int)) / 12
  let y : Int := 2000 + (year : Int) + 4800 - a
  let m : Int := (month : Int) + 12 * a - 3
  (monthday : Int) + (153 * m + 2) / 5 + 365 * y + y / 4 - y / 100 + y / 400 - 32045

/-- A date of the supported range: year 0..99, month 1..12, a real day of that month. -/
def valid_date (t : rtc_time_t) : Prop :=
  t.year ≤ 99 ∧ 1 ≤ t.month ∧ t.month ≤ 12 ∧ 1 ≤ t.monthday ∧
    t.monthday ≤ days_in_month (2000 + t.year) t.month

instance (t : rtc_time_t) : Decidable (valid_date t) := by
  unfold valid_date; infer_instance

/-- A time of day: hours 0..23, minutes 0..59, seconds 0..59. -/
def valid_clock (t : rtc_time_t) : Prop := t.hours ≤ 23 ∧ t.minutes ≤ 59 ∧ t.seconds ≤ 59

instance (t : rtc_time_t) : Decidable (valid_clock t) := by
  unfold valid_clock; infer_instance

/-! ## Auxiliary definitions for the proofs -/

/-- The quotients `N`, `I`, `J` of `julian_to_ymd`, with floor division. -/
def ymd_core (jd : Int) : Int × Int × Int :=
  let L := jd + 68569
  let N := (4 * L) / 146097
  let L := L - (146097 * N + 3) / 4
  let I := (4000 * (L + 1)) / 1461001
  let L := L - ((1461 * I) / 4 - 31)
  let J := (80 * L) / 2447
  (N, I, J)

/-- The buffer `rtc_hal_read` fills from the seven time and date registers of the selected
slave, over a zeroed buffer. -/
def time_regs (s : State) : Nat → Nat :=
  fun i => if i < 7 then s.regs s.i2c_address i % 256 else 0

/-- A register file in which every register of every slave holds 0xFF. -/
def regs_all_ones : Nat → Nat → Nat := fun _ _ => 0xFF

/-- A register file holding the BCD time 23:59:58, Thursday 31.12.(20)37 in registers
0x00..0x06 and 0xFF everywhere else. -/
def regs_sample : Nat → Nat → Nat := fun _ a =>
  if a = 0 then 0x58 else if a = 1 then 0x59 else if a = 2 then 0x23 else if a = 3 then 0x04
  else if a = 4 then 0x31 else if a = 5 then 0x12 else if a = 6 then 0x37 else 0xFF

/-- The calendar time 12:34:56, Thursday (4) 29 February (20)24. -/
def sample_time : rtc_time_t :=
  { seconds := 56, minutes := 34, hours := 12, weekday := 4, monthday := 29, month := 2,
    year := 24 }

/-- Bounded universal quantifier over `k < n`, as a boolean. -/
def all_below (n : Nat) (p : Nat → Bool) : Bool :=
  match n with
  | 0 => true
  | k + 1 => p k && all_below k p

/-- The first day of a month: date with the given year and month, monthday 1. -/
def first_of_month (y m : Nat) : rtc_time_t :=
  { seconds := 0, minutes := 0, hours := 0, weekday := 0, monthday := 1, month := m, year := y }

/-- The check made for each month of the supported range: the quotients of `julian_to_ymd`
agree on the first and the last day of the month, and the first day converts back. -/
def month_check (y m : Nat) : Bool :=
  let a := date_julian_day (first_of_month y m)
  decide (ymd_core a = ymd_core (a + ((days_in_month (2000 + y) m : Nat) : Int) - 1)) &&
    decide (julian_to_ymd a = ((y : Int), (m : Int), 1))

/-- The month check over the years `0 .. ny - 1`. -/
def months_check (ny : Nat) : Bool :=
  all_below ny fun y => all_below 12 fun m => month_check y (m + 1)

/-! ## Sample inputs -/

/-- The state after `rtc_init(RTC2_DS1307, 1)` over the sample register file. -/
def ds1307_state : State := (rtc_init RTC2_DS1307 1 (start_state regs_sample)).2

/-- The state after `rtc_init(RTC_PCF8583, 0)` over registers that all hold 0xFF. -/
def pcf8583_state : State := (rtc_init RTC_PCF8583 0 (start_state regs_all_ones)).2

/-- The calendar time 00:00:00 on 1 January of year field 70, weekday field 4. -/
def year70_time : rtc_time_t :=
  { seconds := 0, minutes := 0, hours := 0, weekday := 4, monthday := 1, month := 1, year := 70 }

/-! ## DST decision of `rtc_get_local_time` -/

/-- The DST part of `rtc_get_local_time`: from the time-zone shifted epoch `temp_time_unix`
and the local time derived from it, whether one of the three adding branches is taken, and
the value of `temp_time_unix` after the `if( dst_enabled )` block. -/
def dst_adjust (temp_time_unix : Int) (local_time : rtc_time_t) : Bool × Int :=
  let w := get_dst local_time.year
  let start := w.1
  let stop := w.2
  if local_time.month > start.month ∧ local_time.month < stop.month then
    let c := time_date_to_epoch local_time
    (true, toU32 (toU32 c.1 + 60 * 60 * 1000))
  else
    -- the two tests of the end month assign `end.month` to `local_time.month`
    let local_time := { local_time with month := stop.month }
    if (local_time.month ≠ 0 ∧ local_time.monthday < stop.monthday) ∨
        (local_time.month ≠ 0 ∧ local_time.hours < 2) then
      let c := time_date_to_epoch local_time
      (true, toU32 (toU32 c.1 + 60 * 60 * 1000))
    else if (local_time.month = start.month ∧ local_time.monthday > start.monthday) ∨
        (local_time.month = start.month ∧ local_time.monthday = start.monthday ∧
          local_time.hours ≥ 2) then
      let c := time_date_to_epoch local_time
      (true, toU32 (toU32 c.1 + 60 * 60 * 1000))
    else (false, toU32 (temp_time_unix - 60 * 60 * 1000))

/-- The tie-break policy of the specification for a local time `t` and the window
`start` .. `stop`: strictly between the months; or in the end month before the boundary day,
or on it before 02:00; or in the start month after the boundary day, or on it from 02:00. -/
def spec_dst_active (t start stop : rtc_time_t) : Prop :=
  (start.month < t.month ∧ t.month < stop.month) ∨
    (t.month = stop.month ∧
      (t.monthday < stop.monthday ∨ (t.monthday = stop.monthday ∧ t.hours < 2))) ∨
    (t.month = start.month ∧
      (t.monthday > start.monthday ∨ (t.monthday = start.monthday ∧ t.hours ≥ 2)))

instance (t start stop : rtc_time_t) : Decidable (spec_dst_active t start stop) := by
  unfold spec_dst_active; infer_instance

/-! ## Further HAL and chip constants -/

/-- `rtc_hal_set_slave`: changes the slave address. -/
def rtc_hal_set_slave (address_id : Nat) (s : State) : State :=
  { s with i2c_address := address_id % 256 }

/-- First SRAM register of the DS1307, `RTC2_RAM_START`. -/
def RTC2_RAM_START : Nat := 0x08

/-- The constant `RTC2_RAM_END`. -/
def RTC2_RAM_END : Nat := 0x3F

/-- Size of the DS1307 RAM, `RTC2_RAM_SIZE`. -/
def RTC2_RAM_SIZE : Nat := 56

/-- Slave address `RTC6_MCP7941X_SRAM_SLAVE`. -/
def RTC6_MCP7941X_SRAM_SLAVE : Nat := 0xDE

/-- Slave address `RTC6_MCP7941X_EEPROM_SLAVE`. -/
def RTC6_MCP7941X_EEPROM_SLAVE : Nat := 0xAE

/-- First SRAM register of the MCP7941X, `RTC6_RAM_START`. -/
def RTC6_RAM_START : Nat := 0x20

/-- The constant `RTC6_RAM_END`. -/
def RTC6_RAM_END : Nat := 0x5f

/-- Size of the MCP7941X RAM, `RTC6_RAM_SIZE`. -/
def RTC6_RAM_SIZE : Nat := 64

/-- The macro `RTC6_EEPROM_SIZE`, `128 * 8`. -/
def RTC6_EEPROM_SIZE : Nat := 128 * 8

/-- The macro `RTC6_EEPROM_START`. -/
def RTC6_EEPROM_START : Nat := 0

/-- The macro `RTC6_EEPROM_END`, which is `RTC6_EEPROM_SIZE`. -/
def RTC6_EEPROM_END : Nat := RTC6_EEPROM_SIZE

/-- The macro `RTC6_EEPROM_PAGE_SIZE`. -/
def RTC6_EEPROM_PAGE_SIZE : Nat := 8

/-- Number of values of `size_t` (32 bits, as on the ARM targets): arithmetic in `size_t`
is reduced modulo this number. -/
def SIZE_T_MOD : Nat := 2 ^ 32

/-- Alarm selector `RTC_ALARM_0` of `rtc_alarm_t`. -/
def RTC_ALARM_0 : Nat := 0

/-- Alarm selector `RTC_ALARM_1` of `rtc_alarm_t`. -/
def RTC_ALARM_1 : Nat := 1

/-- Trigger `RTC_ALARM_SECONDS` of `rtc_alarm_trigger_t`. -/
def RTC_ALARM_SECONDS : Nat := 0

/-- Trigger `RTC_ALARM_MINUTES`. -/
def RTC_ALARM_MINUTES : Nat := 1

/-- Trigger `RTC_ALARM_HOURS`. -/
def RTC_ALARM_HOURS : Nat := 2

/-- Trigger `RTC_ALARM_DAY`. -/
def RTC_ALARM_DAY : Nat := 3

/-- Trigger `RTC_ALARM_DATE`. -/
def RTC_ALARM_DATE : Nat := 4

/-- Trigger `RTC_ALARM_SEC_MIN_HOUR_DAY_DATE_MONTH`. -/
def RTC_ALARM_SEC_MIN_HOUR_DAY_DATE_MONTH : Nat := 5

/-- Trigger `RTC_ALARM_WEEKDAY`. -/
def RTC_ALARM_WEEKDAY : Nat := 6

/-! ## Leap year -/

/-- `rtc_is_leap_year`: the value returned and the state after the call. -/
def rtc_is_leap_year (s : State) : Bool × State :=
  if s.current_type = RTC_PCF8583 then (false, s)
  else if s.current_type = RTC2_DS1307 then
    if s.current_local_time.year % 4 ≠ 0 then (false, s)
    else if s.current_local_time.year % 100 ≠ 0 then (true, s)
    else if s.current_local_time.year % 400 = 0 then (true, s)
    else (false, s)
  else if s.current_type = RTC3_BQ32000 then
    if s.current_local_time.year % 4 ≠ 0 then (false, s)
    else if s.current_local_time.year % 100 ≠ 0 then (true, s)
    else if s.current_local_time.year % 400 = 0 then (true, s)
    else (false, s)
  else if s.current_type = RTC6_MCP7941X then
    let r := rtc_hal_read 0x05 (fun _ => 0) 1 s
    let temp := r.1 0
    let temp := temp &&& 0x20
    if temp = 0 then (false, r.2) else (true, r.2)
  else (false, s)

/-! ## Alarms -/

/-- The six alarm register bytes `rtc_set_alarm` writes back on `RTC6_MCP7941X`: each byte
read is reduced to the bits its clear mask keeps and the BCD-coded field is or-ed in. -/
def encode_alarm (time : rtc_time_t) (buffer : Nat → Nat) : Nat → Nat :=
  let b0 := (RTC_SECONDS_CLEAR (buffer 0) ||| BIN2BCD time.seconds) % 256
  let b1 := (RTC_MINUTES_CLEAR (buffer 1) ||| BIN2BCD time.minutes) % 256
  let b2 := (RTC_HOURS_CLEAR (buffer 2) ||| BIN2BCD time.hours) % 256
  let b3 := (RTC_DAY_CLEAR (buffer 3) ||| BIN2BCD time.weekday) % 256
  let b4 := (RTC_DATE_CLEAR (buffer 4) ||| BIN2BCD time.monthday) % 256
  let b5 := (RTC_MONTH_CLEAR (buffer 5) ||| BIN2BCD time.month) % 256
  fun i =>
    if i = 0 then b0 else if i = 1 then b1 else if i = 2 then b2 else if i = 3 then b3
    else if i = 4 then b4 else if i = 5 then b5 else buffer i

/-- The `switch( trigger )` of `rtc_set_alarm` on `RTC6_MCP7941X`, applied to the alarm
weekday register byte `temp`. -/
def mcp_trigger_bits (trigger temp : Nat) : Nat :=
  if trigger = RTC_ALARM_SECONDS then temp &&& 0x87
  else if trigger = RTC_ALARM_MINUTES then (temp &&& 0x87) ||| (1 <<< 4)
  else if trigger = RTC_ALARM_HOURS then (temp &&& 0x87) ||| (1 <<< 5)
  else if trigger = RTC_ALARM_DAY then ((temp &&& 0x87) ||| (1 <<< 4)) ||| (1 <<< 5)
  else if trigger = RTC_ALARM_DATE then (temp &&& 0x87) ||| (1 <<< 6)
  else if trigger = RTC_ALARM_SEC_MIN_HOUR_DAY_DATE_MONTH then (temp &&& 0x87) ||| 0x70
  else temp

/-- The part of `rtc_set_alarm` on `RTC6_MCP7941X` shared by both alarms: `base` is the
first alarm register (0x0A or 0x11), `trig` the alarm weekday register (0x0D or 0x14), `bit`
the enable bit of the alarm in the control register 0x07 (4 or 5). -/
def mcp_set_alarm (base trig bit trigger : Nat) (time : rtc_time_t) (s : State) : State :=
  let r := rtc_hal_read base (fun _ => 0) 6 s
  let buffer := encode_alarm time r.1
  let s := rtc_hal_write base buffer 6 r.2
  let r := rtc_hal_read trig (fun _ => 0) 1 s
  let temp := mcp_trigger_bits trigger (r.1 0)
  let temp := temp ||| (1 <<< 7)
  let s := rtc_hal_write trig (fun _ => temp) 1 r.2
  let r := rtc_hal_read 0x03 (fun _ => temp) 1 s
  let temp := r.1 0 ||| (1 <<< 3)
  let s := rtc_hal_write 0x03 (fun _ => temp) 1 r.2
  let r := rtc_hal_read 0x07 (fun _ => temp) 1 s
  let temp := r.1 0 &&& 0xBF
  let temp := temp ||| (1 <<< bit)
  rtc_hal_write 0x07 (fun _ => temp) 1 r.2

/-- `rtc_set_alarm`: the state after the call. -/
def rtc_set_alarm (alarm trigger : Nat) (time : rtc_time_t) (s : State) : State :=
  if s.current_type = RTC_PCF8583 then
    let r := rtc_hal_read 0 (fun _ => 0) 1 s
    let temp := r.1 0 ||| (1 <<< 2)
    let s := rtc_hal_write 0 (fun _ => temp) 1 r.2
    let buffer : Nat → Nat := fun i =>
      if i = 0 then time.seconds % 256 else if i = 1 then time.minutes % 256
      else if i = 2 then time.hours % 256 else if i = 3 then time.monthday % 256
      else if i = 4 then time.month % 256 else 0
    let s := rtc_hal_write 0x10 buffer 5 s
    let r := rtc_hal_read 8 (fun _ => temp) 1 s
    let temp := r.1 0
    let temp := temp &&& 0xEF
    let temp := temp &&& 0xDF
    let temp := temp ||| (1 <<< 7)
    let temp :=
      if trigger = RTC_ALARM_DAY then temp ||| (1 <<< 4)
      else if trigger = RTC_ALARM_WEEKDAY then temp ||| (1 <<< 5)
      else if trigger = RTC_ALARM_DATE then (temp ||| (1 <<< 4)) ||| (1 <<< 5)
      else temp
    rtc_hal_write 8 (fun _ => temp) 1 r.2
  else if s.current_type = RTC6_MCP7941X then
    if alarm = RTC_ALARM_0 then mcp_set_alarm 0x0A 0x0D 4 trigger time s
    else if alarm = RTC_ALARM_1 then mcp_set_alarm 0x11 0x14 5 trigger time s
    else s
  else s

/-- `rtc_disable_alarm`: the state after the call. -/
def rtc_disable_alarm (alarm : Nat) (s : State) : State :=
  if s.current_type = RTC_PCF8583 then
    let r := rtc_hal_read 0x00 (fun _ => 0) 1 s
    let temp := r.1 0 ||| (1 <<< 2)
    rtc_hal_write 0x00 (fun _ => temp) 1 r.2
  else if s.current_type = RTC2_DS1307 then s
  else if s.current_type = RTC3_BQ32000 then s
  else if s.current_type = RTC6_MCP7941X then
    let r := rtc_hal_read 0x07 (fun _ => 0) 1 s
    let temp := r.1 0
    if alarm = RTC_ALARM_0 then rtc_hal_write 0x07 (fun _ => temp &&& 0xEF) 1 r.2
    else if alarm = RTC_ALARM_1 then rtc_hal_write 0x07 (fun _ => temp &&& 0xDF) 1 r.2
    else r.2
  else s

/-- Decoding of six alarm register bytes into the static `temp_time` of `rtc_read_alarm`
on `RTC6_MCP7941X`; the year keeps the value it had. -/
def decode_alarm (buffer : Nat → Nat) (temp_time : rtc_time_t) : rtc_time_t :=
  { temp_time with
    seconds := BCD2BIN (RTC_SECONDS_MASK (buffer 0)) % 256
    minutes := BCD2BIN (RTC_MINUTES_MASK (buffer 1)) % 256
    hours := BCD2BIN (RTC_HOURS_MASK (buffer 2)) % 256
    weekday := BCD2BIN (RTC_DAY_MASK (buffer 3)) % 256
    monthday := BCD2BIN (RTC_DATE_MASK (buffer 4)) % 256
    month := BCD2BIN (RTC_MONTH_MASK (buffer 5)) % 256 }

/-- `rtc_read_alarm`: the time the returned pointer refers to (the static `temp_time`), or
`none` for the null pointer, and the state after the call. -/
def rtc_read_alarm (alarm : Nat) (s : State) : Option rtc_time_t × State :=
  if s.current_type = RTC_PCF8583 then
    let r := rtc_hal_read 0x0A (fun _ => 0) 1 s
    let t := { s.alarm_time with seconds := r.1 0 }
    let r := rtc_hal_read 0x0B (fun _ => 0) 1 r.2
    let t := { t with minutes := r.1 0 }
    let r := rtc_hal_read 0x0C (fun _ => 0) 1 r.2
    let t := { t with hours := r.1 0 }
    let r := rtc_hal_read 0x0D (fun _ => 0) 1 r.2
    let t := { t with monthday := r.1 0 }
    let r := rtc_hal_read 0x0E (fun _ => 0) 1 r.2
    let t := { t with month := r.1 0 }
    (some t, { r.2 with alarm_time := t })
  else if s.current_type = RTC2_DS1307 then (some s.alarm_time, s)
  else if s.current_type = RTC3_BQ32000 then (some s.alarm_time, s)
  else if s.current_type = RTC6_MCP7941X then
    if alarm = RTC_ALARM_0 then
      let r := rtc_hal_read 0x0A (fun _ => 0) 6 s
      let t := decode_alarm r.1 s.alarm_time
      (some t, { r.2 with alarm_time := t })
    else if alarm = RTC_ALARM_1 then
      let r := rtc_hal_read 0x11 (fun _ => 0) 6 s
      let t := decode_alarm r.1 s.alarm_time
      (some t, { r.2 with alarm_time := t })
    else (some s.alarm_time, s)
  else (none, s)

/-! ## Memory -/

/-- `rtc_write_sram`: the state after the call. -/
def rtc_write_sram (addr data_in : Nat) (s : State) : State :=
  if s.current_type = RTC2_DS1307 then
    if addr + RTC2_RAM_START < RTC2_RAM_END then
      rtc_hal_write (RTC2_RAM_START + addr) (fun _ => data_in) 1 s
    else s
  else if s.current_type = RTC6_MCP7941X then
    if addr + RTC6_RAM_START < RTC6_RAM_END then
      let s := rtc_hal_set_slave RTC6_MCP7941X_SRAM_SLAVE s
      let s := rtc_hal_write (RTC6_RAM_START + addr) (fun _ => data_in) 1 s
      rtc_hal_set_slave RTC6_MCP7941X_SLAVE s
    else s
  else s

/-- `rtc_write_sram_bulk`: the state after the call.  The sum in the range check is formed
in `size_t`. -/
def rtc_write_sram_bulk (addr : Nat) (data_in : Nat → Nat) (data_size : Nat) (s : State) :
    State :=
  if s.current_type = RTC2_DS1307 then
    if (addr + RTC2_RAM_START + data_size) % SIZE_T_MOD < RTC2_RAM_END then
      rtc_hal_write (RTC2_RAM_START + addr) data_in data_size s
    else s
  else if s.current_type = RTC6_MCP7941X then
    if (addr + RTC6_RAM_START + data_size) % SIZE_T_MOD < RTC6_RAM_END then
      let s := rtc_hal_set_slave RTC6_MCP7941X_SRAM_SLAVE s
      let s := rtc_hal_write (RTC6_RAM_START + addr) data_in data_size s
      rtc_hal_set_slave RTC6_MCP7941X_SLAVE s
    else s
  else s

/-- `rtc_read_sram`: the byte returned and the state after the call. -/
def rtc_read_sram (addr : Nat) (s : State) : Nat × State :=
  let temp := 0
  if s.current_type = RTC2_DS1307 then
    if addr + RTC2_RAM_START < RTC2_RAM_END then
      let r := rtc_hal_read (RTC2_RAM_START + addr) (fun _ => temp) 1 s
      (r.1 0, r.2)
    else (temp, s)
  else if s.current_type = RTC6_MCP7941X then
    if addr + RTC6_RAM_START < RTC6_RAM_END then
      let s := rtc_hal_set_slave RTC6_MCP7941X_SRAM_SLAVE s
      let r := rtc_hal_read (RTC6_RAM_START + addr) (fun _ => temp) 1 s
      (r.1 0, rtc_hal_set_slave RTC6_MCP7941X_SLAVE r.2)
    else (temp, s)
  else (temp, s)

/-- `rtc_read_sram_bulk`: the buffer `data_out` after the call and the state after it. -/
def rtc_read_sram_bulk (addr : Nat) (data_out : Nat → Nat) (data_size : Nat) (s : State) :
    (Nat → Nat) × State :=
  if s.current_type = RTC2_DS1307 then
    if addr + RTC2_RAM_START + data_size < RTC2_RAM_END then
      rtc_hal_read (RTC2_RAM_START + addr) data_out data_size s
    else (data_out, s)
  else if s.current_type = RTC6_MCP7941X then
    if addr + RTC6_RAM_START + data_size < RTC6_RAM_END then
      let s := rtc_hal_set_slave RTC6_MCP7941X_SRAM_SLAVE s
      let r := rtc_hal_read (RTC6_RAM_START + addr) data_out data_size s
      (r.1, rtc_hal_set_slave RTC6_MCP7941X_SLAVE r.2)
    else (data_out, s)
  else (data_out, s)

/-- The loop `for( i = 0; i < count; i++ )` of `rtc_write_eeprom`, entered with the loop
variable `i` and `remaining = count - i` rounds to go: each round writes one page of 8
bytes, `data_in[8 i ..]`, at `addr + 8 i`. -/
def eeprom_page_loop (addr : Nat) (data_in : Nat → Nat) (i : Nat) : Nat → State → State
  | 0, s => s
  | remaining + 1, s =>
    eeprom_page_loop addr data_in (i + 1) remaining
      (rtc_hal_write (addr + i * 8) (fun j => data_in (i * 8 + j)) RTC6_EEPROM_PAGE_SIZE s)

/-- `rtc_write_eeprom`: the value returned and the state after the call. -/
def rtc_write_eeprom (addr : Nat) (data_in : Nat → Nat) (data_size : Nat) (s : State) :
    Bool × State :=
  if s.current_type = RTC6_MCP7941X then
    if addr ≥ RTC6_EEPROM_START ∧ addr + data_size < RTC6_EEPROM_END then
      let s := rtc_hal_set_slave RTC6_MCP7941X_EEPROM_SLAVE s
      let s :=
        if data_size ≤ RTC6_EEPROM_PAGE_SIZE then rtc_hal_write addr data_in data_size s
        else
          let count := (data_size / RTC6_EEPROM_PAGE_SIZE) % 256
          let rem := (data_size % RTC6_EEPROM_PAGE_SIZE) % 256
          let s := eeprom_page_loop addr data_in 0 count s
          if rem ≠ 0 then
            rtc_hal_write (addr + count * 8) (fun j => data_in (count * 8 + j)) rem s
          else s
      (true, rtc_hal_set_slave RTC6_MCP7941X_SLAVE s)
    else (true, s)
  else (true, s)

/-! ## Auxiliary definitions for the memory claims -/

/-- The bytes `data[off .. off + len)` as the transport carries them. -/
def data_chunk (data : Nat → Nat) (off len : Nat) : List Nat :=
  (List.range len).map fun j => data (off + j) % 256

/-- The writes the specification describes for `rtc_write_eeprom(addr, data, n)`: one write
of the `n` bytes when `n <= 8`; otherwise `n / 8` writes of 8 bytes, the `k`-th carrying
`data[8 k ..]` to `addr + 8 k`, followed, when `n % 8` is not 0, by one write of the last
`n % 8` bytes. -/
def spec_eeprom_writes (addr : Nat) (data : Nat → Nat) (n : Nat) : List HalCall :=
  if n ≤ 8 then [HalCall.write RTC6_MCP7941X_EEPROM_SLAVE addr (data_chunk data 0 n)]
  else
    ((List.range (n / 8)).map fun k =>
      HalCall.write RTC6_MCP7941X_EEPROM_SLAVE (addr + 8 * k) (data_chunk data (8 * k) 8)) ++
    (if n % 8 ≠ 0 then
      [HalCall.write RTC6_MCP7941X_EEPROM_SLAVE (addr + 8 * (n / 8))
        (data_chunk data (8 * (n / 8)) (n % 8))]
    else [])

/-- The register address and byte pairs a transport call writes, in order (none for a
read). -/
def written_bytes : HalCall → List (Nat × Nat)
  | HalCall.read _ _ _ => []
  | HalCall.write _ address data => (List.range data.length).map fun j => (address + j, data.getD j 0)

/-- The number of bytes a transport call moves. -/
def call_length : HalCall → Nat
  | HalCall.read _ _ num_bytes => num_bytes
  | HalCall.write _ _ data => data.length

/-- The transport call `c` touches register `a`: the register lies among the
consecutive registers the call reads or writes. -/
def call_touches (c : HalCall) (a : Nat) : Prop :=
  match c with
  | HalCall.read _ address num_bytes => address ≤ a ∧ a < address + num_bytes
  | HalCall.write _ address data => address ≤ a ∧ a < address + data.length

/-- The SRAM window `[start, end)` of the chip type, from `RTC2_RAM_START` / `RTC2_RAM_END`
and `RTC6_RAM_START` / `RTC6_RAM_END`; empty for a chip without SRAM support. -/
def sram_window (type : Nat) : Nat × Nat :=
  if type = RTC2_DS1307 then (RTC2_RAM_START, RTC2_RAM_END)
  else if type = RTC6_MCP7941X then (RTC6_RAM_START, RTC6_RAM_END)
  else (0, 0)

/-- Every call logged after the first `n` calls touches only registers of the SRAM window
of the chip type. -/
def new_calls_in_window (type n : Nat) (calls : List HalCall) : Prop :=
  ∀ c ∈ calls.drop n, ∀ a, call_touches c a →
    (sram_window type).1 ≤ a ∧ a < (sram_window type).2

/-! ## Sample inputs for the DST rule -/

/-- A register file holding the BCD time 12:00:00, Monday 1.7.(20)24 in registers
0x00..0x06 and 0 everywhere else. -/
def regs_july : Nat → Nat → Nat := fun _ a =>
  if a = 0 then 0x00 else if a = 1 then 0x00 else if a = 2 then 0x12 else if a = 3 then 0x01
  else if a = 4 then 0x01 else if a = 5 then 0x07 else if a = 6 then 0x24 else 0

/-- The state after `rtc_init(RTC2_DS1307, 0)` and `rtc_enable_dst()` over `regs_july`. -/
def july_dst_state : State :=
  rtc_enable_dst (rtc_init RTC2_DS1307 0 (start_state regs_july)).2

/-- A register file holding the BCD time 12:00:00, Monday 1.1.(20)24 in registers
0x00..0x06 and 0 everywhere else. -/
def regs_january : Nat → Nat → Nat := fun _ a =>
  if a = 0 then 0x00 else if a = 1 then 0x00 else if a = 2 then 0x12 else if a = 3 then 0x01
  else if a = 4 then 0x01 else if a = 5 then 0x01 else if a = 6 then 0x24 else 0

/-- The state after `rtc_init(RTC2_DS1307, 0)` and `rtc_enable_dst()` over
`regs_january`. -/
def january_dst_state : State :=
  rtc_enable_dst (rtc_init RTC2_DS1307 0 (start_state regs_january)).2

/-- The local time 12:00:00 on Monday 1 January (20)24. -/
def january_first : rtc_time_t :=
  { seconds := 0, minutes := 0, hours := 12, weekday := 1, monthday := 1, month := 1,
    year := 24 }

/-- The local time 12:00:00 on Monday 1 July (20)24. -/
def july_first : rtc_time_t :=
  { seconds := 0, minutes := 0, hours := 12, weekday := 1, monthday := 1, month := 7,
    year := 24 }

/-- The state after `rtc_init(RTC2_DS1307, 0)` over registers that all hold 0. -/
def ds1307_zero_state : State := (rtc_init RTC2_DS1307 0 (start_state fun _ _ => 0)).2

/-- The state after `rtc_init(RTC6_MCP7941X, 0)` over registers that all hold 0. -/
def mcp7941x_zero_state : State := (rtc_init RTC6_MCP7941X 0 (start_state fun _ _ => 0)).2

/-- Sample EEPROM data: byte `i` is `i + 1`. -/
def sample_data : Nat → Nat := fun i => i + 1

/-! ## Square wave output -/

/-- `RTC_1HZ` of `rtc_swo_t`. -/
def RTC_1HZ : Nat := 0

/-- `RTC_4_096KHZ` of `rtc_swo_t`. -/
def RTC_4_096KHZ : Nat := 1

/-- `RTC_8_192KHZ` of `rtc_swo_t`. -/
def RTC_8_192KHZ : Nat := 2

/-- `RTC_32_768KHZ` of `rtc_swo_t`. -/
def RTC_32_768KHZ : Nat := 3

/-- The `switch ( swo )` of `rtc_enable_swo` on `RTC2_DS1307`, applied to the control
register byte `temp` (`~( 0b00000011 )` and `~( 0b00000010 )` leave the bytes 0xFC and 0xFD
of a `uint8_t`). -/
def ds1307_swo_bits (swo temp : Nat) : Nat :=
  if swo = RTC_1HZ then temp &&& 0xFC
  else if swo = RTC_4_096KHZ then (temp &&& 0xFD) ||| 0x01
  else if swo = RTC_8_192KHZ then temp ||| (1 <<< 1)
  else if swo = RTC_32_768KHZ then temp ||| 0x03
  else temp

/-- The `switch( swo )` of `rtc_enable_swo` on `RTC6_MCP7941X`, applied to the control
register byte `temp` (`~( 0b00000111 )` leaves the byte 0xF8 of a `uint8_t`). -/
def mcp_swo_bits (swo temp : Nat) : Nat :=
  if swo = RTC_1HZ then temp &&& 0xF8
  else if swo = RTC_4_096KHZ then (temp &&& 0xF8) ||| 0x01
  else if swo = RTC_8_192KHZ then (temp &&& 0xF8) ||| (1 <<< 1)
  else if swo = RTC_32_768KHZ then (temp &&& 0xF8) ||| 0x03
  else temp

/-- `rtc_enable_swo`: the state after the call. -/
def rtc_enable_swo (swo : Nat) (s : State) : State :=
  if s.current_type = RTC_PCF8583 then s
  else if s.current_type = RTC2_DS1307 then
    let r := rtc_hal_read 0x07 (fun _ => 0) 1 s
    let temp := r.1 0 ||| (1 <<< 4)
    let temp := ds1307_swo_bits swo temp
    rtc_hal_write 0x07 (fun _ => temp) 1 r.2
  else if s.current_type = RTC6_MCP7941X then
    let r := rtc_hal_read 0x07 (fun _ => 0) 1 s
    let temp := r.1 0 ||| (1 <<< 6)
    let temp := mcp_swo_bits swo temp
    rtc_hal_write 0x07 (fun _ => temp) 1 r.2
  else s

/-- `rtc_disable_swo`: the state after the call (`~( 1 << 7 )` and `~( 1 << 6 )` leave the
bytes 0x7F and 0xBF). -/
def rtc_disable_swo (s : State) : State :=
  if s.current_type = RTC_PCF8583 then s
  else if s.current_type = RTC2_DS1307 then
    let r := rtc_hal_read 0x07 (fun _ => 0) 1 s
    let temp := r.1 0 &&& 0x7F
    rtc_hal_write 0x07 (fun _ => temp) 1 r.2
  else if s.current_type = RTC6_MCP7941X then
    let r := rtc_hal_read 0x07 (fun _ => 0) 1 s
    let temp := r.1 0 &&& 0xBF
    rtc_hal_write 0x07 (fun _ => temp) 1 r.2
  else s

/-! ## EEPROM write protection -/

/-- `rtc_eeprom_write_protect_on`: the state after the call. -/
def rtc_eeprom_write_protect_on (s : State) : State :=
  if s.current_type = RTC6_MCP7941X then
    let s := rtc_hal_set_slave RTC6_MCP7941X_EEPROM_SLAVE s
    let r := rtc_hal_read 0xff (fun _ => 0) 1 s
    let temp := r.1 0 ||| ((1 <<< 3) ||| (1 <<< 2))
    let s := rtc_hal_write 0xff (fun _ => temp) 1 r.2
    rtc_hal_set_slave RTC6_MCP7941X_SLAVE s
  else s

/-- `rtc_eeprom_write_protect_off`: the state after the call. In
`temp &= ~( 1 << 3 ) | ( 1 << 2 )` the complement applies to `( 1 << 3 )` alone and leaves
the byte 0xF7, which is then or-ed with `( 1 << 2 )`. -/
def rtc_eeprom_write_protect_off (s : State) : State :=
  if s.current_type = RTC6_MCP7941X then
    let s := rtc_hal_set_slave RTC6_MCP7941X_EEPROM_SLAVE s
    let r := rtc_hal_read 0xff (fun _ => 0) 1 s
    let temp := r.1 0 &&& (0xF7 ||| (1 <<< 2))
    let s := rtc_hal_write 0xff (fun _ => temp) 1 r.2
    rtc_hal_set_slave RTC6_MCP7941X_SLAVE s
  else s

/-- `rtc_eeprom_is_locked`: the value returned and the state after the call. In
`temp & ( 1 << 3 ) | ( 1 << 2 )` the `&` binds tighter than the `|`. -/
def rtc_eeprom_is_locked (s : State) : Bool × State :=
  if s.current_type = RTC6_MCP7941X then
    let s := rtc_hal_set_slave RTC6_MCP7941X_EEPROM_SLAVE s
    let r := rtc_hal_read 0xff (fun _ => 0) 1 s
    let temp := r.1 0
    let s := rtc_hal_set_slave RTC6_MCP7941X_SLAVE r.2
    (((temp &&& (1 <<< 3)) ||| (1 <<< 2)) != 0, s)
  else (false, s)

/-! ## Sample inputs for the alarm, square wave and write-protection claims -/

/-- A `RTC_PCF8583` session over registers that are all zero. -/
def pcf8583_zero_state : State := (rtc_init RTC_PCF8583 0 (start_state fun _ _ => 0)).2

/-- The epoch of 1969-12-31T00:00:00, one day before the Unix epoch. -/
def day_before_1970 : Int := -86400

/-- The calendar time 2038-01-19T03:14:08, one second past the largest signed 32-bit
epoch. -/
def after_int32_time : rtc_time_t :=
  { seconds := 8, minutes := 14, hours := 3, weekday := 2, monthday := 19, month := 1,
    year := 38 }

/-! ## Battery, power failure, EEPROM reads and the unique ID -/

/-- `rtc_battery_enable`: the state after the call. -/
def rtc_battery_enable (s : State) : State :=
  let temp := 0
  if s.current_type = RTC6_MCP7941X then
    let r := rtc_hal_read 0x03 (fun _ => temp) 1 s
    let temp := r.1 0 ||| (1 <<< 3)
    rtc_hal_write 0x03 (fun _ => temp) 1 r.2
  else s

/-- `rtc_is_power_failure`: the value returned and the state after the call. -/
def rtc_is_power_failure (s : State) : Bool × State :=
  if s.current_type = RTC_PCF8583 then (false, s)
  else if s.current_type = RTC2_DS1307 then (false, s)
  else if s.current_type = RTC3_BQ32000 then
    let r := rtc_hal_read 0x01 (fun _ => 0) 1 s
    let temp := r.1 0 &&& (1 <<< 7)
    if temp = 0 then (false, r.2) else (true, r.2)
  else if s.current_type = RTC6_MCP7941X then
    let r := rtc_hal_read 0x03 (fun _ => 0) 1 s
    let temp := r.1 0 &&& (1 <<< 4)
    if temp = 0 then (false, r.2) else (true, r.2)
  else (false, s)

/-- `rtc_get_last_power_failure`: the time the returned pointer refers to (the static
`stamp`), or `none` for the null pointer, and the state after the call. -/
def rtc_get_last_power_failure (s : State) : Option rtc_time_t × State :=
  if s.current_type = RTC_PCF8583 then (some s.stamp, s)
  else if s.current_type = RTC2_DS1307 then (some s.stamp, s)
  else if s.current_type = RTC3_BQ32000 then (some s.stamp, s)
  else if s.current_type = RTC6_MCP7941X then
    let r := rtc_hal_read 0x18 (fun _ => 0) 4 s
    let buffer := r.1
    let stamp : rtc_time_t :=
      { s.stamp with
        minutes := BCD2BIN (RTC_MINUTES_MASK (buffer 0)) % 256
        hours := BCD2BIN (RTC_HOURS_MASK (buffer 1)) % 256
        monthday := BCD2BIN (RTC_DATE_MASK (buffer 2)) % 256
        weekday := BCD2BIN (buffer 3 &&& 0xE0) % 256
        month := BCD2BIN (buffer 3 &&& 0x1F) % 256 }
    (some stamp, { r.2 with stamp := stamp })
  else (none, s)

/-- `rtc_read_eeprom`: the buffer `data_out` after the call and the state after it. -/
def rtc_read_eeprom (addr : Nat) (data_out : Nat → Nat) (data_size : Nat) (s : State) :
    (Nat → Nat) × State :=
  if s.current_type = RTC6_MCP7941X then
    if data_size < RTC6_EEPROM_SIZE ∧ addr + data_size < RTC6_EEPROM_END ∧
        addr ≥ RTC6_EEPROM_START then
      let s := rtc_hal_set_slave RTC6_MCP7941X_EEPROM_SLAVE s
      let r := rtc_hal_read addr data_out data_size s
      (r.1, rtc_hal_set_slave RTC6_MCP7941X_SLAVE r.2)
    else (data_out, s)
  else (data_out, s)

/-- `rtc_read_unique_id`: the eight bytes the returned pointer refers to (the static
`unique_id`), or `none` for the null pointer, and the state after the call. -/
def rtc_read_unique_id (s : State) : Option (Nat → Nat) × State :=
  if s.current_type = RTC6_MCP7941X then
    let s := rtc_hal_set_slave RTC6_MCP7941X_EEPROM_SLAVE s
    let r := rtc_hal_read 0xF0 s.unique_id 8 s
    let s := rtc_hal_set_slave RTC6_MCP7941X_SLAVE r.2
    (some r.1, { s with unique_id := r.1 })
  else (none, s)

/-- Register that unlocks the unique ID, `RTC6_EEPROM_ID_UNLOCK_ADR`. -/
def RTC6_EEPROM_ID_UNLOCK_ADR : Nat := 0x09

/-- `rtc_write_unique_id`: the state after the call; `id` is `none` for the null pointer. -/
def rtc_write_unique_id (id : Option (Nat → Nat)) (s : State) : State :=
  if s.current_type = RTC6_MCP7941X then
    let temp := 0x55
    match id with
    | none => s
    | some id =>
      let s := rtc_hal_set_slave RTC6_MCP7941X_EEPROM_SLAVE s
      let s := rtc_hal_write RTC6_EEPROM_ID_UNLOCK_ADR (fun _ => temp) 1 s
      let temp := 0xAA
      let s := rtc_hal_write RTC6_EEPROM_ID_UNLOCK_ADR (fun _ => temp) 1 s
      let s := rtc_hal_write 0xF0 id 8 s
      rtc_hal_set_slave RTC6_MCP7941X_SLAVE s
  else s

/-! ## Sequences of library calls -/

/-- A call of one of the functions `rtc.c` defines, with its arguments. -/
inductive ApiCall where
  | rtc_init (type : Nat) (time_zone : Int)
  | rtc_enable_dst
  | rtc_disable_dst
  | rtc_enable_swo (swo : Nat)
  | rtc_disable_swo
  | rtc_battery_enable
  | rtc_get_gmt_time
  | rtc_get_local_time
  | rtc_set_gmt_time (time : rtc_time_t)
  | rtc_get_gmt_unix_time
  | rtc_get_local_unix_time
  | rtc_is_leap_year
  | rtc_is_power_failure
  | rtc_get_last_power_failure
  | rtc_set_alarm (alarm trigger : Nat) (time : rtc_time_t)
  | rtc_disable_alarm (alarm : Nat)
  | rtc_read_alarm (alarm : Nat)
  | rtc_write_sram (addr data_in : Nat)
  | rtc_write_sram_bulk (addr : Nat) (data_in : Nat → Nat) (data_size : Nat)
  | rtc_read_sram (addr : Nat)
  | rtc_read_sram_bulk (addr : Nat) (data_out : Nat → Nat) (data_size : Nat)
  | rtc_eeprom_write_protect_on
  | rtc_eeprom_write_protect_off
  | rtc_eeprom_is_locked
  | rtc_write_eeprom (addr : Nat) (data_in : Nat → Nat) (data_size : Nat)
  | rtc_read_eeprom (addr : Nat) (data_out : Nat → Nat) (data_size : Nat)
  | rtc_read_unique_id
  | rtc_write_unique_id (id : Option (Nat → Nat))

/-- The state after a library call. -/
def api_step (c : ApiCall) (s : State) : State :=
  match c with
  | ApiCall.rtc_init type time_zone => (rtc_init type time_zone s).2
  | ApiCall.rtc_enable_dst => rtc_enable_dst s
  | ApiCall.rtc_disable_dst => rtc_disable_dst s
  | ApiCall.rtc_enable_swo swo => rtc_enable_swo swo s
  | ApiCall.rtc_disable_swo => rtc_disable_swo s
  | ApiCall.rtc_battery_enable => rtc_battery_enable s
  | ApiCall.rtc_get_gmt_time => (rtc_get_gmt_time s).2
  | ApiCall.rtc_get_local_time => (rtc_get_local_time s).2
  | ApiCall.rtc_set_gmt_time time => (rtc_set_gmt_time time s).2
  | ApiCall.rtc_get_gmt_unix_time => (rtc_get_gmt_unix_time s).2
  | ApiCall.rtc_get_local_unix_time => (rtc_get_local_unix_time s).2
  | ApiCall.rtc_is_leap_year => (rtc_is_leap_year s).2
  | ApiCall.rtc_is_power_failure => (rtc_is_power_failure s).2
  | ApiCall.rtc_get_last_power_failure => (rtc_get_last_power_failure s).2
  | ApiCall.rtc_set_alarm alarm trigger time => rtc_set_alarm alarm trigger time s
  | ApiCall.rtc_disable_alarm alarm => rtc_disable_alarm alarm s
  | ApiCall.rtc_read_alarm alarm => (rtc_read_alarm alarm s).2
  | ApiCall.rtc_write_sram addr data_in => rtc_write_sram addr data_in s
  | ApiCall.rtc_write_sram_bulk addr data_in data_size =>
    rtc_write_sram_bulk addr data_in data_size s
  | ApiCall.rtc_read_sram addr => (rtc_read_sram addr s).2
  | ApiCall.rtc_read_sram_bulk addr data_out data_size =>
    (rtc_read_sram_bulk addr data_out data_size s).2
  | ApiCall.rtc_eeprom_write_protect_on => rtc_eeprom_write_protect_on s
  | ApiCall.rtc_eeprom_write_protect_off => rtc_eeprom_write_protect_off s
  | ApiCall.rtc_eeprom_is_locked => (rtc_eeprom_is_locked s).2
  | ApiCall.rtc_write_eeprom addr data_in data_size =>
    (rtc_write_eeprom addr data_in data_size s).2
  | ApiCall.rtc_read_eeprom addr data_out data_size =>
    (rtc_read_eeprom addr data_out data_size s).2
  | ApiCall.rtc_read_unique_id => (rtc_read_unique_id s).2
  | ApiCall.rtc_write_unique_id id => rtc_write_unique_id id s

/-- What can happen between program start and a query: a library call, or the device
changing its registers on its own (the clock counting, a power failure being latched). -/
inductive Event where
  | call (c : ApiCall)
  | device (regs : Nat → Nat → Nat)

/-- The state after an event. -/
def event_step (e : Event) (s : State) : State :=
  match e with
  | Event.call c => api_step c s
  | Event.device regs => { s with regs := regs }

/-- The state after a sequence of events, oldest first. -/
def run (events : List Event) (s : State) : State :=
  events.foldl (fun s e => event_step e s) s

/-- The event is not a call of `rtc_enable_dst`. -/
def not_enable_dst (e : Event) : Bool :=
  match e with
  | Event.call ApiCall.rtc_enable_dst => false
  | _ => true

/-! ## Auxiliary definitions and sample inputs for the session claims -/

/-- The slave address `rtc_init` selects for a chip type. -/
def chip_slave (type : Nat) : Nat :=
  if type = RTC_PCF8583 then RTC_PCF8583_SLAVE
  else if type = RTC2_DS1307 then RTC2_DS1307_SLAVE
  else if type = RTC3_BQ32000 then RTC3_BQ32000_SLAVE
  else RTC6_MCP7941X_SLAVE

/-- A register file holding a power-fail time stamp in registers 0x18..0x1B (minutes 59,
hours 23, date 31, weekday bits 7 and month 12) and 0 everywhere else. -/
def regs_power_fail : Nat → Nat → Nat := fun _ a =>
  if a = 0x18 then 0x59 else if a = 0x19 then 0x23 else if a = 0x1A then 0x31
  else if a = 0x1B then 0xF2 else 0

/-- The state after `rtc_init(RTC6_MCP7941X, 0)` over the power-fail register file. -/
def mcp7941x_power_state : State := (rtc_init RTC6_MCP7941X 0 (start_state regs_power_fail)).2

/-- A session on a DS1307: initialise, set the time 12:34:56 on 29.2.(20)24, let the clock
run on to the sample register file, read the local time. -/
def ds1307_session : List Event :=
  [Event.call (ApiCall.rtc_init RTC2_DS1307 1), Event.call (ApiCall.rtc_set_gmt_time sample_time),
    Event.device regs_sample, Event.call ApiCall.rtc_get_local_time]

/-- The calendar time 2038-01-19T03:14:07, the largest signed 32-bit epoch. -/
def last_int32_time : rtc_time_t :=
  { seconds := 7, minutes := 14, hours := 3, weekday := 2, monthday := 19, month := 1,
    year := 38 }

/-- The part of the session state that only the DST switches may change: the cached
`current_local_time` and the DST flag of `s2` are those of `s1`. -/
def session_kept (s1 s2 : State) : Prop :=
  s2.current_local_time = s1.current_local_time ∧ s2.dst_enabled = s1.dst_enabled

/-- A register file holding the BCD time 12:00:00, Sunday 1.1.(20)40 in registers
0x00..0x06 and 0 everywhere else. -/
def regs_2040 : Nat → Nat → Nat := fun _ a =>
  if a = 2 then 0x12 else if a = 3 then 0x07 else if a = 4 then 0x01 else if a = 5 then 0x01
  else if a = 6 then 0x40 else 0

/-- The state after `rtc_init(RTC2_DS1307, 0)` over the register file of 1.1.(20)40. -/
def ds1307_2040_state : State := (rtc_init RTC2_DS1307 0 (start_state regs_2040)).2

theorem all_below_spec (n : Nat) (p : Nat → Bool) (h : all_below n p = true) :
    ∀ k < n, p k = true := by
  induction n with
  | zero => intro k hk; omega
  | succ n ih =>
    intro k hk
    simp only [all_below, Bool.and_eq_true] at h
    rcases Nat.lt_succ_iff_lt_or_eq.mp hk with h1 | h1
    · exact ih h.2 k h1
    · subst h1; exact h.1

/-- The Julian day of `time_date_to_epoch` in closed form, with floor division: the
Gregorian correction is applied for every input. -/
theorem date_julian_day_eq (ts : rtc_time_t) :
    date_julian_day ts =
      (2 * ((((ts.year : Int) + 6800) * 12 + ((ts.month : Int) - 3)) % 12) + 7 +
          365 * (((ts.year : Int) + 6800) * 12 + ((ts.month : Int) - 3))) / 12 +
        (ts.monthday : Int) + (((ts.year : Int) + 6800) * 12 + ((ts.month : Int) - 3)) / 48 -
        32083 + (((ts.year : Int) + 6800) * 12 + ((ts.month : Int) - 3)) / 4800 -
        (((ts.year : Int) + 6800) * 12 + ((ts.month : Int) - 3)) / 1200 + 38 := by
  have hji : date_ji ts = ((ts.year : Int) + 6800) * 12 + ((ts.month : Int) - 3) := by
    simp only [date_ji]; omega
  have h0 : (0 : Int) ≤ ((ts.year : Int) + 6800) * 12 + ((ts.month : Int) - 3) := by omega
  simp only [date_julian_day, hji]
  rw [Int.tmod_eq_emod h0 (by omega), Int.tdiv_eq_ediv (by omega) (by omega),
    Int.tdiv_eq_ediv h0 (by omega), Int.tdiv_eq_ediv h0 (by omega),
    Int.tdiv_eq_ediv h0 (by omega)]
  rw [if_pos (by omega)]
  omega

theorem is_leap_iff (n : Nat) (h : n < 130) : is_leap (1970 + n) = true ↔ (n + 2) % 4 = 0 := by
  simp only [is_leap, Bool.or_eq_true, Bool.and_eq_true, beq_iff_eq, bne_iff_ne, ne_eq]
  omega

theorem days_to_year_eq (n : Nat) (h : n ≤ 130) : days_to_year n = 365 * n + (n + 1) / 4 := by
  induction n with
  | zero => rfl
  | succ n ih =>
    have hl := is_leap_iff n (by omega)
    have ih1 := ih (by omega)
    simp only [days_to_year, days_in_year]
    by_cases hc : is_leap (1970 + n) = true
    · have := hl.mp hc
      rw [if_pos hc]; omega
    · have : ¬ (n + 2) % 4 = 0 := fun h4 => hc (hl.mpr h4)
      rw [if_neg hc]; omega

/-- Days in the first `k` months of the year `2000 + y`, for `y < 100`. -/
theorem days_before_month_eq (y k : Nat) (hy : y ≤ 99) (hk : k ≤ 11) :
    days_before_month (2000 + y) k =
      (367 * ((k + 10) % 12) + 7) / 12 + (if k < 2 then 0 else if y % 4 = 0 then 1 else 0)
        + (if k < 2 then 0 else 59) - (if k < 2 then 306 else 0) := by
  have hl : is_leap (2000 + y) = true ↔ y % 4 = 0 := by
    have := is_leap_iff (y + 30) (by omega)
    rw [show 1970 + (y + 30) = 2000 + y by omega] at this
    rw [this]; omega
  by_cases hc : is_leap (2000 + y) = true
  · have h4 := hl.mp hc
    interval_cases k <;> simp [days_before_month, days_in_month, hc, h4]
  · have h4 : ¬ y % 4 = 0 := fun h => hc (hl.mpr h)
    interval_cases k <;> simp [days_before_month, days_in_month, hc, h4]

/-- The Julian day computed by `time_date_to_epoch` is the day count from 1 January 1970,
moved by the Julian day of that date. -/
theorem date_julian_day_ref (ts : rtc_time_t) (hy : ts.year ≤ 99) (hm1 : 1 ≤ ts.month)
    (hm2 : ts.month ≤ 12) (hd : 1 ≤ ts.monthday) :
    date_julian_day ts = 2440588 + (ref_days ts.year ts.month ts.monthday : Int) := by
  obtain ⟨sec, mi, hr, w, d, m, y⟩ := ts
  simp only at hy hm1 hm2 hd
  rw [date_julian_day_eq, ref_days]
  simp only
  rw [days_to_year_eq _ (by omega), days_before_month_eq _ _ hy (by omega)]
  interval_cases m <;> simp <;> omega

/-- The code's Julian day is the Julian Day Number of the specification's formula. -/
theorem date_julian_day_spec (ts : rtc_time_t) (hm1 : 1 ≤ ts.month) (hm2 : ts.month ≤ 12) :
    date_julian_day ts = spec_jdn ts.year ts.month ts.monthday := by
  obtain ⟨sec, mi, hr, w, d, m, y⟩ := ts
  simp only at hm1 hm2
  rw [date_julian_day_eq, spec_jdn]
  simp only
  interval_cases m <;> simp <;> omega

theorem julian_to_ymd_eq (jd : Int) (h : 0 ≤ jd) :
    julian_to_ymd jd =
      (let c := ymd_core jd
       let L := jd + 68569 - (146097 * c.1 + 3) / 4 - ((1461 * c.2.1) / 4 - 31)
       (100 * (c.1 - 49) + c.2.1 + c.2.2 / 11 - 2000, c.2.2 + 2 - 12 * (c.2.2 / 11),
         L - (2447 * c.2.2) / 80)) := by
  simp (disch := omega) only [julian_to_ymd, ymd_core, Int.tdiv_eq_ediv]

theorem ymd_core_squeeze (a b jd : Int) (h1 : a ≤ jd) (h2 : jd ≤ b)
    (hc : ymd_core a = ymd_core b) : ymd_core jd = ymd_core a := by
  simp only [ymd_core, Prod.mk.injEq] at hc ⊢
  obtain ⟨hN, hI, hJ⟩ := hc
  have eN : 4 * (jd + 68569) / 146097 = 4 * (a + 68569) / 146097 := by omega
  rw [← hN] at hI hJ
  rw [eN]
  generalize (146097 * (4 * (a + 68569) / 146097) + 3) / 4 = c1 at hI hJ ⊢
  have eI : 4000 * (jd + 68569 - c1 + 1) / 1461001 = 4000 * (a + 68569 - c1 + 1) / 1461001 := by
    omega
  rw [← hI] at hJ
  rw [eI]
  generalize 1461 * (4000 * (a + 68569 - c1 + 1) / 1461001) / 4 - 31 = c2 at hJ ⊢
  refine ⟨rfl, rfl, ?_⟩
  omega

theorem julian_to_ymd_squeeze (a b jd : Int) (ha : 0 ≤ a) (h1 : a ≤ jd) (h2 : jd ≤ b)
    (hc : ymd_core a = ymd_core b) :
    julian_to_ymd jd =
      ((julian_to_ymd a).1, (julian_to_ymd a).2.1, (julian_to_ymd a).2.2 + (jd - a)) := by
  rw [julian_to_ymd_eq jd (by omega), julian_to_ymd_eq a ha, ymd_core_squeeze a b jd h1 h2 hc]
  simp only [Prod.mk.injEq, true_and]
  omega

set_option maxRecDepth 100000 in
theorem months_check_true : months_check 100 = true := by decide!

theorem month_check_true (y m : Nat) (hy : y ≤ 99) (hm1 : 1 ≤ m) (hm2 : m ≤ 12) :
    month_check y m = true := by
  have h := all_below_spec 100 _ months_check_true y (by omega)
  have h2 := all_below_spec 12 _ h (m - 1) (by omega)
  rwa [show m - 1 + 1 = m by omega] at h2

/-- The date part of the round trip: the year, month and day `time_epoch_to_date` derives
from the Julian day of a valid date are those of the date. -/
theorem julian_to_ymd_date (ts : rtc_time_t) (h : valid_date ts) :
    julian_to_ymd (date_julian_day ts) = ((ts.year : Int), (ts.month : Int), (ts.monthday : Int)) := by
  obtain ⟨hy, hm1, hm2, hd1, hd2⟩ := h
  have hc := month_check_true ts.year ts.month hy hm1 hm2
  simp only [month_check, Bool.and_eq_true, decide_eq_true_eq] at hc
  obtain ⟨hcore, hfirst⟩ := hc
  have ha : date_julian_day (first_of_month ts.year ts.month) =
      2440588 + (ref_days ts.year ts.month 1 : Int) :=
    date_julian_day_ref _ hy hm1 hm2 (by simp [first_of_month])
  have hj : date_julian_day ts = date_julian_day (first_of_month ts.year ts.month) +
      ((ts.monthday : Int) - 1) := by
    rw [date_julian_day_eq, date_julian_day_eq]
    simp only [first_of_month]
    omega
  rw [julian_to_ymd_squeeze _ _ (date_julian_day ts) (by omega) (by omega) (by omega) hcore,
    hfirst]
  simp only [Prod.mk.injEq, true_and]
  omega

theorem toU8_natCast (n : Nat) (h : n < 256) : toU8 (n : Int) = n := by
  unfold toU8; omega

theorem toU8_eq (x : Int) (n : Nat) (h : x = (n : Int)) (hn : n < 256) : toU8 x = n := by
  subst h; exact toU8_natCast n hn

/-- The fields `time_epoch_to_date` produces for a non-negative epoch. -/
theorem time_epoch_to_date_nonneg (e : Int) (h : 0 ≤ e) :
    time_epoch_to_date e =
      { seconds := toU8 (e % 60)
        minutes := toU8 (e % 3600 / 60)
        hours := toU8 (e % 86400 / 3600)
        weekday := toU8 ((e / 86400 + 2440588) % 7 + 1)
        monthday := toU8 (julian_to_ymd (e / 86400 + 2440588)).2.2
        month := toU8 (julian_to_ymd (e / 86400 + 2440588)).2.1
        year := toU8 (julian_to_ymd (e / 86400 + 2440588)).1 } := by
  have hjd : epoch_julian_day e = e / 86400 + 2440588 := by
    simp only [epoch_julian_day, TIME_SEC_IN_24_HOURS, TIME_SEC_IN_HOUR, TIME_SEC_IN_MIN,
      JULIAN_DAY_1970]
    rw [if_neg (by omega), Int.tdiv_eq_ediv h (by omega)]
    norm_num
  have hn : epoch_normalise e = e := by
    simp only [epoch_normalise]; rw [if_neg (by omega)]
  have hL : Int.tmod e 86400 = e % 86400 := Int.tmod_eq_emod h (by omega)
  have hH : Int.tdiv (e % 86400) 3600 = e % 86400 / 3600 :=
    Int.tdiv_eq_ediv (by omega) (by omega)
  have hHu : ((toU8 (e % 86400 / 3600) : Nat) : Int) = e % 86400 / 3600 := by
    unfold toU8; omega
  have hM : Int.tdiv (e % 86400 - e % 86400 / 3600 * 3600) 60 = e % 3600 / 60 := by
    rw [Int.tdiv_eq_ediv (by omega) (by omega)]; omega
  have hS : Int.tmod (e % 86400) 60 = e % 60 := by
    rw [Int.tmod_eq_emod (by omega) (by omega)]; omega
  have hW : ((toU8 (Int.tmod (e / 86400 + 2440588) 7) : Nat) : Int) =
      (e / 86400 + 2440588) % 7 := by
    rw [Int.tmod_eq_emod (by omega) (by omega)]; unfold toU8; omega
  simp only [time_epoch_to_date, hjd, hn, TIME_SEC_IN_24_HOURS, TIME_SEC_IN_HOUR,
    TIME_SEC_IN_MIN]
  norm_num only
  rw [hL, hH, hHu, hM, hS, hW]

/-- The epoch of `time_date_to_epoch` split into days and seconds of the day. -/
theorem time_date_to_epoch_fst (t : rtc_time_t) :
    (time_date_to_epoch t).1 =
      (date_julian_day t - 2440588) * 86400 +
        ((t.hours : Int) * 3600 + (t.minutes : Int) * 60 + (t.seconds : Int)) := by
  simp only [time_date_to_epoch, date_sec, TIME_SEC_IN_24_HOURS, TIME_SEC_IN_HOUR,
    TIME_SEC_IN_MIN, JULIAN_DAY_1970]
  norm_num

/-- Round trip of the converters on a valid calendar time. -/
theorem roundtrip_valid (t : rtc_time_t) (hd : valid_date t) (hc : valid_clock t) :
    time_epoch_to_date (time_date_to_epoch t).1 =
      { t with weekday := ref_weekday t.year t.month t.monthday } := by
  have hymd := julian_to_ymd_date t hd
  obtain ⟨hy, hm1, hm2, hd1, hd2⟩ := hd
  obtain ⟨hh, hmi, hs⟩ := hc
  have hjd := date_julian_day_ref t hy hm1 hm2 hd1
  have hdim : days_in_month (2000 + t.year) t.month ≤ 31 := by
    unfold days_in_month; split_ifs <;> omega
  have he := time_date_to_epoch_fst t
  have hq : (time_date_to_epoch t).1 / 86400 + 2440588 = date_julian_day t := by omega
  rw [time_epoch_to_date_nonneg _ (by omega), hq, hymd]
  simp only
  rw [toU8_eq _ t.seconds (by omega) (by omega), toU8_eq _ t.minutes (by omega) (by omega),
    toU8_eq _ t.hours (by omega) (by omega), toU8_natCast _ (by omega),
    toU8_natCast _ (by omega), toU8_natCast _ (by omega),
    toU8_eq _ (ref_weekday t.year t.month t.monthday) (by unfold ref_weekday; omega)
      (by unfold ref_weekday; omega)]

/-- A step function that starts at 0 brackets every value below `f K`. -/
theorem step_search (f : Nat → Nat) (h0 : f 0 = 0) (K n : Nat) (h : n < f K) :
    ∃ k, k < K ∧ f k ≤ n ∧ n < f (k + 1) := by
  induction K with
  | zero => omega
  | succ K ih =>
    by_cases hK : n < f K
    · obtain ⟨k, hk, h1, h2⟩ := ih hK
      exact ⟨k, by omega, h1, h2⟩
    · exact ⟨K, by omega, by omega, h⟩

theorem days_before_month_twelve (Y : Nat) : days_before_month Y 12 = days_in_year Y := by
  by_cases hc : is_leap Y = true <;>
    simp [days_before_month, days_in_month, days_in_year, hc]

/-- The day count of a valid date lies between 1 January 2000 and 31 December 2099. -/
theorem ref_days_bounds (t : rtc_time_t) (h : valid_date t) :
    10957 ≤ ref_days t.year t.month t.monthday ∧ ref_days t.year t.month t.monthday ≤ 47481 := by
  obtain ⟨hy, hm1, hm2, hd1, hd2⟩ := h
  obtain ⟨sec, mi, hr, w, d, m, y⟩ := t
  simp only at hy hm1 hm2 hd1 hd2 ⊢
  have hl : is_leap (2000 + y) = true ↔ y % 4 = 0 := by
    have := is_leap_iff (y + 30) (by omega)
    rw [show 1970 + (y + 30) = 2000 + y by omega] at this
    rw [this]; omega
  have hdim : m = 2 → d ≤ 28 + (if y % 4 = 0 then 1 else 0) := by
    intro hm
    subst hm
    simp only [days_in_month, if_true] at hd2
    by_cases hc : is_leap (2000 + y) = true
    · rw [if_pos hc] at hd2; rw [if_pos (hl.mp hc)]; omega
    · rw [if_neg hc] at hd2; omega
  have hdim2 : d ≤ days_in_month (2000 + y) m := hd2
  rw [ref_days, days_to_year_eq _ (by omega), days_before_month_eq _ _ hy (by omega)]
  interval_cases m <;> simp [days_in_month] at hd2 hdim ⊢ <;> (try split at hdim) <;>
    (try split) <;> omega

/-- The epoch of a valid calendar time lies in 2000-01-01T00:00:00 .. 2099-12-31T23:59:59. -/
theorem epoch_bounds (t : rtc_time_t) (hd : valid_date t) (hc : valid_clock t) :
    946684800 ≤ (time_date_to_epoch t).1 ∧ (time_date_to_epoch t).1 ≤ 4102444799 := by
  have hb := ref_days_bounds t hd
  obtain ⟨hy, hm1, hm2, hd1, hd2⟩ := hd
  obtain ⟨hh, hmi, hs⟩ := hc
  have hjd := date_julian_day_ref t hy hm1 hm2 hd1
  rw [time_date_to_epoch_fst, hjd]
  omega

/-- Every epoch of the supported range is the epoch of a valid calendar time. -/
theorem epoch_has_date (e : Int) (h1 : 946684800 ≤ e) (h2 : e ≤ 4102444799) :
    ∃ t, valid_date t ∧ valid_clock t ∧ (time_date_to_epoch t).1 = e := by
  obtain ⟨n, hn⟩ : ∃ n : Nat, (n : Int) = e / 86400 := ⟨(e / 86400).toNat, by omega⟩
  obtain ⟨sec, hsec⟩ : ∃ sec : Nat, (sec : Int) = e % 86400 := ⟨(e % 86400).toNat, by omega⟩
  obtain ⟨k, hk⟩ : ∃ k : Nat, k = (4 * n + 2) / 1461 := ⟨_, rfl⟩
  have hk1 : 30 ≤ k := by omega
  have hk2 : k ≤ 129 := by omega
  have hyk := days_to_year_eq k (by omega)
  have hyk1 := days_to_year_eq (k + 1) (by omega)
  have hstep : days_to_year (k + 1) = days_to_year k + days_in_year (1970 + k) := rfl
  have hr : n - days_to_year k < days_before_month (1970 + k) 12 := by
    rw [days_before_month_twelve]; omega
  obtain ⟨j, hj, hj1, hj2⟩ := step_search (days_before_month (1970 + k)) rfl 12 _ hr
  have hjs : days_before_month (1970 + k) (j + 1) =
      days_before_month (1970 + k) j + days_in_month (1970 + k) (j + 1) := rfl
  have hY : 2000 + (k - 30) = 1970 + k := by omega
  refine ⟨{ seconds := sec % 60, minutes := sec % 3600 / 60, hours := sec / 3600, weekday := 0,
            monthday := n - days_to_year k - days_before_month (1970 + k) j + 1,
            month := j + 1, year := k - 30 }, ?_, ?_, ?_⟩
  · refine ⟨?_, ?_, ?_, ?_, ?_⟩ <;> simp only [hY] <;> omega
  · refine ⟨?_, ?_, ?_⟩ <;> simp only <;> omega
  · rw [time_date_to_epoch_fst, date_julian_day_ref _ (by simp only; omega) (by simp only; omega)
      (by simp only; omega) (by simp only; omega)]
    simp only [ref_days, hY, show k - 30 + 30 = k by omega, Nat.add_sub_cancel]
    omega

theorem date_julian_day_weekday (t : rtc_time_t) (w : Nat) :
    date_julian_day { t with weekday := w } = date_julian_day t := rfl

/-- Converting an epoch of the supported range to a date and back gives the epoch. -/
theorem epoch_roundtrip (e : Int) (h1 : 946684800 ≤ e) (h2 : e ≤ 4102444799) :
    (time_date_to_epoch (time_epoch_to_date e)).1 = e := by
  obtain ⟨t, hd, hc, he⟩ := epoch_has_date e h1 h2
  rw [← he, roundtrip_valid t hd hc, time_date_to_epoch_fst, time_date_to_epoch_fst,
    date_julian_day_weekday]

theorem toU32_of_range (x : Int) (h1 : 0 ≤ x) (h2 : x < 4294967296) : toU32 x = x := by
  unfold toU32; omega

/-! ## BCD and register-field lemmas -/

theorem bcd_table : ∀ v < 100, BCD2BIN (BIN2BCD v) = v ∧ BIN2BCD v = spec_to_bcd v ∧
    (BIN2BCD v < 256 ∧ BIN2BCD v &&& 0xff = BIN2BCD v) ∧
    (v ≤ 59 → BIN2BCD v &&& 0x7f = BIN2BCD v ∧ BIN2BCD v &&& 0x80 = 0) ∧
    (v ≤ 31 → BIN2BCD v &&& 0x3f = BIN2BCD v ∧ BIN2BCD v &&& 0xc0 = 0) ∧
    (v ≤ 12 → BIN2BCD v &&& 0x1f = BIN2BCD v ∧ BIN2BCD v &&& 0xe0 = 0) ∧
    (v ≤ 7 → BIN2BCD v &&& 0x07 = BIN2BCD v ∧ BIN2BCD v &&& 0xf8 = 0) := by
  decide!

/-- Decoding a register byte that was read, cleared with the mask `hi`, or-ed with the
BCD code of `v` and stored: the field mask `lo` gives `v` back. -/
theorem rmw_decode (r v hi lo : Nat) (hv : v < 100) (hhl : hi &&& lo = 0)
    (hlo : BIN2BCD v &&& lo = BIN2BCD v) (hhi : hi < 256) :
    BCD2BIN ((((r &&& hi) ||| BIN2BCD v) % 256) &&& lo) % 256 = v := by
  obtain ⟨h1, -, ⟨h3, -⟩, -⟩ := bcd_table v hv
  have h4 : (r &&& hi) ||| BIN2BCD v < 256 :=
    Nat.or_lt_two_pow (n := 8) (Nat.lt_of_le_of_lt Nat.and_le_right hhi) h3
  rw [Nat.mod_eq_of_lt h4, Nat.and_distrib_right, Nat.and_assoc, hhl, Nat.and_zero,
    Nat.zero_or, hlo, h1]
  omega

/-- The bits selected by the clear mask `hi` survive the read-modify-write. -/
theorem rmw_keep (r c hi : Nat) (hc : c &&& hi = 0) (hhi : 255 &&& hi = hi) :
    ((((r % 256) &&& hi) ||| c) % 256) &&& hi = r &&& hi := by
  have e2 : ∀ x : Nat, (x % 256) &&& hi = x &&& hi := by
    intro x
    rw [show x % 256 = x &&& (2 ^ 8 - 1) from (Nat.and_pow_two_sub_one_eq_mod x 8).symm,
      Nat.and_assoc]
    norm_num [hhi]
  rw [e2, Nat.and_distrib_right, hc, Nat.or_zero, Nat.and_assoc, Nat.and_self, e2]

/-! ## Setting and reading the time -/

theorem set_gmt_time_fst (time : rtc_time_t) (s : State) :
    (rtc_set_gmt_time time s).1 =
      if time.seconds > 59 ∨ time.minutes > 59 ∨ time.hours > 24 ∨ time.weekday > 7 ∨
        time.monthday > 31 ∨ time.month > 12 ∨ time.year > 99 then -1 else 0 := by
  unfold rtc_set_gmt_time
  split_ifs <;> rfl

theorem set_gmt_time_accepted (time : rtc_time_t) (s : State)
    (h : (rtc_set_gmt_time time s).1 = 0) :
    time.seconds ≤ 59 ∧ time.minutes ≤ 59 ∧ time.hours ≤ 24 ∧ time.weekday ≤ 7 ∧
      time.monthday ≤ 31 ∧ time.month ≤ 12 ∧ time.year ≤ 99 := by
  rw [set_gmt_time_fst] at h
  split_ifs at h with hc
  omega

/-- The register file after an accepted `rtc_set_gmt_time` on a chip other than
`RTC_PCF8583`: the seven time registers of the selected slave hold the encoded buffer. -/
theorem set_gmt_time_regs_common (time : rtc_time_t) (s : State)
    (h : (rtc_set_gmt_time time s).1 = 0) (hty : s.current_type ≠ RTC_PCF8583) :
    (rtc_set_gmt_time time s).2.regs = fun slave a =>
      if slave = s.i2c_address ∧ a < 7 then encode_common time (time_regs s) a % 256
      else s.regs slave a := by
  have hacc := set_gmt_time_accepted time s h
  have hrej : ¬ (time.seconds > 59 ∨ time.minutes > 59 ∨ time.hours > 24 ∨ time.weekday > 7 ∨
      time.monthday > 31 ∨ time.month > 12 ∨ time.year > 99) := by omega
  unfold rtc_set_gmt_time
  rw [if_neg hrej, if_neg hty]
  have key : (rtc_hal_read RTC_SECONDS_ADDR (fun _ => 0) RTC_TIMEDATE_BYTES s).1 = time_regs s := by
    funext i
    simp [rtc_hal_read, time_regs, RTC_SECONDS_ADDR, RTC_TIMEDATE_BYTES]
  split <;>
  · funext slave a
    simp only [key]
    simp [rtc_hal_read, rtc_hal_write, RTC_SECONDS_ADDR, RTC_TIMEDATE_BYTES]

theorem get_gmt_time_common (s : State)
    (hty : s.current_type = RTC2_DS1307 ∨ s.current_type = RTC3_BQ32000 ∨
      s.current_type = RTC6_MCP7941X) :
    (rtc_get_gmt_time s).1 = decode_common (time_regs s) := by
  have key : (rtc_hal_read RTC_SECONDS_ADDR (fun _ => 0) RTC_TIMEDATE_BYTES s).1 = time_regs s := by
    funext i
    simp [rtc_hal_read, time_regs, RTC_SECONDS_ADDR, RTC_TIMEDATE_BYTES]
  unfold rtc_get_gmt_time
  rcases hty with h | h | h <;>
    simp [h, key, RTC_PCF8583, RTC2_DS1307, RTC3_BQ32000, RTC6_MCP7941X]

/-- The register file after an accepted `rtc_set_gmt_time` on `RTC_PCF8583`. -/
theorem set_gmt_time_regs_pcf (time : rtc_time_t) (s : State)
    (h : (rtc_set_gmt_time time s).1 = 0) (hty : s.current_type = RTC_PCF8583) :
    (rtc_set_gmt_time time s).2.regs = fun slave a =>
      if slave = s.i2c_address then
        if a = 0 then 0
        else if a = 2 then BIN2BCD time.seconds
        else if a = 3 then BIN2BCD time.minutes
        else if a = 4 then BIN2BCD time.hours
        else if a = 5 then BIN2BCD time.monthday
        else if a = 6 then (BIN2BCD time.month ||| toU8 (((time.weekday : Int) - 1) * 32)) % 256
        else s.regs slave a
      else s.regs slave a := by
  obtain ⟨h0, h1, h2, h3, h4, h5, h6⟩ := set_gmt_time_accepted time s h
  have hrej : ¬ (time.seconds > 59 ∨ time.minutes > 59 ∨ time.hours > 24 ∨ time.weekday > 7 ∨
      time.monthday > 31 ∨ time.month > 12 ∨ time.year > 99) := by omega
  have t0 := (bcd_table time.seconds (by omega)).2.2.1.1
  have t1 := (bcd_table time.minutes (by omega)).2.2.1.1
  have t2 := (bcd_table time.hours (by omega)).2.2.1.1
  have t4 := (bcd_table time.monthday (by omega)).2.2.1.1
  have t5 := (bcd_table time.month (by omega)).2.2.1.1
  unfold rtc_set_gmt_time
  rw [if_neg hrej, if_pos hty]
  funext slave a
  simp only [rtc_hal_write, rtc_hal_read, Nat.reduceMod, Nat.mod_mod, Nat.mod_eq_of_lt t0,
    Nat.mod_eq_of_lt t1, Nat.mod_eq_of_lt t2, Nat.mod_eq_of_lt t4, Nat.mod_eq_of_lt t5]
  by_cases hs : slave = s.i2c_address
  · simp only [hs, true_and, if_true]
    by_cases e0 : a = 0
    · subst e0; simp
    by_cases e2 : a = 2
    · subst e2; simp
    by_cases e3 : a = 3
    · subst e3; simp
    by_cases e4 : a = 4
    · subst e4; simp
    by_cases e5 : a = 5
    · subst e5; simp
    by_cases e6 : a = 6
    · subst e6; simp
    · have c0 : ¬ (0 ≤ a ∧ a < 0 + 1) := by omega
      have c2 : ¬ (2 ≤ a ∧ a < 2 + 1) := by omega
      have c3 : ¬ (3 ≤ a ∧ a < 3 + 1) := by omega
      have c4 : ¬ (4 ≤ a ∧ a < 4 + 1) := by omega
      have c5 : ¬ (5 ≤ a ∧ a < 5 + 1) := by omega
      have c6 : ¬ (6 ≤ a ∧ a < 6 + 1) := by omega
      simp only [c0, c2, c3, c4, c5, c6, e0, e2, e3, e4, e5, e6, if_false]
  · simp only [hs, false_and, if_false]

theorem get_gmt_unix_time_frame (s : State) :
    (rtc_get_gmt_unix_time s).2.current_time_zone = s.current_time_zone ∧
      (rtc_get_gmt_unix_time s).2.dst_enabled = s.dst_enabled ∧
      (rtc_get_gmt_unix_time s).1 = toU32 (time_date_to_epoch (rtc_get_gmt_time s).1).1 := by
  unfold rtc_get_gmt_unix_time rtc_get_gmt_time
  split_ifs <;> exact ⟨rfl, rfl, rfl⟩

/-! ## The claims -/

/-- C1: for every valid calendar time (year 0..99, month 1..12, a real day of that month in
year 2000 + year, hours 0..23, minutes 0..59, seconds 0..59, any weekday), converting to the
epoch and back gives the same seconds, minutes, hours, monthday, month and year, and the
weekday is the day of the week of that date counted independently from Thursday 1 January
1970, MONDAY = 1 ... SUNDAY = 7. -/
theorem epoch_to_date_of_date_to_epoch (t : rtc_time_t) (hd : valid_date t)
    (hc : valid_clock t) :
    (time_epoch_to_date (time_date_to_epoch t).1).seconds = t.seconds ∧
      (time_epoch_to_date (time_date_to_epoch t).1).minutes = t.minutes ∧
      (time_epoch_to_date (time_date_to_epoch t).1).hours = t.hours ∧
      (time_epoch_to_date (time_date_to_epoch t).1).monthday = t.monthday ∧
      (time_epoch_to_date (time_date_to_epoch t).1).month = t.month ∧
      (time_epoch_to_date (time_date_to_epoch t).1).year = t.year ∧
      (time_epoch_to_date (time_date_to_epoch t).1).weekday =
        ref_weekday t.year t.month t.monthday := by
  rw [roundtrip_valid t hd hc]
  exact ⟨rfl, rfl, rfl, rfl, rfl, rfl, rfl⟩

theorem epoch_to_date_of_date_to_epoch_witness :
    valid_date sample_time ∧ valid_clock sample_time ∧
      ref_weekday sample_time.year sample_time.month sample_time.monthday = 4 ∧
      (time_epoch_to_date (time_date_to_epoch sample_time).1).seconds = sample_time.seconds ∧
      (time_epoch_to_date (time_date_to_epoch sample_time).1).minutes = sample_time.minutes ∧
      (time_epoch_to_date (time_date_to_epoch sample_time).1).hours = sample_time.hours ∧
      (time_epoch_to_date (time_date_to_epoch sample_time).1).monthday = sample_time.monthday ∧
      (time_epoch_to_date (time_date_to_epoch sample_time).1).month = sample_time.month ∧
      (time_epoch_to_date (time_date_to_epoch sample_time).1).year = sample_time.year ∧
      (time_epoch_to_date (time_date_to_epoch sample_time).1).weekday =
        ref_weekday sample_time.year sample_time.month sample_time.monthday :=
  ⟨by decide, by decide, by decide,
    epoch_to_date_of_date_to_epoch sample_time (by decide) (by decide)⟩

/-- C2: for every valid calendar time, `time_date_to_epoch` returns
`(JDN - 2440588) * 86400 + hours * 3600 + minutes * 60 + seconds` with JDN the Julian Day
Number of the date by the standard formula; `JDN - 2440588` is the number of days counted
from 1 January 1970 to the date, so the result is the number of seconds since
1970-01-01T00:00:00; and 00:00:00 on 1.1.(20)00 gives 946684800 whatever the weekday field
holds. -/
theorem date_to_epoch_value (t : rtc_time_t) (hd : valid_date t) (_hc : valid_clock t) :
    (time_date_to_epoch t).1 =
        (spec_jdn t.year t.month t.monthday - 2440588) * 86400 +
          ((t.hours : Int) * 3600 + (t.minutes : Int) * 60 + (t.seconds : Int)) ∧
      spec_jdn t.year t.month t.monthday - 2440588 =
        (ref_days t.year t.month t.monthday : Int) ∧
      ∀ w : Nat,
        (time_date_to_epoch
          { seconds := 0, minutes := 0, hours := 0, weekday := w, monthday := 1, month := 1,
            year := 0 }).1 = 946684800 := by
  obtain ⟨hy, hm1, hm2, hd1, hd2⟩ := hd
  have hs := date_julian_day_spec t hm1 hm2
  have hr := date_julian_day_ref t hy hm1 hm2 hd1
  refine ⟨?_, by omega, ?_⟩
  · rw [time_date_to_epoch_fst, hs]
  · intro w
    rw [time_date_to_epoch_fst, date_julian_day_ref _ (by simp) (by simp) (by simp) (by simp)]
    simp only
    decide

theorem date_to_epoch_value_witness :
    valid_date sample_time ∧ valid_clock sample_time ∧
      ((time_date_to_epoch sample_time).1 =
        (spec_jdn sample_time.year sample_time.month sample_time.monthday - 2440588) * 86400 +
          ((sample_time.hours : Int) * 3600 + (sample_time.minutes : Int) * 60 +
            (sample_time.seconds : Int)) ∧
      spec_jdn sample_time.year sample_time.month sample_time.monthday - 2440588 =
        (ref_days sample_time.year sample_time.month sample_time.monthday : Int) ∧
      ∀ w : Nat,
        (time_date_to_epoch
          { seconds := 0, minutes := 0, hours := 0, weekday := w, monthday := 1, month := 1,
            year := 0 }).1 = 946684800) :=
  ⟨by decide, by decide, date_to_epoch_value sample_time (by decide) (by decide)⟩

/-- C3 as stated fails: for {seconds 0, minutes 0, hours 0, weekday 4, monthday 1, month 1,
year 70} `time_date_to_epoch` does not return 0. -/
theorem year70_epoch_not_zero : (time_date_to_epoch year70_time).1 ≠ 0 := by
  decide

/-- C3 (as the code has it): the year field counts from 2000, so {seconds 0, minutes 0,
hours 0, weekday 4, monthday 1, month 1, year 70} is 1 January 2070 and
`time_date_to_epoch` returns 3155760000, the seconds of the 36525 days from 1 January 1970
to that date. -/
theorem date_to_epoch_year70 :
    (time_date_to_epoch year70_time).1 = 3155760000 ∧
      ref_days year70_time.year year70_time.month year70_time.monthday = 36525 ∧
      (36525 : Int) * 86400 = 3155760000 := by
  decide

/-- C4: for every v in 0..99, `BCD2BIN(BIN2BCD(v)) = v`, and `BIN2BCD(v)`, computed with
`+`, equals the specification's `((v / 10) << 4) | (v % 10)`. -/
theorem bcd_roundtrip (v : Nat) (h : v ≤ 99) :
    BCD2BIN (BIN2BCD v) = v ∧ BIN2BCD v = spec_to_bcd v :=
  ⟨(bcd_table v (by omega)).1, (bcd_table v (by omega)).2.1⟩

theorem bcd_roundtrip_witness :
    59 ≤ 99 ∧ BIN2BCD 59 = 0x59 ∧ BCD2BIN (BIN2BCD 59) = 59 ∧ BIN2BCD 59 = spec_to_bcd 59 :=
  ⟨by decide, by decide, bcd_roundtrip 59 (by decide)⟩

/-- C5: `rtc_set_gmt_time` returns -1 exactly when a field is out of range (seconds > 59,
minutes > 59, hours > 24, weekday > 7, monthday > 31, month > 12 or year > 99); it then
leaves the whole state as it was (no transport call is logged, no register and no module
variable changes); otherwise it returns 0.  With seconds = 60 the call fails and the log of
transport calls is the one before the call. -/
theorem set_gmt_time_validation (time : rtc_time_t) (s : State) :
    ((rtc_set_gmt_time time s).1 = -1 ↔
        (time.seconds > 59 ∨ time.minutes > 59 ∨ time.hours > 24 ∨ time.weekday > 7 ∨
          time.monthday > 31 ∨ time.month > 12 ∨ time.year > 99)) ∧
      ((rtc_set_gmt_time time s).1 = -1 → (rtc_set_gmt_time time s).2 = s) ∧
      ((rtc_set_gmt_time time s).1 ≠ -1 → (rtc_set_gmt_time time s).1 = 0) ∧
      (time.seconds = 60 →
        (rtc_set_gmt_time time s).1 = -1 ∧ (rtc_set_gmt_time time s).2.calls = s.calls ∧
          (rtc_set_gmt_time time s).2.regs = s.regs) := by
  have hfst := set_gmt_time_fst time s
  have hrej : (time.seconds > 59 ∨ time.minutes > 59 ∨ time.hours > 24 ∨ time.weekday > 7 ∨
      time.monthday > 31 ∨ time.month > 12 ∨ time.year > 99) →
      rtc_set_gmt_time time s = (-1, s) := by
    intro hc
    unfold rtc_set_gmt_time
    rw [if_pos hc]
  by_cases hc : (time.seconds > 59 ∨ time.minutes > 59 ∨ time.hours > 24 ∨ time.weekday > 7 ∨
      time.monthday > 31 ∨ time.month > 12 ∨ time.year > 99)
  · have e := hrej hc
    refine ⟨?_, ?_, ?_, ?_⟩
    · rw [e]; exact ⟨fun _ => hc, fun _ => rfl⟩
    · intro _; rw [e]
    · intro hne; rw [e] at hne; exact absurd rfl hne
    · intro _; rw [e]; exact ⟨rfl, rfl, rfl⟩
  · rw [if_neg hc] at hfst
    refine ⟨?_, ?_, ?_, ?_⟩
    · rw [hfst]; exact ⟨fun h => absurd h (by decide), fun h => absurd h hc⟩
    · intro h; rw [hfst] at h; exact absurd h (by decide)
    · intro _; exact hfst
    · intro h60; exact absurd (Or.inl (by omega)) hc

/-- C6: on RTC2_DS1307, RTC3_BQ32000 and RTC6_MCP7941X, reading the time back after an
accepted `rtc_set_gmt_time` returns exactly the time that was set, whatever the registers
held before. -/
theorem get_after_set_gmt_time (time : rtc_time_t) (s : State)
    (hty : s.current_type = RTC2_DS1307 ∨ s.current_type = RTC3_BQ32000 ∨
      s.current_type = RTC6_MCP7941X)
    (h : (rtc_set_gmt_time time s).1 = 0) :
    (rtc_get_gmt_time (rtc_set_gmt_time time s).2).1 = time := by
  obtain ⟨h0, h1, h2, h3, h4, h5, h6⟩ := set_gmt_time_accepted time s h
  have hne : s.current_type ≠ RTC_PCF8583 := by
    rcases hty with e | e | e <;> rw [e] <;> decide
  have hregs := set_gmt_time_regs_common time s h hne
  have hty2 : (rtc_set_gmt_time time s).2.current_type = s.current_type := by
    unfold rtc_set_gmt_time
    split_ifs <;> rfl
  have hsl : (rtc_set_gmt_time time s).2.i2c_address = s.i2c_address := by
    unfold rtc_set_gmt_time
    split_ifs <;> rfl
  rw [get_gmt_time_common _ (by rw [hty2]; exact hty)]
  have hbuf : time_regs (rtc_set_gmt_time time s).2 =
      fun i => if i < 7 then encode_common time (time_regs s) i % 256 % 256 else 0 := by
    funext i
    simp only [time_regs, hregs, hsl]
    by_cases hi : i < 7 <;> simp [hi]
  rw [hbuf]
  obtain ⟨sec, mi, hr, w, d, m, y⟩ := time
  simp only at h0 h1 h2 h3 h4 h5 h6
  simp only [decode_common, encode_common, RTC_SECONDS_MASK, RTC_SECONDS_CLEAR,
    RTC_MINUTES_MASK, RTC_MINUTES_CLEAR, RTC_HOURS_MASK, RTC_HOURS_CLEAR, RTC_DAY_MASK,
    RTC_DAY_CLEAR, RTC_DATE_MASK, RTC_DATE_CLEAR, RTC_MONTH_MASK, RTC_MONTH_CLEAR,
    RTC_YEAR_MASK, RTC_YEAR_CLEAR]
  simp only [Nat.reduceLT, Nat.reduceEqDiff, if_true, if_false, Nat.mod_mod]
  have t0 := bcd_table sec (by omega)
  have t1 := bcd_table mi (by omega)
  have t2 := bcd_table hr (by omega)
  have t3 := bcd_table w (by omega)
  have t4 := bcd_table d (by omega)
  have t5 := bcd_table m (by omega)
  have t6 := bcd_table y (by omega)
  rw [rmw_decode _ sec 0x80 0x7f (by omega) (by decide) (t0.2.2.2.1 h0).1 (by decide),
    rmw_decode _ mi 0x80 0x7f (by omega) (by decide) (t1.2.2.2.1 h1).1 (by decide),
    rmw_decode _ hr 0xc0 0x3f (by omega) (by decide) (t2.2.2.2.2.1 (by omega)).1 (by decide),
    rmw_decode _ w 0xf8 0x07 (by omega) (by decide) (t3.2.2.2.2.2.2 h3).1 (by decide),
    rmw_decode _ d 0xc0 0x3f (by omega) (by decide) (t4.2.2.2.2.1 h4).1 (by decide),
    rmw_decode _ m 0xe0 0x1f (by omega) (by decide) (t5.2.2.2.2.2.1 h5).1 (by decide),
    rmw_decode _ y 0x00 0xff (by omega) (by decide) t6.2.2.1.2 (by decide)]

theorem get_after_set_gmt_time_witness :
    (ds1307_state.current_type = RTC2_DS1307 ∨ ds1307_state.current_type = RTC3_BQ32000 ∨
        ds1307_state.current_type = RTC6_MCP7941X) ∧
      (rtc_set_gmt_time sample_time ds1307_state).1 = 0 ∧
      (rtc_get_gmt_time ds1307_state).1 ≠ sample_time ∧
      (rtc_get_gmt_time (rtc_set_gmt_time sample_time ds1307_state).2).1 = sample_time :=
  ⟨by decide, by decide, by decide,
    get_after_set_gmt_time sample_time ds1307_state (by decide) (by decide)⟩

/-- C7: on RTC2_DS1307, RTC3_BQ32000 and RTC6_MCP7941X an accepted `rtc_set_gmt_time`
keeps bit 7 of register 0x00 (oscillator enable / clock halt), bit 7 of 0x01, bits 7..6 of
0x02, bits 7..3 of 0x03, bits 7..6 of 0x04, bits 7..5 of 0x05, and every register outside
0x00..0x06, of every slave, whatever the registers held before. -/
theorem set_gmt_time_keeps_control_bits (time : rtc_time_t) (s : State)
    (hty : s.current_type = RTC2_DS1307 ∨ s.current_type = RTC3_BQ32000 ∨
      s.current_type = RTC6_MCP7941X)
    (h : (rtc_set_gmt_time time s).1 = 0) (slave : Nat) :
    (rtc_set_gmt_time time s).2.regs slave 0 &&& 0x80 = s.regs slave 0 &&& 0x80 ∧
      (rtc_set_gmt_time time s).2.regs slave 1 &&& 0x80 = s.regs slave 1 &&& 0x80 ∧
      (rtc_set_gmt_time time s).2.regs slave 2 &&& 0xc0 = s.regs slave 2 &&& 0xc0 ∧
      (rtc_set_gmt_time time s).2.regs slave 3 &&& 0xf8 = s.regs slave 3 &&& 0xf8 ∧
      (rtc_set_gmt_time time s).2.regs slave 4 &&& 0xc0 = s.regs slave 4 &&& 0xc0 ∧
      (rtc_set_gmt_time time s).2.regs slave 5 &&& 0xe0 = s.regs slave 5 &&& 0xe0 ∧
      ∀ a, 7 ≤ a → (rtc_set_gmt_time time s).2.regs slave a = s.regs slave a := by
  obtain ⟨h0, h1, h2, h3, h4, h5, h6⟩ := set_gmt_time_accepted time s h
  have hne : s.current_type ≠ RTC_PCF8583 := by
    rcases hty with e | e | e <;> rw [e] <;> decide
  rw [set_gmt_time_regs_common time s h hne]
  have t0 := bcd_table time.seconds (by omega)
  have t1 := bcd_table time.minutes (by omega)
  have t2 := bcd_table time.hours (by omega)
  have t3 := bcd_table time.weekday (by omega)
  have t4 := bcd_table time.monthday (by omega)
  have t5 := bcd_table time.month (by omega)
  by_cases hs : slave = s.i2c_address
  · subst hs
    simp only [encode_common, time_regs, RTC_SECONDS_CLEAR, RTC_MINUTES_CLEAR, RTC_HOURS_CLEAR,
      RTC_DAY_CLEAR, RTC_DATE_CLEAR, RTC_MONTH_CLEAR, Nat.reduceLT, Nat.reduceEqDiff, if_true,
      if_false, Nat.mod_mod, true_and]
    refine ⟨rmw_keep _ _ _ (t0.2.2.2.1 h0).2 (by decide),
      rmw_keep _ _ _ (t1.2.2.2.1 h1).2 (by decide),
      rmw_keep _ _ _ (t2.2.2.2.2.1 (by omega)).2 (by decide),
      rmw_keep _ _ _ (t3.2.2.2.2.2.2 h3).2 (by decide),
      rmw_keep _ _ _ (t4.2.2.2.2.1 h4).2 (by decide),
      rmw_keep _ _ _ (t5.2.2.2.2.2.1 h5).2 (by decide), ?_⟩
    intro a ha
    rw [if_neg (by omega)]
  · simp only [hs, false_and, if_false, true_and]
    intro a _
    trivial

theorem set_gmt_time_keeps_control_bits_witness :
    (ds1307_state.current_type = RTC2_DS1307 ∨ ds1307_state.current_type = RTC3_BQ32000 ∨
        ds1307_state.current_type = RTC6_MCP7941X) ∧
      (rtc_set_gmt_time sample_time ds1307_state).1 = 0 ∧
      ds1307_state.regs 0x68 0 &&& 0x80 = 0x80 ∧
      ((rtc_set_gmt_time sample_time ds1307_state).2.regs 0x68 0 &&& 0x80 =
          ds1307_state.regs 0x68 0 &&& 0x80 ∧
        (rtc_set_gmt_time sample_time ds1307_state).2.regs 0x68 1 &&& 0x80 =
          ds1307_state.regs 0x68 1 &&& 0x80 ∧
        (rtc_set_gmt_time sample_time ds1307_state).2.regs 0x68 2 &&& 0xc0 =
          ds1307_state.regs 0x68 2 &&& 0xc0 ∧
        (rtc_set_gmt_time sample_time ds1307_state).2.regs 0x68 3 &&& 0xf8 =
          ds1307_state.regs 0x68 3 &&& 0xf8 ∧
        (rtc_set_gmt_time sample_time ds1307_state).2.regs 0x68 4 &&& 0xc0 =
          ds1307_state.regs 0x68 4 &&& 0xc0 ∧
        (rtc_set_gmt_time sample_time ds1307_state).2.regs 0x68 5 &&& 0xe0 =
          ds1307_state.regs 0x68 5 &&& 0xe0 ∧
        ∀ a, 7 ≤ a →
          (rtc_set_gmt_time sample_time ds1307_state).2.regs 0x68 a =
            ds1307_state.regs 0x68 a) :=
  ⟨by decide, by decide, by decide,
    set_gmt_time_keeps_control_bits sample_time ds1307_state (by decide) (by decide) 0x68⟩

/-- C8 as stated fails: on `RTC_PCF8583`, initialised over registers that all hold 0xFF,
an accepted `rtc_set_gmt_time` changes the control/status register 0x00 and clears bits
7..6 of registers 0x04 and 0x05. -/
theorem set_gmt_time_pcf_clobbers :
    pcf8583_state.current_type = RTC_PCF8583 ∧
      (rtc_set_gmt_time sample_time pcf8583_state).1 = 0 ∧
      pcf8583_state.regs 0x50 0 = 0xFF ∧
      (rtc_set_gmt_time sample_time pcf8583_state).2.regs 0x50 0 = 0 ∧
      pcf8583_state.regs 0x50 4 &&& 0xc0 = 0xc0 ∧
      (rtc_set_gmt_time sample_time pcf8583_state).2.regs 0x50 4 &&& 0xc0 = 0 ∧
      pcf8583_state.regs 0x50 5 &&& 0xc0 = 0xc0 ∧
      (rtc_set_gmt_time sample_time pcf8583_state).2.regs 0x50 5 &&& 0xc0 = 0 := by
  decide

/-- C8 (as the code has it): on `RTC_PCF8583` an accepted `rtc_set_gmt_time` does not
read-modify-write.  It writes the registers directly: afterwards the control/status register
0x00 of the selected slave holds 0, registers 0x02..0x05 hold the BCD codes of seconds,
minutes, hours and monthday (so bits 7..6 of 0x04 and of 0x05 are 0), and every register it
does not write (0x01, 0x07 and above, and all registers of other slaves) holds the value it
had before the call. -/
theorem set_gmt_time_pcf_direct_write (time : rtc_time_t) (s : State)
    (hty : s.current_type = RTC_PCF8583) (h : (rtc_set_gmt_time time s).1 = 0) :
    (rtc_set_gmt_time time s).2.regs s.i2c_address 0 = 0 ∧
      (rtc_set_gmt_time time s).2.regs s.i2c_address 2 = BIN2BCD time.seconds ∧
      (rtc_set_gmt_time time s).2.regs s.i2c_address 3 = BIN2BCD time.minutes ∧
      (rtc_set_gmt_time time s).2.regs s.i2c_address 4 = BIN2BCD time.hours ∧
      (rtc_set_gmt_time time s).2.regs s.i2c_address 5 = BIN2BCD time.monthday ∧
      (rtc_set_gmt_time time s).2.regs s.i2c_address 4 &&& 0xc0 = 0 ∧
      (rtc_set_gmt_time time s).2.regs s.i2c_address 5 &&& 0xc0 = 0 ∧
      (∀ a, a = 1 ∨ 7 ≤ a →
        (rtc_set_gmt_time time s).2.regs s.i2c_address a = s.regs s.i2c_address a) ∧
      (∀ slave a, slave ≠ s.i2c_address →
        (rtc_set_gmt_time time s).2.regs slave a = s.regs slave a) := by
  obtain ⟨h0, h1, h2, h3, h4, h5, h6⟩ := set_gmt_time_accepted time s h
  rw [set_gmt_time_regs_pcf time s h hty]
  simp only [if_true, Nat.reduceEqDiff, if_false, true_and]
  refine ⟨((bcd_table time.hours (by omega)).2.2.2.2.1 (by omega)).2,
    ((bcd_table time.monthday (by omega)).2.2.2.2.1 h4).2, ?_, ?_⟩
  · intro a ha
    rw [if_neg (by omega), if_neg (by omega), if_neg (by omega), if_neg (by omega),
      if_neg (by omega), if_neg (by omega)]
  · intro slave a hs
    rw [if_neg hs]

theorem set_gmt_time_pcf_direct_write_witness :
    pcf8583_state.current_type = RTC_PCF8583 ∧
      (rtc_set_gmt_time sample_time pcf8583_state).1 = 0 ∧
      pcf8583_state.i2c_address = 0x50 ∧
      ((rtc_set_gmt_time sample_time pcf8583_state).2.regs pcf8583_state.i2c_address 0 = 0 ∧
      (rtc_set_gmt_time sample_time pcf8583_state).2.regs pcf8583_state.i2c_address 2 =
        BIN2BCD sample_time.seconds ∧
      (rtc_set_gmt_time sample_time pcf8583_state).2.regs pcf8583_state.i2c_address 3 =
        BIN2BCD sample_time.minutes ∧
      (rtc_set_gmt_time sample_time pcf8583_state).2.regs pcf8583_state.i2c_address 4 =
        BIN2BCD sample_time.hours ∧
      (rtc_set_gmt_time sample_time pcf8583_state).2.regs pcf8583_state.i2c_address 5 =
        BIN2BCD sample_time.monthday ∧
      (rtc_set_gmt_time sample_time pcf8583_state).2.regs pcf8583_state.i2c_address 4 &&& 0xc0
        = 0 ∧
      (rtc_set_gmt_time sample_time pcf8583_state).2.regs pcf8583_state.i2c_address 5 &&& 0xc0
        = 0 ∧
      (∀ a, a = 1 ∨ 7 ≤ a →
        (rtc_set_gmt_time sample_time pcf8583_state).2.regs pcf8583_state.i2c_address a =
          pcf8583_state.regs pcf8583_state.i2c_address a) ∧
      (∀ slave a, slave ≠ pcf8583_state.i2c_address →
        (rtc_set_gmt_time sample_time pcf8583_state).2.regs slave a =
          pcf8583_state.regs slave a)) :=
  ⟨by decide, by decide, by decide,
    set_gmt_time_pcf_direct_write sample_time pcf8583_state (by decide) (by decide)⟩

/-- C9: `rtc_init` returns 0 exactly when the type is one of the four supported chips and
the time zone lies in [-12, 14]; otherwise it returns -1 and leaves the whole state as it
was (no transport call, chip type, time zone and DST flag unchanged); on success the session
holds exactly the given type and time zone. -/
theorem init_validation (type : Nat) (time_zone : Int) (s : State) :
    ((rtc_init type time_zone s).1 = 0 ↔
        ((type = RTC_PCF8583 ∨ type = RTC2_DS1307 ∨ type = RTC3_BQ32000 ∨
            type = RTC6_MCP7941X) ∧ -12 ≤ time_zone ∧ time_zone ≤ 14)) ∧
      ((rtc_init type time_zone s).1 ≠ 0 →
        (rtc_init type time_zone s).1 = -1 ∧ (rtc_init type time_zone s).2 = s) ∧
      ((rtc_init type time_zone s).1 = 0 →
        (rtc_init type time_zone s).2.current_type = type ∧
          (rtc_init type time_zone s).2.current_time_zone = time_zone) := by
  by_cases hc : type > RTC6_MCP7941X ∨ time_zone > 14 ∨ time_zone < -12
  · have e : rtc_init type time_zone s = (-1, s) := by
      unfold rtc_init; rw [if_pos hc]
    rw [e]
    refine ⟨⟨fun h => absurd h (by simp), ?_⟩, fun _ => ⟨rfl, rfl⟩, fun h => absurd h (by simp)⟩
    simp only [RTC_PCF8583, RTC2_DS1307, RTC3_BQ32000, RTC6_MCP7941X] at hc ⊢
    omega
  · have hty : type = 0 ∨ type = 1 ∨ type = 2 ∨ type = 3 := by
      simp only [RTC6_MCP7941X] at hc; omega
    have e : (rtc_init type time_zone s).1 = 0 ∧
        (rtc_init type time_zone s).2.current_type = type ∧
        (rtc_init type time_zone s).2.current_time_zone = time_zone := by
      unfold rtc_init
      rw [if_neg hc]
      rcases hty with e | e | e | e <;> subst e <;>
        simp [RTC_PCF8583, RTC2_DS1307, RTC3_BQ32000, RTC6_MCP7941X, rtc_hal_init, rtc_hal_read,
          rtc_hal_write, c_not] <;> split_ifs <;> simp
    refine ⟨⟨fun _ => ?_, fun _ => e.1⟩, fun h => absurd e.1 h, fun _ => e.2⟩
    simp only [RTC_PCF8583, RTC2_DS1307, RTC3_BQ32000, RTC6_MCP7941X] at hc ⊢
    omega

/-- A value of the non-negative `long` range passes the conversion to `long` unchanged. -/
theorem toLong_of_range (x : Int) (h1 : 0 ≤ x) (h2 : x < 2147483648) : toLong x = x := by
  unfold toLong; omega

/-- With DST disabled, when `rtc_get_gmt_time` decodes a valid calendar time `g` and the
instant shifted by the time zone lies in 2000-01-01 .. 2038-01-19T03:14:07, so that the
local epoch fits the 32-bit `long`, `rtc_get_local_time` returns the calendar time of the
epoch `time_date_to_epoch(g) + tz * 3600`, and `rtc_get_local_unix_time` returns
`rtc_get_gmt_unix_time + tz * 3600`. -/
theorem local_time_before_2038 (s : State) (hdst : s.dst_enabled = false)
    (hd : valid_date (rtc_get_gmt_time s).1) (hc : valid_clock (rtc_get_gmt_time s).1)
    (h1 : 946684800 ≤ (time_date_to_epoch (rtc_get_gmt_time s).1).1 + s.current_time_zone * 3600)
    (h2 : (time_date_to_epoch (rtc_get_gmt_time s).1).1 + s.current_time_zone * 3600
        ≤ 2147483647) :
    (rtc_get_local_time s).1 =
        time_epoch_to_date
          ((time_date_to_epoch (rtc_get_gmt_time s).1).1 + s.current_time_zone * 3600) ∧
      (rtc_get_local_unix_time s).1 = (rtc_get_gmt_unix_time s).1 + s.current_time_zone * 3600 := by
  obtain ⟨f1, f2, f3⟩ := get_gmt_unix_time_frame s
  obtain ⟨b1, b2⟩ := epoch_bounds _ hd hc
  have hg : (rtc_get_gmt_unix_time s).1 = (time_date_to_epoch (rtc_get_gmt_time s).1).1 := by
    rw [f3, toU32_of_range _ (by omega) (by omega)]
  have hl : (rtc_get_local_time s).1 =
      time_epoch_to_date
        ((time_date_to_epoch (rtc_get_gmt_time s).1).1 + s.current_time_zone * 3600) := by
    simp only [rtc_get_local_time, f1, f2, hdst, hg]
    rw [show (time_date_to_epoch (rtc_get_gmt_time s).1).1 + s.current_time_zone * 60 * 60 =
      (time_date_to_epoch (rtc_get_gmt_time s).1).1 + s.current_time_zone * 3600 by omega,
      toU32_of_range _ (by omega) (by omega)]
    simp only [Bool.false_eq_true, if_false]
    rw [toLong_of_range _ (by omega) (by omega)]
  refine ⟨hl, ?_⟩
  simp only [rtc_get_local_unix_time]
  rw [hl, epoch_roundtrip _ h1 (by omega), toU32_of_range _ (by omega) (by omega), hg]

/-- C10 (the code at the failing input): on a DS1307 with time zone 0, DST disabled and the
registers holding 12:00:00 on Sunday 1 January (20)40, `rtc_get_gmt_time` decodes that time
and `rtc_get_gmt_unix_time` returns its epoch 2209032000, but `rtc_get_local_time` returns
05:31:44 on 26.11. of year field 159, the calendar time of the negative `long`
2209032000 - 2^32, and `rtc_get_local_unix_time` does not return 2209032000. -/
theorem local_time_wraps_in_2040 :
    ds1307_2040_state.current_type = RTC2_DS1307 ∧ ds1307_2040_state.dst_enabled = false ∧
      ds1307_2040_state.current_time_zone = 0 ∧
      (rtc_get_gmt_time ds1307_2040_state).1 =
        { seconds := 0, minutes := 0, hours := 12, weekday := 7, monthday := 1, month := 1,
          year := 40 } ∧
      valid_date (rtc_get_gmt_time ds1307_2040_state).1 ∧
      valid_clock (rtc_get_gmt_time ds1307_2040_state).1 ∧
      (rtc_get_gmt_unix_time ds1307_2040_state).1 = 2209032000 ∧
      toLong 2209032000 = -2085935296 ∧
      (rtc_get_local_time ds1307_2040_state).1 =
        { seconds := 44, minutes := 31, hours := 5, weekday := 4, monthday := 26, month := 11,
          year := 159 } ∧
      (rtc_get_local_time ds1307_2040_state).1 ≠ time_epoch_to_date (2209032000 + 0 * 3600) ∧
      (rtc_get_local_unix_time ds1307_2040_state).1 ≠
        (rtc_get_gmt_unix_time ds1307_2040_state).1 +
          ds1307_2040_state.current_time_zone * 3600 := by
  decide

/-! ## The DST rule -/

/-- With DST enabled `rtc_get_local_time` returns the date of the epoch `dst_adjust`
computes from the shifted GMT epoch. -/
theorem get_local_time_dst (s : State) (h : s.dst_enabled = true) :
    (rtc_get_local_time s).1 =
      time_epoch_to_date (toLong
        (dst_adjust (toU32 ((rtc_get_gmt_unix_time s).1 + s.current_time_zone * 60 * 60))
          (time_epoch_to_date (toLong
            (toU32 ((rtc_get_gmt_unix_time s).1 + s.current_time_zone * 60 * 60))))).2) := by
  obtain ⟨f1, f2, -⟩ := get_gmt_unix_time_frame s
  simp only [rtc_get_local_time, dst_adjust, f1, f2, h, if_true]
  split_ifs <;> rfl

/-- The decision `rtc_get_local_time` takes: an hour is added when the month lies strictly
between March and November, and otherwise whenever the day of the month is below the end
day or the hour is below 2, whatever the month is. -/
theorem dst_adjust_decision (temp_time_unix : Int) (t : rtc_time_t) :
    (dst_adjust temp_time_unix t).1 = true ↔
      ((3 < t.month ∧ t.month < 11) ∨ t.monthday < (get_dst t.year).2.monthday ∨
        t.hours < 2) := by
  simp only [dst_adjust, get_dst]
  split_ifs with h1 h2 h3 <;> simp <;> omega

/-- C11 (the code at the failing input): with DST enabled, time zone 0 and the registers
holding 12:00:00 on 1 July (20)24, `rtc_get_local_time` returns 04:00:00 on 12 August
(20)24; its epoch exceeds the time-zone shifted GMT epoch by 3600000 seconds, not 3600. -/
theorem local_time_dst_adds_3600000 :
    july_dst_state.dst_enabled = true ∧ july_dst_state.current_time_zone = 0 ∧
      (rtc_get_gmt_time july_dst_state).1 = july_first ∧
      (rtc_get_gmt_unix_time july_dst_state).1 = 1719835200 ∧
      (rtc_get_local_time july_dst_state).1 =
        { seconds := 0, minutes := 0, hours := 4, weekday := 1, monthday := 12, month := 8,
          year := 24 } ∧
      (time_date_to_epoch (rtc_get_local_time july_dst_state).1).1 -
          ((rtc_get_gmt_unix_time july_dst_state).1 +
            july_dst_state.current_time_zone * 3600) = 3600000 := by
  decide

/-- C12 (the code at the failing input): for the local time 12:00:00 on 1 January (20)24
the decision of `rtc_get_local_time` is to add the hour, although the tie-break policy says
inactive; for 1 July (20)24 both say active.  With the registers holding that 1 January,
time zone 0 and DST enabled, `rtc_get_local_time` returns 04:00:00 on 13 December (20)24. -/
theorem dst_decision_january :
    (dst_adjust 1704110400 january_first).1 = true ∧
      ¬ spec_dst_active january_first (get_dst january_first.year).1
          (get_dst january_first.year).2 ∧
      (dst_adjust 1719835200 july_first).1 = true ∧
      spec_dst_active july_first (get_dst july_first.year).1 (get_dst july_first.year).2 ∧
      (rtc_get_gmt_time january_dst_state).1 = january_first ∧
      (rtc_get_local_time january_dst_state).1 =
        { seconds := 0, minutes := 0, hours := 4, weekday := 5, monthday := 13, month := 12,
          year := 24 } := by
  decide

/-- The day of the month `get_dst` computes is always a Monday in the years 2000..2099: the
day after the second Sunday of March, and the day after the first Sunday of November. -/
theorem get_dst_is_monday : ∀ y < 100,
    ref_weekday y 3 (get_dst y).1.monthday = 1 ∧ ref_weekday y 11 (get_dst y).2.monthday = 1 := by
  decide!

/-- C13 (the code at the failing input): for year 24 (2024) `get_dst` yields start monthday
11 and end monthday 4, both Mondays, at 02:00:00; the second Sunday of March 2024 is the
10th and the first Sunday of November 2024 is the 3rd. -/
theorem get_dst_2024 :
    (get_dst 24).1 =
        { seconds := 0, minutes := 0, hours := 2, weekday := 7, monthday := 11, month := 3,
          year := 24 } ∧
      (get_dst 24).2 =
        { seconds := 0, minutes := 0, hours := 2, weekday := 7, monthday := 4, month := 11,
          year := 24 } ∧
      ref_weekday 24 3 11 = 1 ∧ ref_weekday 24 11 4 = 1 ∧
      ref_weekday 24 3 3 = 7 ∧ ref_weekday 24 3 10 = 7 ∧ ref_weekday 24 11 3 = 7 := by
  decide

/-- C14: `rtc_enable_dst` and `rtc_disable_dst` change only the DST flag (registers, log of
transport calls, slave address, chip type, time zone and static buffers are as before), and
the results of `rtc_get_gmt_time` and `rtc_get_gmt_unix_time` do not depend on the DST flag
or the time zone. -/
theorem dst_flag_frame (s : State) (flag : Bool) (time_zone : Int) :
    rtc_enable_dst s = { s with dst_enabled := true } ∧
      rtc_disable_dst s = { s with dst_enabled := false } ∧
      (rtc_enable_dst s).regs = s.regs ∧ (rtc_disable_dst s).regs = s.regs ∧
      (rtc_enable_dst s).calls = s.calls ∧ (rtc_disable_dst s).calls = s.calls ∧
      (rtc_enable_dst s).current_type = s.current_type ∧
      (rtc_disable_dst s).current_type = s.current_type ∧
      (rtc_enable_dst s).current_time_zone = s.current_time_zone ∧
      (rtc_disable_dst s).current_time_zone = s.current_time_zone ∧
      (rtc_get_gmt_time { s with dst_enabled := flag, current_time_zone := time_zone }).1 =
        (rtc_get_gmt_time s).1 ∧
      (rtc_get_gmt_unix_time { s with dst_enabled := flag, current_time_zone := time_zone }).1 =
        (rtc_get_gmt_unix_time s).1 ∧
      (rtc_get_gmt_time (rtc_enable_dst s)).1 = (rtc_get_gmt_time (rtc_disable_dst s)).1 ∧
      (rtc_get_gmt_unix_time (rtc_enable_dst s)).1 =
        (rtc_get_gmt_unix_time (rtc_disable_dst s)).1 := by
  have hg : ∀ (f : Bool) (z : Int),
      (rtc_get_gmt_time { s with dst_enabled := f, current_time_zone := z }).1 =
        (rtc_get_gmt_time s).1 := by
    intro f z
    unfold rtc_get_gmt_time
    simp only [rtc_hal_read]
    split_ifs <;> rfl
  have hu : ∀ (f : Bool) (z : Int),
      (rtc_get_gmt_unix_time { s with dst_enabled := f, current_time_zone := z }).1 =
        (rtc_get_gmt_unix_time s).1 := by
    intro f z
    simp only [rtc_get_gmt_unix_time, hg]
  refine ⟨rfl, rfl, rfl, rfl, rfl, rfl, rfl, rfl, rfl, rfl, hg flag time_zone,
    hu flag time_zone, ?_, ?_⟩
  · exact (hg true s.current_time_zone).trans (hg false s.current_time_zone).symm
  · exact (hu true s.current_time_zone).trans (hu false s.current_time_zone).symm

/-- What `rtc_is_leap_year` evaluates on RTC2_DS1307 and RTC3_BQ32000: the leap-year rule
at 2000 plus the year of the module variable `current_local_time`, not at a year read from
the device; it makes no transport call and changes nothing. -/
theorem is_leap_year_computed (s : State)
    (hty : s.current_type = RTC2_DS1307 ∨ s.current_type = RTC3_BQ32000) :
    (rtc_is_leap_year s).1 = is_leap (2000 + s.current_local_time.year) ∧
      (rtc_is_leap_year s).2 = s := by
  have e4 : (2000 + s.current_local_time.year) % 4 = s.current_local_time.year % 4 := by omega
  have e100 : (2000 + s.current_local_time.year) % 100 = s.current_local_time.year % 100 := by
    omega
  have e400 : (2000 + s.current_local_time.year) % 400 = s.current_local_time.year % 400 := by
    omega
  rcases hty with h | h <;>
  · simp only [rtc_is_leap_year, h, is_leap, e4, e100, e400, RTC_PCF8583, RTC2_DS1307,
      RTC3_BQ32000]
    split_ifs <;> simp_all
    all_goals omega

/-- C16 (the code at the failing input): on a DS1307 whose registers hold 23:59:58 on
31.12.(20)37, with time zone +1, `rtc_get_gmt_time` returns year 37 and `rtc_get_local_time`
year 38; neither 2037 nor 2038 is a leap year, and `rtc_is_leap_year` returns true, before
and after the local time was read. -/
theorem leap_year_true_in_2037 :
    ds1307_state.current_type = RTC2_DS1307 ∧
      (rtc_get_gmt_time ds1307_state).1.year = 37 ∧
      (rtc_get_local_time ds1307_state).1.year = 38 ∧
      is_leap 2037 = false ∧ is_leap 2038 = false ∧
      (rtc_is_leap_year ds1307_state).1 = true ∧
      (rtc_is_leap_year (rtc_get_local_time ds1307_state).2).1 = true := by
  decide

/-- C17 (the code at the failing input): `rtc_write_eeprom` returns true on every path; on
a chip other than RTC6_MCP7941X it makes no transport call, changes nothing and still
returns true, never the documented value false. -/
theorem write_eeprom_returns_true (addr : Nat) (data_in : Nat → Nat) (data_size : Nat)
    (s : State) :
    (rtc_write_eeprom addr data_in data_size s).1 = true ∧
      (s.current_type ≠ RTC6_MCP7941X → (rtc_write_eeprom addr data_in data_size s).2 = s) ∧
      (rtc_write_eeprom 0 (fun _ => 0xA5) 1 ds1307_zero_state).1 = true ∧
      (rtc_write_eeprom 0 (fun _ => 0xA5) 1 ds1307_zero_state).2.calls =
        ds1307_zero_state.calls := by
  refine ⟨?_, ?_, by decide, by decide⟩
  · unfold rtc_write_eeprom
    split_ifs <;> rfl
  · intro h
    unfold rtc_write_eeprom
    rw [if_neg h]

/-! ## EEPROM writes -/

theorem range_pages {α : Type} (f : Nat → α) (q : Nat) :
    ((List.range q).flatMap fun k => (List.range 8).map fun j => f (k * 8 + j)) =
      (List.range (q * 8)).map f := by
  induction q with
  | zero => rfl
  | succ q ih =>
    rw [List.range_succ, List.flatMap_append, ih, show (q + 1) * 8 = q * 8 + 8 by omega,
      List.range_add, List.map_append, List.map_map]
    simp [Function.comp_def]

/-- The page loop of `rtc_write_eeprom`: the calls it logs and the registers it leaves. -/
theorem eeprom_page_loop_spec (addr : Nat) (data : Nat → Nat) :
    ∀ (k i : Nat) (s : State), addr + (i + k) * 8 ≤ 256 →
      (eeprom_page_loop addr data i k s).i2c_address = s.i2c_address ∧
      (eeprom_page_loop addr data i k s).calls = s.calls ++
        ((List.range k).map fun m =>
          HalCall.write s.i2c_address (addr + (i + m) * 8) (data_chunk data ((i + m) * 8) 8)) ∧
      (eeprom_page_loop addr data i k s).regs = (fun slave a =>
        if slave = s.i2c_address ∧ addr + i * 8 ≤ a ∧ a < addr + (i + k) * 8 then
          data (a - addr) % 256
        else s.regs slave a) := by
  intro k
  induction k with
  | zero =>
    intro i s _
    refine ⟨rfl, by simp [eeprom_page_loop], ?_⟩
    funext slave a
    simp only [eeprom_page_loop]
    rw [if_neg (by omega)]
  | succ k ih =>
    intro i s h
    obtain ⟨h1, h2, h3⟩ := ih (i + 1)
      (rtc_hal_write (addr + i * 8) (fun j => data (i * 8 + j)) RTC6_EEPROM_PAGE_SIZE s)
      (by omega)
    have hm : (addr + i * 8) % 256 = addr + i * 8 := Nat.mod_eq_of_lt (by omega)
    have hw : (rtc_hal_write (addr + i * 8) (fun j => data (i * 8 + j))
        RTC6_EEPROM_PAGE_SIZE s).calls = s.calls ++
          [HalCall.write s.i2c_address (addr + i * 8) (data_chunk data (i * 8) 8)] := by
      simp only [rtc_hal_write, hm, RTC6_EEPROM_PAGE_SIZE, data_chunk]
    have hi : (rtc_hal_write (addr + i * 8) (fun j => data (i * 8 + j))
        RTC6_EEPROM_PAGE_SIZE s).i2c_address = s.i2c_address := rfl
    simp only [eeprom_page_loop]
    refine ⟨h1, ?_, ?_⟩
    · rw [h2, hw, hi, List.range_succ_eq_map, List.map_cons, List.map_map, List.append_assoc,
        List.singleton_append]
      congr 2
      apply List.map_congr_left
      intro m _
      simp only [Function.comp, Nat.succ_eq_add_one]
      rw [show i + 1 + m = i + (m + 1) by omega]
    · rw [h3]
      funext slave a
      simp only [rtc_hal_write, hm, RTC6_EEPROM_PAGE_SIZE]
      by_cases hs : slave = s.i2c_address
      · simp only [hs, true_and]
        by_cases c1 : addr + (i + 1) * 8 ≤ a ∧ a < addr + (i + 1 + k) * 8
        · rw [if_pos c1, if_pos (by omega)]
        · rw [if_neg c1]
          by_cases c2 : addr + i * 8 ≤ a ∧ a < addr + i * 8 + 8
          · rw [if_pos c2, if_pos (by omega)]
            congr 2
            omega
          · rw [if_neg c2, if_neg (by omega)]
      · simp only [hs, false_and, if_false]

theorem written_bytes_chunk (slave address : Nat) (data : Nat → Nat) (off len : Nat) :
    written_bytes (HalCall.write slave address (data_chunk data off len)) =
      (List.range len).map fun j => (address + j, data (off + j) % 256) := by
  simp only [written_bytes, data_chunk, List.length_map, List.length_range]
  apply List.map_congr_left
  intro j hj
  have hj2 : j < len := List.mem_range.mp hj
  simp [List.getD_eq_getElem?_getD, hj2]

/-- The writes of the specification carry each of the `n` bytes once, byte `i` to
`addr + i`, in increasing order. -/
theorem spec_eeprom_writes_bytes (addr : Nat) (data : Nat → Nat) (n : Nat) :
    (spec_eeprom_writes addr data n).flatMap written_bytes =
      (List.range n).map fun i => (addr + i, data i % 256) := by
  unfold spec_eeprom_writes
  split_ifs with h8 hr
  · simp [written_bytes_chunk]
  · rw [List.flatMap_append, List.flatMap_map]
    simp only [written_bytes_chunk, List.flatMap_cons, List.flatMap_nil, List.append_nil]
    have e := range_pages (fun i => (addr + i, data i % 256)) (n / 8)
    have hn : n = n / 8 * 8 + n % 8 := by omega
    conv_rhs => rw [hn, List.range_add, List.map_append, List.map_map]
    rw [← e]
    congr 1
    · apply List.flatMap_congr
      intro k _
      apply List.map_congr_left
      intro j _
      rw [show addr + 8 * k + j = addr + (k * 8 + j) by omega,
        show 8 * k + j = k * 8 + j by omega]
    · apply List.map_congr_left
      intro j _
      simp only [Function.comp]
      rw [show addr + 8 * (n / 8) + j = addr + (n / 8 * 8 + j) by omega,
        show 8 * (n / 8) + j = n / 8 * 8 + j by omega]
  · rw [List.flatMap_append, List.flatMap_map]
    simp only [written_bytes_chunk, List.flatMap_nil, List.append_nil]
    have e := range_pages (fun i => (addr + i, data i % 256)) (n / 8)
    have hn : n = n / 8 * 8 := by omega
    conv_rhs => rw [hn]
    rw [← e]
    apply List.flatMap_congr
    intro k _
    apply List.map_congr_left
    intro j _
    rw [show addr + 8 * k + j = addr + (k * 8 + j) by omega,
      show 8 * k + j = k * 8 + j by omega]

theorem spec_eeprom_writes_length (addr : Nat) (data : Nat → Nat) (n : Nat) :
    ∀ c ∈ spec_eeprom_writes addr data n, call_length c ≤ 8 := by
  intro c hc
  unfold spec_eeprom_writes at hc
  split_ifs at hc with h8 hr
  · simp only [List.mem_singleton] at hc
    subst hc
    simp [call_length, data_chunk]; omega
  · simp only [List.mem_append, List.mem_map, List.mem_singleton] at hc
    rcases hc with ⟨k, _, rfl⟩ | rfl
    · simp [call_length, data_chunk]
    · simp [call_length, data_chunk]; omega
  · simp only [List.append_nil, List.mem_map] at hc
    obtain ⟨k, _, rfl⟩ := hc
    simp [call_length, data_chunk]


theorem hal_set_slave_calls (a : Nat) (s : State) : (rtc_hal_set_slave a s).calls = s.calls :=
  rfl

theorem hal_set_slave_regs (a : Nat) (s : State) : (rtc_hal_set_slave a s).regs = s.regs :=
  rfl

theorem hal_set_slave_addr (a : Nat) (s : State) :
    (rtc_hal_set_slave a s).i2c_address = a % 256 :=
  rfl

theorem hal_write_calls (address : Nat) (d : Nat → Nat) (n : Nat) (s : State) :
    (rtc_hal_write address d n s).calls =
      s.calls ++ [HalCall.write s.i2c_address (address % 256) (data_chunk d 0 n)] := by
  simp [rtc_hal_write, data_chunk]

theorem hal_write_regs (address : Nat) (d : Nat → Nat) (n : Nat) (s : State) :
    (rtc_hal_write address d n s).regs = fun slave a =>
      if slave = s.i2c_address ∧ address % 256 ≤ a ∧ a < address % 256 + n then
        d (a - address % 256) % 256
      else s.regs slave a :=
  rfl

theorem hal_write_addr (address : Nat) (d : Nat → Nat) (n : Nat) (s : State) :
    (rtc_hal_write address d n s).i2c_address = s.i2c_address :=
  rfl

theorem hal_read_calls (address : Nat) (d : Nat → Nat) (n : Nat) (s : State) :
    (rtc_hal_read address d n s).2.calls =
      s.calls ++ [HalCall.read s.i2c_address (address % 256) n] :=
  rfl

theorem hal_read_regs (address : Nat) (d : Nat → Nat) (n : Nat) (s : State) :
    (rtc_hal_read address d n s).2.regs = s.regs :=
  rfl

theorem hal_read_addr (address : Nat) (d : Nat → Nat) (n : Nat) (s : State) :
    (rtc_hal_read address d n s).2.i2c_address = s.i2c_address :=
  rfl

theorem data_chunk_shift (data : Nat → Nat) (off len : Nat) :
    data_chunk (fun j => data (off + j)) 0 len = data_chunk data off len := by
  simp [data_chunk]

/-- The calls `rtc_write_eeprom` logs and the registers it leaves on RTC6_MCP7941X. -/
theorem write_eeprom_effect (addr : Nat) (data : Nat → Nat) (n : Nat) (s : State)
    (hty : s.current_type = RTC6_MCP7941X) (ha : addr < 256) (hn : n < 256)
    (hfit : addr + n ≤ 256) :
    (rtc_write_eeprom addr data n s).2.calls = s.calls ++ spec_eeprom_writes addr data n ∧
      (rtc_write_eeprom addr data n s).2.regs = (fun slave a =>
        if slave = RTC6_MCP7941X_EEPROM_SLAVE ∧ addr ≤ a ∧ a < addr + n then
          data (a - addr) % 256
        else s.regs slave a) := by
  have hchk : addr ≥ RTC6_EEPROM_START ∧ addr + n < RTC6_EEPROM_END := by
    simp only [RTC6_EEPROM_START, RTC6_EEPROM_END, RTC6_EEPROM_SIZE]; omega
  have hma : addr % 256 = addr := Nat.mod_eq_of_lt ha
  have hsl : RTC6_MCP7941X_EEPROM_SLAVE % 256 = RTC6_MCP7941X_EEPROM_SLAVE := by decide
  unfold rtc_write_eeprom
  rw [if_pos hty, if_pos hchk]
  simp only [RTC6_EEPROM_PAGE_SIZE]
  by_cases h8 : n ≤ 8
  · rw [if_pos h8]
    constructor
    · simp only [hal_set_slave_calls, hal_write_calls, hal_set_slave_addr, hsl, hma,
        spec_eeprom_writes, h8, if_true]
    · simp only [hal_set_slave_regs, hal_write_regs, hal_set_slave_addr, hsl, hma]
  · rw [if_neg h8]
    have hcount : n / 8 % 256 = n / 8 := Nat.mod_eq_of_lt (by omega)
    have hrem : n % 8 % 256 = n % 8 := Nat.mod_eq_of_lt (by omega)
    obtain ⟨l1, l2, l3⟩ := eeprom_page_loop_spec addr data (n / 8) 0
      (rtc_hal_set_slave RTC6_MCP7941X_EEPROM_SLAVE s) (by omega)
    rw [hal_set_slave_addr, hsl] at l1 l2 l3
    rw [hal_set_slave_calls] at l2
    rw [hal_set_slave_regs] at l3
    have hpages : (List.range (n / 8)).map (fun m =>
        HalCall.write RTC6_MCP7941X_EEPROM_SLAVE (addr + (0 + m) * 8)
          (data_chunk data ((0 + m) * 8) 8)) =
        (List.range (n / 8)).map (fun k =>
          HalCall.write RTC6_MCP7941X_EEPROM_SLAVE (addr + 8 * k) (data_chunk data (8 * k) 8)) := by
      apply List.map_congr_left
      intro m _
      rw [show (0 + m) * 8 = 8 * m by omega]
    rw [hpages] at l2
    simp only [hcount, hrem]
    by_cases hr : n % 8 ≠ 0
    · rw [if_pos hr]
      have hm2 : (addr + n / 8 * 8) % 256 = addr + n / 8 * 8 := Nat.mod_eq_of_lt (by omega)
      constructor
      · simp only [hal_set_slave_calls, hal_write_calls, hal_write_addr, l1, l2, hm2,
          spec_eeprom_writes, h8, if_false, hr, if_true, List.append_assoc, data_chunk_shift]
        rw [show n / 8 * 8 = 8 * (n / 8) by omega, if_pos hr]
      · funext slave a
        simp only [hal_set_slave_regs, hal_write_regs, l1, l3, hm2]
        by_cases hs : slave = RTC6_MCP7941X_EEPROM_SLAVE
        · simp only [hs, true_and]
          by_cases c1 : addr + n / 8 * 8 ≤ a ∧ a < addr + n / 8 * 8 + n % 8
          · rw [if_pos c1, if_pos (by omega)]
            congr 2
            omega
          · rw [if_neg c1]
            by_cases c2 : addr + 0 * 8 ≤ a ∧ a < addr + (0 + n / 8) * 8
            · rw [if_pos c2, if_pos (by omega)]
            · rw [if_neg c2, if_neg (by omega)]
        · simp only [hs, false_and, if_false]
    · rw [if_neg hr]
      constructor
      · simp only [hal_set_slave_calls, l2, spec_eeprom_writes, h8, if_false, hr,
          List.append_nil]
      · funext slave a
        simp only [hal_set_slave_regs, l3]
        by_cases hs : slave = RTC6_MCP7941X_EEPROM_SLAVE
        · simp only [hs, true_and]
          by_cases c2 : addr + 0 * 8 ≤ a ∧ a < addr + (0 + n / 8) * 8
          · rw [if_pos c2, if_pos (by omega)]
          · rw [if_neg c2, if_neg (by omega)]
        · simp only [hs, false_and, if_false]

/-- C18: on RTC6_MCP7941X, for `addr + n <= 256`, `rtc_write_eeprom(addr, data, n)` logs
exactly the writes of the specification (one write of the `n` bytes at `addr` when `n <= 8`;
otherwise `n / 8` writes of 8 bytes, the `k`-th carrying `data[8 k ..]` to `addr + 8 k`,
then one write of the last `n % 8` bytes when that is not 0), on the EEPROM slave; each
write is at most 8 bytes long; in order they carry byte `i` of the input to address
`addr + i`, each byte once; and afterwards register `addr + i` of the EEPROM slave holds
byte `i`, all other registers being unchanged. -/
theorem write_eeprom_pages (addr : Nat) (data : Nat → Nat) (n : Nat) (s : State)
    (hty : s.current_type = RTC6_MCP7941X) (ha : addr < 256) (hn : n < 256)
    (hfit : addr + n ≤ 256) :
    (rtc_write_eeprom addr data n s).2.calls = s.calls ++ spec_eeprom_writes addr data n ∧
      (∀ c ∈ spec_eeprom_writes addr data n, call_length c ≤ 8) ∧
      (spec_eeprom_writes addr data n).flatMap written_bytes =
        (List.range n).map (fun i => (addr + i, data i % 256)) ∧
      (rtc_write_eeprom addr data n s).2.regs = (fun slave a =>
        if slave = RTC6_MCP7941X_EEPROM_SLAVE ∧ addr ≤ a ∧ a < addr + n then
          data (a - addr) % 256
        else s.regs slave a) := by
  refine ⟨?_, spec_eeprom_writes_length addr data n, spec_eeprom_writes_bytes addr data n, ?_⟩
  · exact (write_eeprom_effect addr data n s hty ha hn hfit).1
  · exact (write_eeprom_effect addr data n s hty ha hn hfit).2

theorem write_eeprom_pages_witness :
    mcp7941x_zero_state.current_type = RTC6_MCP7941X ∧ 5 < 256 ∧ 19 < 256 ∧ 5 + 19 ≤ 256 ∧
      spec_eeprom_writes 5 sample_data 19 =
        [HalCall.write 0xAE 5 [1, 2, 3, 4, 5, 6, 7, 8],
          HalCall.write 0xAE 13 [9, 10, 11, 12, 13, 14, 15, 16],
          HalCall.write 0xAE 21 [17, 18, 19]] ∧
      ((rtc_write_eeprom 5 sample_data 19 mcp7941x_zero_state).2.calls =
          mcp7941x_zero_state.calls ++ spec_eeprom_writes 5 sample_data 19 ∧
        (∀ c ∈ spec_eeprom_writes 5 sample_data 19, call_length c ≤ 8) ∧
        (spec_eeprom_writes 5 sample_data 19).flatMap written_bytes =
          (List.range 19).map (fun i => (5 + i, sample_data i % 256)) ∧
        (rtc_write_eeprom 5 sample_data 19 mcp7941x_zero_state).2.regs = (fun slave a =>
          if slave = RTC6_MCP7941X_EEPROM_SLAVE ∧ 5 ≤ a ∧ a < 5 + 19 then
            sample_data (a - 5) % 256
          else mcp7941x_zero_state.regs slave a)) :=
  ⟨by decide, by decide, by decide, by decide, by decide,
    write_eeprom_pages 5 sample_data 19 mcp7941x_zero_state (by decide) (by decide) (by decide)
      (by decide)⟩

/-! ## SRAM -/

/-- Below the last byte of the RAM, `rtc_read_sram` after `rtc_write_sram` returns the
byte written: for `addr < 0x37` on RTC2_DS1307 and `addr < 0x3F` on RTC6_MCP7941X. -/
theorem sram_roundtrip_below (addr d : Nat) (s : State) (hd : d < 256)
    (h : (s.current_type = RTC2_DS1307 ∧ addr < 0x37) ∨
      (s.current_type = RTC6_MCP7941X ∧ addr < 0x3F)) :
    (rtc_read_sram addr (rtc_write_sram addr d s)).1 = d := by
  rcases h with ⟨hty, ha⟩ | ⟨hty, ha⟩
  · have c : addr + RTC2_RAM_START < RTC2_RAM_END := by
      simp only [RTC2_RAM_START, RTC2_RAM_END]; omega
    have hm : (RTC2_RAM_START + addr) % 256 = RTC2_RAM_START + addr := by
      simp only [RTC2_RAM_START]; omega
    simp only [rtc_write_sram, rtc_read_sram, hty, if_true, c, rtc_hal_write, rtc_hal_read, hm]
    simp only [Nat.lt_one_iff, Nat.add_zero, if_true, Nat.le_refl, Nat.lt_add_one, and_self,
      Nat.sub_self, Nat.mod_mod]
    exact Nat.mod_eq_of_lt hd
  · have c : addr + RTC6_RAM_START < RTC6_RAM_END := by
      simp only [RTC6_RAM_START, RTC6_RAM_END]; omega
    have hm : (RTC6_RAM_START + addr) % 256 = RTC6_RAM_START + addr := by
      simp only [RTC6_RAM_START]; omega
    have hne : RTC6_MCP7941X ≠ RTC2_DS1307 := by decide
    simp only [rtc_write_sram, rtc_read_sram, hty, hne, if_false, if_true, c, rtc_hal_write,
      rtc_hal_read, rtc_hal_set_slave, hm]
    simp only [Nat.lt_one_iff, Nat.add_zero, if_true, Nat.le_refl, Nat.lt_add_one, and_self,
      Nat.sub_self, Nat.mod_mod]
    exact Nat.mod_eq_of_lt hd

/-- C19 (the code at the failing input): the last byte of the documented range is
rejected.  On RTC2_DS1307 `rtc_write_sram(0x37, 0xA5)` makes no transport call and
`rtc_read_sram(0x37)` then returns 0, and likewise at 0x3F on RTC6_MCP7941X, while one
address lower the byte written is read back. -/
theorem sram_last_byte_rejected :
    (rtc_write_sram 0x37 0xA5 ds1307_zero_state).calls = ds1307_zero_state.calls ∧
      (rtc_read_sram 0x37 (rtc_write_sram 0x37 0xA5 ds1307_zero_state)).1 = 0 ∧
      (rtc_read_sram 0x36 (rtc_write_sram 0x36 0xA5 ds1307_zero_state)).1 = 0xA5 ∧
      (rtc_write_sram 0x3F 0xA5 mcp7941x_zero_state).calls = mcp7941x_zero_state.calls ∧
      (rtc_read_sram 0x3F (rtc_write_sram 0x3F 0xA5 mcp7941x_zero_state)).1 = 0 ∧
      (rtc_read_sram 0x3E (rtc_write_sram 0x3E 0xA5 mcp7941x_zero_state)).1 = 0xA5 := by
  decide

theorem drop_append_singleton (l : List HalCall) (c : HalCall) :
    (l ++ [c]).drop l.length = [c] := by
  simp

/-- The calls of `rtc_write_sram`, `rtc_read_sram` and `rtc_read_sram_bulk` touch only
registers of the SRAM window; so do those of `rtc_write_sram_bulk` when the sum of its range
check does not wrap around in `size_t`. -/
theorem sram_calls_in_window (addr d n : Nat) (data : Nat → Nat) (s : State) :
    new_calls_in_window s.current_type s.calls.length (rtc_write_sram addr d s).calls ∧
      new_calls_in_window s.current_type s.calls.length (rtc_read_sram addr s).2.calls ∧
      new_calls_in_window s.current_type s.calls.length
        (rtc_read_sram_bulk addr data n s).2.calls ∧
      (addr + 0x20 + n < SIZE_T_MOD →
        new_calls_in_window s.current_type s.calls.length
          (rtc_write_sram_bulk addr data n s).calls) := by
  have hnil : ∀ t, new_calls_in_window t s.calls.length s.calls := by
    intro t c hc
    simp at hc
  have hne : RTC6_MCP7941X ≠ RTC2_DS1307 := by decide
  by_cases h2 : s.current_type = RTC2_DS1307
  · refine ⟨?_, ?_, ?_, ?_⟩
    · simp only [rtc_write_sram, h2, if_true]
      split_ifs with c
      · rw [hal_write_calls, ← h2]
        intro x hx a ha
        rw [drop_append_singleton, List.mem_singleton] at hx
        subst hx
        simp only [RTC2_RAM_START, RTC2_RAM_END, call_touches, data_chunk, List.length_map,
          List.length_range, sram_window, h2, if_true] at c ha ⊢
        omega
      · rw [← h2]; exact hnil _
    · simp only [rtc_read_sram, h2, if_true]
      split_ifs with c
      · rw [hal_read_calls, ← h2]
        intro x hx a ha
        rw [drop_append_singleton, List.mem_singleton] at hx
        subst hx
        simp only [RTC2_RAM_START, RTC2_RAM_END, call_touches, sram_window, h2, if_true]
          at c ha ⊢
        omega
      · rw [← h2]; exact hnil _
    · simp only [rtc_read_sram_bulk, h2, if_true]
      split_ifs with c
      · rw [hal_read_calls, ← h2]
        intro x hx a ha
        rw [drop_append_singleton, List.mem_singleton] at hx
        subst hx
        simp only [RTC2_RAM_START, RTC2_RAM_END, call_touches, sram_window, h2, if_true]
          at c ha ⊢
        omega
      · rw [← h2]; exact hnil _
    · intro hw
      simp only [rtc_write_sram_bulk, h2, if_true]
      split_ifs with c
      · rw [hal_write_calls, ← h2]
        intro x hx a ha
        rw [drop_append_singleton, List.mem_singleton] at hx
        subst hx
        simp only [RTC2_RAM_START, RTC2_RAM_END, SIZE_T_MOD, call_touches, data_chunk,
          List.length_map, List.length_range, sram_window, h2, if_true] at c ha hw ⊢
        omega
      · rw [← h2]; exact hnil _
  · by_cases h6 : s.current_type = RTC6_MCP7941X
    · refine ⟨?_, ?_, ?_, ?_⟩
      · simp only [rtc_write_sram, h6, hne, if_false, if_true]
        split_ifs with c
        · rw [hal_set_slave_calls, hal_write_calls, hal_set_slave_calls, ← h6]
          intro x hx a ha
          rw [drop_append_singleton, List.mem_singleton] at hx
          subst hx
          simp only [RTC6_RAM_START, RTC6_RAM_END, call_touches, data_chunk, List.length_map,
            List.length_range, sram_window, h6, hne, if_false, if_true] at c ha ⊢
          omega
        · rw [← h6]; exact hnil _
      · simp only [rtc_read_sram, h6, hne, if_false, if_true]
        split_ifs with c
        · rw [hal_set_slave_calls, hal_read_calls, hal_set_slave_calls, ← h6]
          intro x hx a ha
          rw [drop_append_singleton, List.mem_singleton] at hx
          subst hx
          simp only [RTC6_RAM_START, RTC6_RAM_END, call_touches, sram_window, h6, hne, if_false,
            if_true] at c ha ⊢
          omega
        · rw [← h6]; exact hnil _
      · simp only [rtc_read_sram_bulk, h6, hne, if_false, if_true]
        split_ifs with c
        · rw [hal_set_slave_calls, hal_read_calls, hal_set_slave_calls, ← h6]
          intro x hx a ha
          rw [drop_append_singleton, List.mem_singleton] at hx
          subst hx
          simp only [RTC6_RAM_START, RTC6_RAM_END, call_touches, sram_window, h6, hne, if_false,
            if_true] at c ha ⊢
          omega
        · rw [← h6]; exact hnil _
      · intro hw
        simp only [rtc_write_sram_bulk, h6, hne, if_false, if_true]
        split_ifs with c
        · rw [hal_set_slave_calls, hal_write_calls, hal_set_slave_calls, ← h6]
          intro x hx a ha
          rw [drop_append_singleton, List.mem_singleton] at hx
          subst hx
          simp only [RTC6_RAM_START, RTC6_RAM_END, SIZE_T_MOD, call_touches, data_chunk,
            List.length_map, List.length_range, sram_window, h6, hne, if_false, if_true]
            at c ha hw ⊢
          omega
        · rw [← h6]; exact hnil _
    · simp only [rtc_write_sram, rtc_read_sram, rtc_read_sram_bulk, rtc_write_sram_bulk, h2, h6,
        if_false]
      exact ⟨hnil _, hnil _, hnil _, fun _ => hnil _⟩

/-- C20 (the code at the failing input): on RTC2_DS1307 the range check of
`rtc_write_sram_bulk(0, data, 4294967288)` wraps around in `size_t` (8 + 4294967288 is 0
modulo 2^32), so the write is issued from register 0x08 on and registers outside the window
[0x08, 0x3F), such as 0x3F, 0x40 and 0x100, are written. -/
theorem sram_bulk_check_wraps :
    ds1307_zero_state.current_type = RTC2_DS1307 ∧
      (0 + RTC2_RAM_START + 4294967288) % SIZE_T_MOD = 0 ∧
      ds1307_zero_state.regs 0x68 0x3F = 0 ∧
      (rtc_write_sram_bulk 0 (fun _ => 0xA5) 4294967288 ds1307_zero_state).regs 0x68 0x3F =
        0xA5 ∧
      (rtc_write_sram_bulk 0 (fun _ => 0xA5) 4294967288 ds1307_zero_state).regs 0x68 0x40 =
        0xA5 ∧
      (rtc_write_sram_bulk 0 (fun _ => 0xA5) 4294967288 ds1307_zero_state).regs 0x68 0x100 =
        0xA5 := by
  decide

/-! ## Read-modify-write of one control register -/

/-- The byte a one-byte `rtc_hal_read` delivers. -/
theorem hal_read_byte (address : Nat) (d : Nat → Nat) (s : State) :
    (rtc_hal_read address d 1 s).1 0 = s.regs s.i2c_address (address % 256) % 256 := rfl

/-- Reading one register, changing the byte with `f` and writing it back leaves `f` of the
old byte, reduced to a byte, in that register of the selected slave. -/
theorem rmw_reg (address : Nat) (f : Nat → Nat) (s : State) (ha : address < 256) :
    (rtc_hal_write address (fun _ => f ((rtc_hal_read address (fun _ => 0) 1 s).1 0)) 1
      (rtc_hal_read address (fun _ => 0) 1 s).2).regs s.i2c_address address =
      f (s.regs s.i2c_address address % 256) % 256 := by
  rw [hal_write_regs, hal_read_addr, hal_read_regs, hal_read_byte, Nat.mod_eq_of_lt ha]
  simp

/-- Facts about the bytes the control-register updates produce, for every byte read. -/
theorem control_byte_table : ∀ r < 256,
    (((r ||| (1 <<< 6)) &&& 0xF8) % 256 &&& (1 <<< 6) = 1 <<< 6 ∧
      ((r ||| (1 <<< 6)) &&& 0xF8) % 256 &&& 0x03 = 0) ∧
    ((((r ||| (1 <<< 6)) &&& 0xF8) ||| 0x01) % 256 &&& (1 <<< 6) = 1 <<< 6 ∧
      (((r ||| (1 <<< 6)) &&& 0xF8) ||| 0x01) % 256 &&& 0x03 = 1) ∧
    ((((r ||| (1 <<< 6)) &&& 0xF8) ||| (1 <<< 1)) % 256 &&& (1 <<< 6) = 1 <<< 6 ∧
      (((r ||| (1 <<< 6)) &&& 0xF8) ||| (1 <<< 1)) % 256 &&& 0x03 = 2) ∧
    ((((r ||| (1 <<< 6)) &&& 0xF8) ||| 0x03) % 256 &&& (1 <<< 6) = 1 <<< 6 ∧
      (((r ||| (1 <<< 6)) &&& 0xF8) ||| 0x03) % 256 &&& 0x03 = 3) ∧
    (((r ||| (1 <<< 4)) &&& 0xFC) % 256 &&& (1 <<< 4) = 1 <<< 4 ∧
      ((r ||| (1 <<< 4)) &&& 0xFC) % 256 &&& 0x03 = 0) ∧
    ((((r ||| (1 <<< 4)) &&& 0xFD) ||| 0x01) % 256 &&& (1 <<< 4) = 1 <<< 4 ∧
      (((r ||| (1 <<< 4)) &&& 0xFD) ||| 0x01) % 256 &&& 0x03 = 1) ∧
    (((r ||| (1 <<< 4)) ||| (1 <<< 1)) % 256 &&& (1 <<< 4) = 1 <<< 4 ∧
      ((r ||| (1 <<< 4)) ||| (1 <<< 1)) % 256 &&& 0x03 = 2 + r % 2) ∧
    (((r ||| (1 <<< 4)) ||| 0x03) % 256 &&& (1 <<< 4) = 1 <<< 4 ∧
      ((r ||| (1 <<< 4)) ||| 0x03) % 256 &&& 0x03 = 3) ∧
    ((r &&& 0xBF) % 256 &&& (1 <<< 6) = 0 ∧ (r &&& 0xBF) % 256 &&& 0xBF = r &&& 0xBF) ∧
    ((r &&& 0x7F) % 256 &&& (1 <<< 4) = r &&& (1 <<< 4)) ∧
    ((r &&& 0xEF) % 256 &&& (1 <<< 4) = 0 ∧ (r &&& 0xEF) % 256 &&& 0xEF = r &&& 0xEF) ∧
    ((r &&& 0xDF) % 256 &&& (1 <<< 5) = 0 ∧ (r &&& 0xDF) % 256 &&& 0xDF = r &&& 0xDF) ∧
    ((r ||| (1 <<< 2)) % 256 &&& (1 <<< 2) = 1 <<< 2) ∧
    ((r ||| ((1 <<< 3) ||| (1 <<< 2))) % 256 &&& 0x0C = 0x0C ∧
      (r ||| ((1 <<< 3) ||| (1 <<< 2))) % 256 &&& 0xF3 = r &&& 0xF3) ∧
    ((r &&& (0xF7 ||| (1 <<< 2))) % 256 = r &&& 0xF7) ∧
    (((r &&& (1 <<< 3)) ||| (1 <<< 2)) != 0) = true := by
  decide!

/-! ## Square wave output -/

/-- Control register 0x07 after `rtc_enable_swo` on `RTC6_MCP7941X`: the square-wave
enable bit 6 is set and the rate-select bits 1..0 hold the index of the frequency. -/
theorem mcp_enable_swo_bits (swo : Nat) (s : State) (hty : s.current_type = RTC6_MCP7941X)
    (hf : swo ≤ RTC_32_768KHZ) :
    (rtc_enable_swo swo s).regs s.i2c_address 0x07 &&& (1 <<< 6) = 1 <<< 6 ∧
      (rtc_enable_swo swo s).regs s.i2c_address 0x07 &&& 0x03 = swo := by
  obtain ⟨T0, T1, T2, T3, -⟩ :=
    control_byte_table (s.regs s.i2c_address 0x07 % 256) (Nat.mod_lt _ (by decide))
  have e : (rtc_enable_swo swo s).regs s.i2c_address 0x07 =
      mcp_swo_bits swo (s.regs s.i2c_address 0x07 % 256 ||| (1 <<< 6)) % 256 := by
    unfold rtc_enable_swo
    rw [if_neg (by rw [hty]; decide), if_neg (by rw [hty]; decide), if_pos hty]
    exact rmw_reg 0x07 (fun x => mcp_swo_bits swo (x ||| (1 <<< 6))) s (by decide)
  rw [e]
  unfold RTC_32_768KHZ at hf
  interval_cases swo
  · exact T0
  · exact T1
  · exact T2
  · exact T3

/-- Control register 0x07 after `rtc_enable_swo` on `RTC2_DS1307`: the square-wave enable
bit 4 is set; the rate-select bits 1..0 hold the index of the frequency, except that for
`RTC_8_192KHZ` bit 0 keeps the value it had. -/
theorem ds1307_enable_swo_bits (swo : Nat) (s : State) (hty : s.current_type = RTC2_DS1307)
    (hf : swo ≤ RTC_32_768KHZ) :
    (rtc_enable_swo swo s).regs s.i2c_address 0x07 &&& (1 <<< 4) = 1 <<< 4 ∧
      (rtc_enable_swo swo s).regs s.i2c_address 0x07 &&& 0x03 =
        if swo = RTC_8_192KHZ then 2 + s.regs s.i2c_address 0x07 % 2 else swo := by
  obtain ⟨-, -, -, -, T0, T1, T2, T3, -⟩ :=
    control_byte_table (s.regs s.i2c_address 0x07 % 256) (Nat.mod_lt _ (by decide))
  have e : (rtc_enable_swo swo s).regs s.i2c_address 0x07 =
      ds1307_swo_bits swo (s.regs s.i2c_address 0x07 % 256 ||| (1 <<< 4)) % 256 := by
    unfold rtc_enable_swo
    rw [if_neg (by rw [hty]; decide), if_pos hty]
    exact rmw_reg 0x07 (fun x => ds1307_swo_bits swo (x ||| (1 <<< 4))) s (by decide)
  rw [e]
  unfold RTC_32_768KHZ at hf
  interval_cases swo
  · exact T0
  · exact T1
  · refine ⟨T2.1, ?_⟩
    rw [if_pos (show (2 : Nat) = RTC_8_192KHZ from rfl),
      ← Nat.mod_mod_of_dvd (s.regs s.i2c_address 0x07) (by decide : 2 ∣ 256)]
    exact T2.2
  · exact T3

/-- Control register 0x07 after `rtc_disable_swo`: on `RTC6_MCP7941X` the square-wave
enable bit 6 is clear and the other bits are those read; on `RTC2_DS1307` bit 4, the
square-wave enable bit, keeps the value it had. -/
theorem disable_swo_bits (s : State) :
    (s.current_type = RTC6_MCP7941X →
      (rtc_disable_swo s).regs s.i2c_address 0x07 &&& (1 <<< 6) = 0 ∧
      (rtc_disable_swo s).regs s.i2c_address 0x07 &&& 0xBF =
        s.regs s.i2c_address 0x07 % 256 &&& 0xBF) ∧
    (s.current_type = RTC2_DS1307 →
      (rtc_disable_swo s).regs s.i2c_address 0x07 &&& (1 <<< 4) =
        s.regs s.i2c_address 0x07 % 256 &&& (1 <<< 4)) := by
  obtain ⟨-, -, -, -, -, -, -, -, T0, T1, -⟩ :=
    control_byte_table (s.regs s.i2c_address 0x07 % 256) (Nat.mod_lt _ (by decide))
  constructor
  · intro hty
    have e : (rtc_disable_swo s).regs s.i2c_address 0x07 =
        (s.regs s.i2c_address 0x07 % 256 &&& 0xBF) % 256 := by
      unfold rtc_disable_swo
      rw [if_neg (by rw [hty]; decide), if_neg (by rw [hty]; decide), if_pos hty]
      exact rmw_reg 0x07 (fun x => x &&& 0xBF) s (by decide)
    rw [e]
    exact T0
  · intro hty
    have e : (rtc_disable_swo s).regs s.i2c_address 0x07 =
        (s.regs s.i2c_address 0x07 % 256 &&& 0x7F) % 256 := by
      unfold rtc_disable_swo
      rw [if_neg (by rw [hty]; decide), if_pos hty]
      exact rmw_reg 0x07 (fun x => x &&& 0x7F) s (by decide)
    rw [e]
    exact T1

/-! ## Disabling an alarm -/

/-- The control registers after `rtc_disable_alarm`: on `RTC6_MCP7941X` the enable bit of
the alarm (bit 4 for `RTC_ALARM_0`, bit 5 for `RTC_ALARM_1`) in register 0x07 is clear and
the other bits are those read; on `RTC_PCF8583` bit 2 of register 0x00 is set. -/
theorem disable_alarm_bits (s : State) :
    (s.current_type = RTC6_MCP7941X →
      ((rtc_disable_alarm RTC_ALARM_0 s).regs s.i2c_address 0x07 &&& (1 <<< 4) = 0 ∧
        (rtc_disable_alarm RTC_ALARM_0 s).regs s.i2c_address 0x07 &&& 0xEF =
          s.regs s.i2c_address 0x07 % 256 &&& 0xEF) ∧
      ((rtc_disable_alarm RTC_ALARM_1 s).regs s.i2c_address 0x07 &&& (1 <<< 5) = 0 ∧
        (rtc_disable_alarm RTC_ALARM_1 s).regs s.i2c_address 0x07 &&& 0xDF =
          s.regs s.i2c_address 0x07 % 256 &&& 0xDF)) ∧
    (s.current_type = RTC_PCF8583 → ∀ alarm,
      (rtc_disable_alarm alarm s).regs s.i2c_address 0x00 &&& (1 <<< 2) = 1 <<< 2) := by
  constructor
  · intro hty
    obtain ⟨-, -, -, -, -, -, -, -, -, -, T0, T1, -⟩ :=
      control_byte_table (s.regs s.i2c_address 0x07 % 256) (Nat.mod_lt _ (by decide))
    have e0 : (rtc_disable_alarm RTC_ALARM_0 s).regs s.i2c_address 0x07 =
        (s.regs s.i2c_address 0x07 % 256 &&& 0xEF) % 256 := by
      unfold rtc_disable_alarm
      rw [if_neg (by rw [hty]; decide), if_neg (by rw [hty]; decide),
        if_neg (by rw [hty]; decide), if_pos hty]
      exact rmw_reg 0x07 (fun x => x &&& 0xEF) s (by decide)
    have e1 : (rtc_disable_alarm RTC_ALARM_1 s).regs s.i2c_address 0x07 =
        (s.regs s.i2c_address 0x07 % 256 &&& 0xDF) % 256 := by
      unfold rtc_disable_alarm
      rw [if_neg (by rw [hty]; decide), if_neg (by rw [hty]; decide),
        if_neg (by rw [hty]; decide), if_pos hty]
      exact rmw_reg 0x07 (fun x => x &&& 0xDF) s (by decide)
    rw [e0, e1]
    exact ⟨T0, T1⟩
  · intro hty alarm
    obtain ⟨-, -, -, -, -, -, -, -, -, -, -, -, T, -⟩ :=
      control_byte_table (s.regs s.i2c_address 0x00 % 256) (Nat.mod_lt _ (by decide))
    have e : (rtc_disable_alarm alarm s).regs s.i2c_address 0x00 =
        (s.regs s.i2c_address 0x00 % 256 ||| (1 <<< 2)) % 256 := by
      unfold rtc_disable_alarm
      rw [if_pos hty]
      exact rmw_reg 0x00 (fun x => x ||| (1 <<< 2)) s (by decide)
    rw [e]
    exact T

/-! ## EEPROM write protection -/

/-- The EEPROM status register 0xFF on `RTC6_MCP7941X`: `rtc_eeprom_is_locked` returns true
whatever the register holds; `rtc_eeprom_write_protect_on` sets bits 3 and 2 and keeps the
other bits; `rtc_eeprom_write_protect_off` clears bit 3 only. -/
theorem eeprom_protect_regs (s : State) (hty : s.current_type = RTC6_MCP7941X) :
    (rtc_eeprom_is_locked s).1 = true ∧
      (rtc_eeprom_write_protect_on s).regs RTC6_MCP7941X_EEPROM_SLAVE 0xff &&& 0x0C = 0x0C ∧
      (rtc_eeprom_write_protect_on s).regs RTC6_MCP7941X_EEPROM_SLAVE 0xff &&& 0xF3 =
        s.regs RTC6_MCP7941X_EEPROM_SLAVE 0xff % 256 &&& 0xF3 ∧
      (rtc_eeprom_write_protect_off s).regs RTC6_MCP7941X_EEPROM_SLAVE 0xff =
        s.regs RTC6_MCP7941X_EEPROM_SLAVE 0xff % 256 &&& 0xF7 := by
  obtain ⟨-, -, -, -, -, -, -, -, -, -, -, -, -, T0, T1, T2⟩ :=
    control_byte_table (s.regs RTC6_MCP7941X_EEPROM_SLAVE 0xff % 256) (Nat.mod_lt _ (by decide))
  have e0 : (rtc_eeprom_is_locked s).1 =
      (((s.regs RTC6_MCP7941X_EEPROM_SLAVE 0xff % 256 &&& (1 <<< 3)) ||| (1 <<< 2)) != 0) := by
    unfold rtc_eeprom_is_locked
    rw [if_pos hty]
    rfl
  have e1 : (rtc_eeprom_write_protect_on s).regs RTC6_MCP7941X_EEPROM_SLAVE 0xff =
      (s.regs RTC6_MCP7941X_EEPROM_SLAVE 0xff % 256 ||| ((1 <<< 3) ||| (1 <<< 2))) % 256 := by
    unfold rtc_eeprom_write_protect_on
    rw [if_pos hty]
    exact rmw_reg 0xff (fun x => x ||| ((1 <<< 3) ||| (1 <<< 2)))
      (rtc_hal_set_slave RTC6_MCP7941X_EEPROM_SLAVE s) (by decide)
  have e2 : (rtc_eeprom_write_protect_off s).regs RTC6_MCP7941X_EEPROM_SLAVE 0xff =
      (s.regs RTC6_MCP7941X_EEPROM_SLAVE 0xff % 256 &&& (0xF7 ||| (1 <<< 2))) % 256 := by
    unfold rtc_eeprom_write_protect_off
    rw [if_pos hty]
    exact rmw_reg 0xff (fun x => x &&& (0xF7 ||| (1 <<< 2)))
      (rtc_hal_set_slave RTC6_MCP7941X_EEPROM_SLAVE s) (by decide)
  rw [e0, e1, e2]
  exact ⟨T2, T0.1, T0.2, T1⟩

/-! ## Reading an alarm after setting it -/

/-- The alarm registers after the `RTC6_MCP7941X` part of `rtc_set_alarm`: apart from the
alarm weekday register, each holds the byte encoded from the time. -/
theorem mcp_set_alarm_regs (base trig bit trigger : Nat) (time : rtc_time_t) (s : State)
    (hb1 : 7 < base) (hb2 : base + 6 ≤ 256) (ht : trig = base + 3) (i : Nat) (hi : i < 6)
    (hi3 : i ≠ 3) :
    (mcp_set_alarm base trig bit trigger time s).regs s.i2c_address (base + i) =
      encode_alarm time (rtc_hal_read base (fun _ => 0) 6 s).1 i % 256 := by
  subst ht
  have h256 : base % 256 = base := Nat.mod_eq_of_lt (by omega)
  have h3 : (base + 3) % 256 = base + 3 := Nat.mod_eq_of_lt (by omega)
  simp only [mcp_set_alarm, hal_write_regs, hal_read_regs, hal_write_addr, hal_read_addr,
    h256, h3, Nat.reduceMod]
  rw [if_neg (by omega), if_neg (by omega), if_neg (by omega),
    if_pos ⟨trivial, by omega, by omega⟩, Nat.add_sub_cancel_left]

/-- On `RTC6_MCP7941X`, for either alarm, any trigger and any time within the ranges
`rtc_set_gmt_time` accepts, `rtc_read_alarm` after `rtc_set_alarm` returns the seconds,
minutes, hours, monthday and month that were set. -/
theorem mcp_read_alarm_after_set (alarm trigger : Nat) (t : rtc_time_t) (s : State)
    (hty : s.current_type = RTC6_MCP7941X) (ha : alarm = RTC_ALARM_0 ∨ alarm = RTC_ALARM_1)
    (hacc : (rtc_set_gmt_time t s).1 = 0) :
    ∃ r, (rtc_read_alarm alarm (rtc_set_alarm alarm trigger t s)).1 = some r ∧
      r.seconds = t.seconds ∧ r.minutes = t.minutes ∧ r.hours = t.hours ∧
      r.monthday = t.monthday ∧ r.month = t.month := by
  obtain ⟨h0, h1, h2, -, h4, h5, -⟩ := set_gmt_time_accepted t s hacc
  have t0 := bcd_table t.seconds (by omega)
  have t1 := bcd_table t.minutes (by omega)
  have t2 := bcd_table t.hours (by omega)
  have t4 := bcd_table t.monthday (by omega)
  have t5 := bcd_table t.month (by omega)
  have key : ∀ base trig bit, 7 < base → base + 6 ≤ 256 → trig = base + 3 →
      ∀ tt : rtc_time_t,
        (decode_alarm (rtc_hal_read base (fun _ => 0) 6
          (mcp_set_alarm base trig bit trigger t s)).1 tt).seconds = t.seconds ∧
        (decode_alarm (rtc_hal_read base (fun _ => 0) 6
          (mcp_set_alarm base trig bit trigger t s)).1 tt).minutes = t.minutes ∧
        (decode_alarm (rtc_hal_read base (fun _ => 0) 6
          (mcp_set_alarm base trig bit trigger t s)).1 tt).hours = t.hours ∧
        (decode_alarm (rtc_hal_read base (fun _ => 0) 6
          (mcp_set_alarm base trig bit trigger t s)).1 tt).monthday = t.monthday ∧
        (decode_alarm (rtc_hal_read base (fun _ => 0) 6
          (mcp_set_alarm base trig bit trigger t s)).1 tt).month = t.month := by
    intro base trig bit hb1 hb2 ht tt
    have hsl : (mcp_set_alarm base trig bit trigger t s).i2c_address = s.i2c_address := rfl
    have hbuf : ∀ i, i < 6 → i ≠ 3 →
        (rtc_hal_read base (fun _ => 0) 6 (mcp_set_alarm base trig bit trigger t s)).1 i =
          encode_alarm t (rtc_hal_read base (fun _ => 0) 6 s).1 i % 256 % 256 := by
      intro i hi hi3
      simp only [rtc_hal_read, if_pos hi, hsl, Nat.mod_eq_of_lt (show base < 256 by omega)]
      rw [mcp_set_alarm_regs base trig bit trigger t s hb1 hb2 ht i hi hi3]
      simp only [rtc_hal_read, Nat.mod_eq_of_lt (show base < 256 by omega)]
    simp only [decode_alarm, hbuf 0 (by decide) (by decide), hbuf 1 (by decide) (by decide),
      hbuf 2 (by decide) (by decide), hbuf 4 (by decide) (by decide),
      hbuf 5 (by decide) (by decide), encode_alarm, RTC_SECONDS_MASK, RTC_SECONDS_CLEAR,
      RTC_MINUTES_MASK, RTC_MINUTES_CLEAR, RTC_HOURS_MASK, RTC_HOURS_CLEAR, RTC_DATE_MASK,
      RTC_DATE_CLEAR, RTC_MONTH_MASK, RTC_MONTH_CLEAR, Nat.reduceEqDiff, if_true, if_false,
      Nat.mod_mod]
    exact ⟨rmw_decode _ _ 0x80 0x7f (by omega) (by decide) (t0.2.2.2.1 h0).1 (by decide),
      rmw_decode _ _ 0x80 0x7f (by omega) (by decide) (t1.2.2.2.1 h1).1 (by decide),
      rmw_decode _ _ 0xc0 0x3f (by omega) (by decide) (t2.2.2.2.2.1 (by omega)).1 (by decide),
      rmw_decode _ _ 0xc0 0x3f (by omega) (by decide) (t4.2.2.2.2.1 h4).1 (by decide),
      rmw_decode _ _ 0xe0 0x1f (by omega) (by decide) (t5.2.2.2.2.2.1 h5).1 (by decide)⟩
  have hne0 : ¬ s.current_type = RTC_PCF8583 := by rw [hty]; decide
  have hread0 : ∀ S : State, S.current_type = RTC6_MCP7941X →
      (rtc_read_alarm RTC_ALARM_0 S).1 =
        some (decode_alarm (rtc_hal_read 0x0A (fun _ => 0) 6 S).1 S.alarm_time) := by
    intro S hS
    unfold rtc_read_alarm
    rw [if_neg (by rw [hS]; decide), if_neg (by rw [hS]; decide),
      if_neg (by rw [hS]; decide), if_pos hS, if_pos rfl]
  have hread1 : ∀ S : State, S.current_type = RTC6_MCP7941X →
      (rtc_read_alarm RTC_ALARM_1 S).1 =
        some (decode_alarm (rtc_hal_read 0x11 (fun _ => 0) 6 S).1 S.alarm_time) := by
    intro S hS
    unfold rtc_read_alarm
    rw [if_neg (by rw [hS]; decide), if_neg (by rw [hS]; decide),
      if_neg (by rw [hS]; decide), if_pos hS, if_neg (by decide), if_pos rfl]
  rcases ha with ha | ha
  · subst ha
    have hs : rtc_set_alarm RTC_ALARM_0 trigger t s = mcp_set_alarm 0x0A 0x0D 4 trigger t s := by
      unfold rtc_set_alarm
      rw [if_neg hne0, if_pos hty, if_pos rfl]
    rw [hs, hread0 _ (show (mcp_set_alarm 0x0A 0x0D 4 trigger t s).current_type =
      RTC6_MCP7941X from hty)]
    exact ⟨_, rfl, key 0x0A 0x0D 4 (by decide) (by decide) (by decide) _⟩
  · subst ha
    have hs : rtc_set_alarm RTC_ALARM_1 trigger t s = mcp_set_alarm 0x11 0x14 5 trigger t s := by
      unfold rtc_set_alarm
      rw [if_neg hne0, if_pos hty, if_neg (by decide), if_pos rfl]
    rw [hs, hread1 _ (show (mcp_set_alarm 0x11 0x14 5 trigger t s).current_type =
      RTC6_MCP7941X from hty)]
    exact ⟨_, rfl, key 0x11 0x14 5 (by decide) (by decide) (by decide) _⟩

/-- On `RTC_PCF8583`, `rtc_set_alarm` writes registers 0x00, 0x10..0x14 and 0x08 only, so
what `rtc_read_alarm` returns from registers 0x0A..0x0E is what it returned before the alarm
was set. -/
theorem pcf_read_alarm_ignores_set (alarm trigger : Nat) (t : rtc_time_t) (s : State)
    (hty : s.current_type = RTC_PCF8583) :
    (rtc_read_alarm alarm (rtc_set_alarm alarm trigger t s)).1 = (rtc_read_alarm alarm s).1 := by
  have hs : (rtc_set_alarm alarm trigger t s).current_type = RTC_PCF8583 := by
    unfold rtc_set_alarm
    rw [if_pos hty]
    exact hty
  have hregs : ∀ a, 0x0A ≤ a → a ≤ 0x0E →
      (rtc_set_alarm alarm trigger t s).regs s.i2c_address a = s.regs s.i2c_address a := by
    intro a h1 h2
    unfold rtc_set_alarm
    rw [if_pos hty]
    simp only [hal_write_regs, hal_read_regs, hal_write_addr, hal_read_addr, Nat.reduceMod]
    rw [if_neg (by omega), if_neg (by omega), if_neg (by omega)]
  have hsl : (rtc_set_alarm alarm trigger t s).i2c_address = s.i2c_address := by
    unfold rtc_set_alarm
    rw [if_pos hty]
    rfl
  have hal : (rtc_set_alarm alarm trigger t s).alarm_time = s.alarm_time := by
    unfold rtc_set_alarm
    rw [if_pos hty]
    rfl
  have hread : ∀ S : State, S.current_type = RTC_PCF8583 →
      (rtc_read_alarm alarm S).1 =
        some { S.alarm_time with
          seconds := S.regs S.i2c_address 0x0A % 256
          minutes := S.regs S.i2c_address 0x0B % 256
          hours := S.regs S.i2c_address 0x0C % 256
          monthday := S.regs S.i2c_address 0x0D % 256
          month := S.regs S.i2c_address 0x0E % 256 } := by
    intro S hS
    unfold rtc_read_alarm
    rw [if_pos hS]
    rfl
  rw [hread _ hs, hread _ hty, hsl, hal, hregs 0x0A (by decide) (by decide),
    hregs 0x0B (by decide) (by decide), hregs 0x0C (by decide) (by decide),
    hregs 0x0D (by decide) (by decide), hregs 0x0E (by decide) (by decide)]

/-! ## Alarms, square wave output and EEPROM protection at sample inputs -/

/-- C21 (the code at the failing input): on `RTC_PCF8583` over zeroed registers,
`rtc_set_alarm( RTC_ALARM_0, RTC_ALARM_SECONDS, 12:34:56 on 29.2. )` stores the bytes 56, 34,
12, 29, 2 in registers 0x10..0x14 and leaves 0x0A..0x0E at 0, and `rtc_read_alarm`, which
reads 0x0A..0x0E, then returns seconds, minutes, hours, monthday and month 0. -/
theorem pcf_read_alarm_after_set :
    pcf8583_zero_state.current_type = RTC_PCF8583 ∧
      ((List.range 5).map fun i =>
        (rtc_set_alarm RTC_ALARM_0 RTC_ALARM_SECONDS sample_time pcf8583_zero_state).regs
          RTC_PCF8583_SLAVE (0x10 + i)) = [56, 34, 12, 29, 2] ∧
      ((List.range 5).map fun i =>
        (rtc_set_alarm RTC_ALARM_0 RTC_ALARM_SECONDS sample_time pcf8583_zero_state).regs
          RTC_PCF8583_SLAVE (0x0A + i)) = [0, 0, 0, 0, 0] ∧
      (rtc_read_alarm RTC_ALARM_0
        (rtc_set_alarm RTC_ALARM_0 RTC_ALARM_SECONDS sample_time pcf8583_zero_state)).1 =
        some zero_time := by
  decide

/-- C22 (the code at the failing input): on `RTC_PCF8583` over zeroed registers, control
register 0x00 holds 0x80 after `rtc_init`, and `rtc_disable_alarm` sets bit 2 of it (0x84);
after `rtc_set_alarm` and then `rtc_disable_alarm` bit 2 is still set. -/
theorem pcf_disable_alarm_sets_bit :
    pcf8583_zero_state.current_type = RTC_PCF8583 ∧
      pcf8583_zero_state.regs RTC_PCF8583_SLAVE 0x00 = 0x80 ∧
      (rtc_disable_alarm RTC_ALARM_0 pcf8583_zero_state).regs RTC_PCF8583_SLAVE 0x00 = 0x84 ∧
      (rtc_disable_alarm RTC_ALARM_0
        (rtc_set_alarm RTC_ALARM_0 RTC_ALARM_SECONDS sample_time pcf8583_zero_state)).regs
          RTC_PCF8583_SLAVE 0x00 &&& (1 <<< 2) = 1 <<< 2 := by
  decide

/-- C23 (the code at the failing input): on `RTC2_DS1307` over zeroed registers,
`rtc_enable_swo( RTC_32_768KHZ )` leaves 0x13 in control register 0x07, and a following
`rtc_enable_swo( RTC_8_192KHZ )` leaves 0x13 again: the rate-select bits 1..0 hold 3, not the
index 2 of the frequency asked for. -/
theorem ds1307_enable_swo_keeps_rate :
    ds1307_zero_state.current_type = RTC2_DS1307 ∧
      (rtc_enable_swo RTC_32_768KHZ ds1307_zero_state).regs RTC2_DS1307_SLAVE 0x07 = 0x13 ∧
      (rtc_enable_swo RTC_8_192KHZ
        (rtc_enable_swo RTC_32_768KHZ ds1307_zero_state)).regs RTC2_DS1307_SLAVE 0x07 = 0x13 ∧
      (rtc_enable_swo RTC_8_192KHZ
        (rtc_enable_swo RTC_32_768KHZ ds1307_zero_state)).regs RTC2_DS1307_SLAVE 0x07 &&& 0x03
          ≠ RTC_8_192KHZ := by
  decide

/-- C24 (the code at the failing input): on `RTC2_DS1307` over zeroed registers,
`rtc_enable_swo( RTC_1HZ )` leaves 0x10 in control register 0x07 and `rtc_disable_swo` after
it leaves 0x10 as well: bit 4, the square-wave enable bit, is still set. -/
theorem ds1307_disable_swo_keeps_enable :
    ds1307_zero_state.current_type = RTC2_DS1307 ∧
      (rtc_enable_swo RTC_1HZ ds1307_zero_state).regs RTC2_DS1307_SLAVE 0x07 = 0x10 ∧
      (rtc_disable_swo (rtc_enable_swo RTC_1HZ ds1307_zero_state)).regs
        RTC2_DS1307_SLAVE 0x07 = 0x10 ∧
      (rtc_disable_swo (rtc_enable_swo RTC_1HZ ds1307_zero_state)).regs
        RTC2_DS1307_SLAVE 0x07 &&& (1 <<< 4) = 1 <<< 4 := by
  decide

/-- C25 (the code at the failing input): on `RTC6_MCP7941X` over zeroed registers,
`rtc_eeprom_write_protect_on` leaves 0x0C in EEPROM status register 0xFF and
`rtc_eeprom_write_protect_off` after it leaves 0x04, bit 2 still set; `rtc_eeprom_is_locked`
returns true after the two calls, and also in the initial state, where the status register
holds 0. -/
theorem eeprom_protect_off_still_locked :
    mcp7941x_zero_state.current_type = RTC6_MCP7941X ∧
      (rtc_eeprom_write_protect_on mcp7941x_zero_state).regs
        RTC6_MCP7941X_EEPROM_SLAVE 0xff = 0x0C ∧
      (rtc_eeprom_write_protect_off (rtc_eeprom_write_protect_on mcp7941x_zero_state)).regs
        RTC6_MCP7941X_EEPROM_SLAVE 0xff = 0x04 ∧
      (rtc_eeprom_is_locked
        (rtc_eeprom_write_protect_off (rtc_eeprom_write_protect_on mcp7941x_zero_state))).1
          = true ∧
      mcp7941x_zero_state.regs RTC6_MCP7941X_EEPROM_SLAVE 0xff = 0 ∧
      (rtc_eeprom_is_locked mcp7941x_zero_state).1 = true := by
  decide

/-! ## The converter: year 2000 on `RTC_PCF8583`, ranges, epochs before 1970 -/

/-- The day count of a valid date stays below the end of its year. -/
theorem ref_days_year_le (t : rtc_time_t) (h : valid_date t) :
    ref_days t.year t.month t.monthday ≤ 365 * (t.year + 30) + (t.year + 31) / 4 + 365 := by
  obtain ⟨hy, hm1, hm2, hd1, hd2⟩ := h
  obtain ⟨sec, mi, hr, w, d, m, y⟩ := t
  simp only at hy hm1 hm2 hd1 hd2 ⊢
  have hl : is_leap (2000 + y) = true ↔ y % 4 = 0 := by
    have := is_leap_iff (y + 30) (by omega)
    rw [show 1970 + (y + 30) = 2000 + y by omega] at this
    rw [this]; omega
  have hdim : m = 2 → d ≤ 28 + (if y % 4 = 0 then 1 else 0) := by
    intro hm
    subst hm
    simp only [days_in_month, if_true] at hd2
    by_cases hc : is_leap (2000 + y) = true
    · rw [if_pos hc] at hd2; rw [if_pos (hl.mp hc)]; omega
    · rw [if_neg hc] at hd2; omega
  rw [ref_days, days_to_year_eq _ (by omega), days_before_month_eq _ _ hy (by omega)]
  interval_cases m <;> simp [days_in_month] at hd2 hdim ⊢ <;> (try split at hdim) <;>
    (try split) <;> omega

/-- The time `rtc_get_gmt_time` decodes on `RTC_PCF8583`, in terms of registers 0x02..0x06
of the selected slave. -/
theorem get_gmt_time_pcf (s : State) (hty : s.current_type = RTC_PCF8583) :
    (rtc_get_gmt_time s).1 =
      { seconds := BCD2BIN (s.regs s.i2c_address 2 % 256) % 256
        minutes := BCD2BIN (s.regs s.i2c_address 3 % 256) % 256
        hours := BCD2BIN (RTC_HOURS_MASK (s.regs s.i2c_address 4 % 256)) % 256
        weekday := ((s.regs s.i2c_address 6 % 256) >>> 5 + 1) % 256
        monthday := BCD2BIN (RTC_DATE_MASK (s.regs s.i2c_address 5 % 256)) % 256
        month := BCD2BIN (RTC_MONTH_MASK (s.regs s.i2c_address 6 % 256)) % 256
        year := 0 } := by
  unfold rtc_get_gmt_time
  rw [if_pos hty]
  rfl

/-- The month read back from the `RTC_PCF8583` weekday/month register. -/
theorem pcf_month_decode (w m : Nat) (hw : w < 8) (hm : m < 13) :
    BCD2BIN (((BIN2BCD m ||| toU8 (((w : Int) - 1) * 32)) % 256 % 256) &&& 0x1f) % 256 = m := by
  interval_cases w <;> interval_cases m <;> rfl

/-- Every month has at most as many days as it has in the leap year 2000. -/
theorem days_in_month_le_2000 (Y m : Nat) : days_in_month Y m ≤ days_in_month (2000 + 0) m := by
  have h : is_leap (2000 + 0) = true := by decide
  unfold days_in_month
  simp only [h, if_true]
  split_ifs <;> omega

/-- A valid time of day on a valid date of year 0 converts to an epoch of the year 2000. -/
theorem epoch_in_2000 (g : rtc_time_t) (hy : g.year = 0) (hd : valid_date g)
    (hc : valid_clock g) :
    946684800 ≤ (time_date_to_epoch g).1 ∧ (time_date_to_epoch g).1 ≤ 978307199 := by
  have hb := ref_days_bounds g hd
  have hyl := ref_days_year_le g hd
  obtain ⟨hy1, hm1, hm2, hd1, hd2⟩ := hd
  obtain ⟨hh, hmi, hs⟩ := hc
  have hjd := date_julian_day_ref g hy1 hm1 hm2 hd1
  rw [hy] at hb hyl hjd
  rw [time_date_to_epoch_fst, hjd]
  omega

/-- C26 (as the code has it): on `RTC_PCF8583`, `rtc_get_gmt_time` returns year 0 whatever
the registers hold; whenever the time it decodes is a valid calendar date and time of day,
`time_date_to_epoch` of it lies in the year 2000, from 2000-01-01T00:00:00 (946684800) to
2000-12-31T23:59:59 (978307199); and that is so after `rtc_set_gmt_time` of any valid
calendar time, of whatever year 0..99: the time read back has the seconds, minutes, hours,
monthday and month that were set and year 0. -/
theorem pcf_year_always_2000 (s : State) (hty : s.current_type = RTC_PCF8583) :
    (rtc_get_gmt_time s).1.year = 0 ∧
      (valid_date (rtc_get_gmt_time s).1 → valid_clock (rtc_get_gmt_time s).1 →
        946684800 ≤ (time_date_to_epoch (rtc_get_gmt_time s).1).1 ∧
          (time_date_to_epoch (rtc_get_gmt_time s).1).1 ≤ 978307199) ∧
      ∀ t : rtc_time_t, valid_date t → valid_clock t → t.weekday ≤ 7 →
        (rtc_get_gmt_time (rtc_set_gmt_time t s).2).1.seconds = t.seconds ∧
        (rtc_get_gmt_time (rtc_set_gmt_time t s).2).1.minutes = t.minutes ∧
        (rtc_get_gmt_time (rtc_set_gmt_time t s).2).1.hours = t.hours ∧
        (rtc_get_gmt_time (rtc_set_gmt_time t s).2).1.monthday = t.monthday ∧
        (rtc_get_gmt_time (rtc_set_gmt_time t s).2).1.month = t.month ∧
        (rtc_get_gmt_time (rtc_set_gmt_time t s).2).1.year = 0 ∧
        946684800 ≤ (time_date_to_epoch (rtc_get_gmt_time (rtc_set_gmt_time t s).2).1).1 ∧
        (time_date_to_epoch (rtc_get_gmt_time (rtc_set_gmt_time t s).2).1).1 ≤ 978307199 := by
  refine ⟨by rw [get_gmt_time_pcf s hty],
    fun hd hc => epoch_in_2000 _ (by rw [get_gmt_time_pcf s hty]) hd hc, ?_⟩
  intro t hd hc hw
  obtain ⟨hy, hm1, hm2, hd1, hd2⟩ := hd
  obtain ⟨hh, hmi, hs⟩ := hc
  have hdm : days_in_month (2000 + t.year) t.month ≤ 31 := by
    unfold days_in_month
    split_ifs <;> omega
  have hacc : (rtc_set_gmt_time t s).1 = 0 := by
    rw [set_gmt_time_fst, if_neg (by omega)]
  have hregs := set_gmt_time_regs_pcf t s hacc hty
  have hty2 : (rtc_set_gmt_time t s).2.current_type = s.current_type := by
    unfold rtc_set_gmt_time
    split_ifs <;> rfl
  have hsl : (rtc_set_gmt_time t s).2.i2c_address = s.i2c_address := by
    unfold rtc_set_gmt_time
    split_ifs <;> rfl
  have t0 := bcd_table t.seconds (by omega)
  have t1 := bcd_table t.minutes (by omega)
  have t2 := bcd_table t.hours (by omega)
  have t4 := bcd_table t.monthday (by omega)
  have e0 : BCD2BIN (BIN2BCD t.seconds % 256) % 256 = t.seconds := by
    rw [Nat.mod_eq_of_lt t0.2.2.1.1, t0.1]; exact Nat.mod_eq_of_lt (by omega)
  have e1 : BCD2BIN (BIN2BCD t.minutes % 256) % 256 = t.minutes := by
    rw [Nat.mod_eq_of_lt t1.2.2.1.1, t1.1]; exact Nat.mod_eq_of_lt (by omega)
  have e2 : BCD2BIN ((BIN2BCD t.hours % 256) &&& 0x3f) % 256 = t.hours := by
    rw [Nat.mod_eq_of_lt t2.2.2.1.1, (t2.2.2.2.2.1 (by omega)).1, t2.1]
    exact Nat.mod_eq_of_lt (by omega)
  have e4 : BCD2BIN ((BIN2BCD t.monthday % 256) &&& 0x3f) % 256 = t.monthday := by
    rw [Nat.mod_eq_of_lt t4.2.2.1.1, (t4.2.2.2.2.1 (by omega)).1, t4.1]
    exact Nat.mod_eq_of_lt (by omega)
  have e5 := pcf_month_decode t.weekday t.month (by omega) (by omega)
  have hg := get_gmt_time_pcf (rtc_set_gmt_time t s).2 (by rw [hty2]; exact hty)
  simp only [hregs, hsl, if_true, Nat.reduceEqDiff, if_false, RTC_HOURS_MASK, RTC_DATE_MASK,
    RTC_MONTH_MASK, e0, e1, e2, e4, e5] at hg
  have hv : valid_date (rtc_get_gmt_time (rtc_set_gmt_time t s).2).1 := by
    rw [hg]
    exact ⟨by simp, hm1, hm2, hd1, le_trans hd2 (days_in_month_le_2000 _ _)⟩
  have hk : valid_clock (rtc_get_gmt_time (rtc_set_gmt_time t s).2).1 := by
    rw [hg]
    exact ⟨hh, hmi, hs⟩
  have hb := epoch_in_2000 _ (by rw [hg]) hv hk
  refine ⟨?_, ?_, ?_, ?_, ?_, ?_, hb⟩ <;> rw [hg]

theorem pcf_year_always_2000_witness :
    pcf8583_state.current_type = RTC_PCF8583 ∧
      valid_date year70_time ∧ valid_clock year70_time ∧ year70_time.weekday ≤ 7 ∧
      (rtc_get_gmt_time pcf8583_state).1.year = 0 ∧
      946684800 ≤
        (time_date_to_epoch (rtc_get_gmt_time (rtc_set_gmt_time year70_time
          pcf8583_state).2).1).1 ∧
      (time_date_to_epoch (rtc_get_gmt_time (rtc_set_gmt_time year70_time
          pcf8583_state).2).1).1 ≤ 978307199 ∧
      (rtc_set_gmt_time year70_time pcf8583_state).2.current_type = RTC_PCF8583 ∧
      valid_date (rtc_get_gmt_time (rtc_set_gmt_time year70_time pcf8583_state).2).1 ∧
      valid_clock (rtc_get_gmt_time (rtc_set_gmt_time year70_time pcf8583_state).2).1 :=
  ⟨by decide, by decide, by decide, by decide,
    (pcf_year_always_2000 pcf8583_state (by decide)).1,
    ((pcf_year_always_2000 (rtc_set_gmt_time year70_time pcf8583_state).2 (by decide)).2.1
      (by decide) (by decide)).1,
    ((pcf_year_always_2000 pcf8583_state (by decide)).2.2 year70_time (by decide) (by decide)
      (by decide)).2.2.2.2.2.2.2,
    by decide, by decide, by decide⟩

/-- C26 (counterexample): on RTC_PCF8583 over registers that are all zero, `rtc_get_gmt_time`
returns year 0 with month 0 and monthday 0, and `time_date_to_epoch` of it is 943920000, in
November 1999; over registers that all hold 0xFF it returns year 0 with month 25, and the
epoch is 1013816865, in February 2002. -/
theorem pcf_epoch_outside_2000 :
    pcf8583_zero_state.current_type = RTC_PCF8583 ∧
      (rtc_get_gmt_time pcf8583_zero_state).1.year = 0 ∧
      (rtc_get_gmt_time pcf8583_zero_state).1.month = 0 ∧
      (rtc_get_gmt_time pcf8583_zero_state).1.monthday = 0 ∧
      (time_date_to_epoch (rtc_get_gmt_time pcf8583_zero_state).1).1 = 943920000 ∧
      (time_date_to_epoch (rtc_get_gmt_time pcf8583_zero_state).1).1 < 946684800 ∧
      pcf8583_state.current_type = RTC_PCF8583 ∧
      (rtc_get_gmt_time pcf8583_state).1.year = 0 ∧
      (rtc_get_gmt_time pcf8583_state).1.month = 25 ∧
      (time_date_to_epoch (rtc_get_gmt_time pcf8583_state).1).1 = 1013816865 ∧
      978307199 < (time_date_to_epoch (rtc_get_gmt_time pcf8583_state).1).1 := by
  decide

/-- C27 (counterexample): 2038-01-19T03:14:08 is a valid calendar time of the supported
range, and `time_date_to_epoch` gives 2147483648 for it, one more than the largest signed
32-bit value. -/
theorem date_to_epoch_exceeds_int32 :
    valid_date after_int32_time ∧ valid_clock after_int32_time ∧
      (time_date_to_epoch after_int32_time).1 = 2147483648 ∧
      ¬ (time_date_to_epoch after_int32_time).1 ≤ 2 ^ 31 - 1 := by
  decide

/-- C27 (as the code has it): for every valid calendar time of the years 2000..2099 the
intermediate values `365 * ji` and the Julian day lie within the signed 32-bit range, while
`(julian_day - 2440588) * 86400` and the returned epoch lie within the unsigned 32-bit range
[0, 2^32 - 1]; the epoch stays within the signed 32-bit range for the years up to 2037. -/
theorem date_to_epoch_ranges (t : rtc_time_t) (hd : valid_date t) (hc : valid_clock t) :
    0 ≤ 365 * date_ji t ∧ 365 * date_ji t ≤ 2 ^ 31 - 1 ∧
      0 ≤ date_julian_day t ∧ date_julian_day t ≤ 2 ^ 31 - 1 ∧
      0 ≤ (date_julian_day t - JULIAN_DAY_1970) * TIME_SEC_IN_24_HOURS ∧
      (date_julian_day t - JULIAN_DAY_1970) * TIME_SEC_IN_24_HOURS ≤ 2 ^ 32 - 1 ∧
      0 ≤ (time_date_to_epoch t).1 ∧ (time_date_to_epoch t).1 ≤ 2 ^ 32 - 1 ∧
      (t.year ≤ 37 → (time_date_to_epoch t).1 ≤ 2 ^ 31 - 1) := by
  have hb := ref_days_bounds t hd
  have hyl := ref_days_year_le t hd
  have he := time_date_to_epoch_fst t
  obtain ⟨hy, hm1, hm2, hd1, hd2⟩ := hd
  obtain ⟨hh, hmi, hs⟩ := hc
  have hjd := date_julian_day_ref t hy hm1 hm2 hd1
  have hji : date_ji t = ((t.year : Int) + 6800) * 12 + ((t.month : Int) - 3) := by
    simp only [date_ji]; ring
  rw [he, hjd, hji]
  simp only [JULIAN_DAY_1970, TIME_SEC_IN_24_HOURS, TIME_SEC_IN_HOUR, TIME_SEC_IN_MIN]
  norm_num only
  refine ⟨by omega, by omega, by omega, by omega, by omega, by omega, by omega, by omega, ?_⟩
  intro h37
  omega

theorem date_to_epoch_ranges_witness :
    valid_date sample_time ∧ valid_clock sample_time ∧
      (0 ≤ 365 * date_ji sample_time ∧ 365 * date_ji sample_time ≤ 2 ^ 31 - 1 ∧
      0 ≤ date_julian_day sample_time ∧ date_julian_day sample_time ≤ 2 ^ 31 - 1 ∧
      0 ≤ (date_julian_day sample_time - JULIAN_DAY_1970) * TIME_SEC_IN_24_HOURS ∧
      (date_julian_day sample_time - JULIAN_DAY_1970) * TIME_SEC_IN_24_HOURS ≤ 2 ^ 32 - 1 ∧
      0 ≤ (time_date_to_epoch sample_time).1 ∧ (time_date_to_epoch sample_time).1 ≤ 2 ^ 32 - 1 ∧
      (sample_time.year ≤ 37 → (time_date_to_epoch sample_time).1 ≤ 2 ^ 31 - 1)) :=
  ⟨by decide, by decide, date_to_epoch_ranges sample_time (by decide) (by decide)⟩

/-! ## Epochs before 1970 -/

/-- The Julian day `time_epoch_to_date` derives for a negative epoch: the floor of the day
count, one less when the epoch is a whole number of days. -/
theorem epoch_julian_day_neg (e : Int) (h : e < 0) :
    epoch_julian_day e = e / 86400 + 2440588 - (if e % 86400 = 0 then 1 else 0) := by
  have ht : Int.tdiv e 86400 = -((-e) / 86400) := by
    rw [← Int.tdiv_eq_ediv (by omega) (by omega), Int.neg_tdiv, neg_neg]
  simp only [epoch_julian_day, TIME_SEC_IN_24_HOURS, TIME_SEC_IN_HOUR, TIME_SEC_IN_MIN,
    JULIAN_DAY_1970]
  norm_num only
  rw [if_pos h, ht]
  split_ifs <;> omega

/-- The time of day `time_epoch_to_date` produces for a negative epoch is the epoch modulo
86400 taken in [0, 86399]. -/
theorem time_of_day_neg (e : Int) (h : e < 0) :
    ((time_epoch_to_date e).hours : Int) * 3600 + ((time_epoch_to_date e).minutes : Int) * 60 +
      ((time_epoch_to_date e).seconds : Int) = e % 86400 := by
  have hn : epoch_normalise e = 86400 - (-e) % 86400 := by
    simp only [epoch_normalise, TIME_SEC_IN_24_HOURS, TIME_SEC_IN_HOUR, TIME_SEC_IN_MIN]
    norm_num only
    rw [if_pos h, Int.tmod_eq_emod (by omega) (by omega)]
    omega
  have hL : Int.tmod (86400 - (-e) % 86400) 86400 = e % 86400 := by
    rw [Int.tmod_eq_emod (by omega) (by omega)]; omega
  have hH : Int.tdiv (e % 86400) 3600 = e % 86400 / 3600 :=
    Int.tdiv_eq_ediv (by omega) (by omega)
  have hHu : ((toU8 (e % 86400 / 3600) : Nat) : Int) = e % 86400 / 3600 := by
    unfold toU8; omega
  have hM : Int.tdiv (e % 86400 - e % 86400 / 3600 * 3600) 60 = e % 3600 / 60 := by
    rw [Int.tdiv_eq_ediv (by omega) (by omega)]; omega
  have hMu : ((toU8 (e % 3600 / 60) : Nat) : Int) = e % 3600 / 60 := by
    unfold toU8; omega
  have hS : Int.tmod (e % 86400) 60 = e % 60 := by
    rw [Int.tmod_eq_emod (by omega) (by omega)]; omega
  have hSu : ((toU8 (e % 60) : Nat) : Int) = e % 60 := by
    unfold toU8; omega
  simp only [time_epoch_to_date, hn, TIME_SEC_IN_24_HOURS, TIME_SEC_IN_HOUR,
    TIME_SEC_IN_MIN]
  norm_num only
  rw [hL, hH, hHu, hM, hMu, hS, hSu]
  omega

/-- C28 (the code at the failing input): for the epoch -86400, the start of 31 December
1969, `time_epoch_to_date` derives the Julian day 2440586 where the floor of the day count
gives 2440587, and produces Tuesday 30 December at 00:00:00; one second later it produces
Wednesday 31 December. -/
theorem epoch_to_date_day_before_1970 :
    epoch_julian_day day_before_1970 = 2440586 ∧
      day_before_1970 / 86400 + 2440588 = 2440587 ∧
      (time_epoch_to_date day_before_1970).monthday = 30 ∧
      (time_epoch_to_date day_before_1970).month = 12 ∧
      (time_epoch_to_date day_before_1970).weekday = 2 ∧
      (time_epoch_to_date day_before_1970).hours = 0 ∧
      (time_epoch_to_date day_before_1970).minutes = 0 ∧
      (time_epoch_to_date day_before_1970).seconds = 0 ∧
      (time_epoch_to_date (day_before_1970 + 1)).monthday = 31 ∧
      (time_epoch_to_date (day_before_1970 + 1)).weekday = 3 := by
  decide

/-- The Julian day `time_date_to_epoch` computes is never negative. -/
theorem date_julian_day_nonneg (ts : rtc_time_t) : 0 ≤ date_julian_day ts := by
  rw [date_julian_day_eq]
  omega

/-- C30: `time_date_to_epoch` leaves the time it was given unchanged except for the weekday,
which it sets to the Julian Day Number it computed taken modulo 7 (seconds, minutes, hours,
monthday, month and year keep their values), and the epoch it returns is the same whatever
weekday the time held on entry. -/
theorem date_to_epoch_frame (ts : rtc_time_t) :
    (time_date_to_epoch ts).2 = { ts with weekday := (date_julian_day ts % 7).toNat } ∧
      ∀ w : Nat, (time_date_to_epoch { ts with weekday := w }).1 = (time_date_to_epoch ts).1 := by
  have h0 := date_julian_day_nonneg ts
  refine ⟨?_, fun w => rfl⟩
  have hw : toU8 (Int.tmod (date_julian_day ts) 7) = (date_julian_day ts % 7).toNat := by
    rw [Int.tmod_eq_emod h0 (by omega)]
    unfold toU8
    congr 1
    omega
  simp only [time_date_to_epoch, hw]

/-! ## The converters: formula, inverse, weekday numbering, unsigned range -/

/-- C31: for every calendar time with month 1..12 (and every year and monthday, in particular
year 0..99 and monthday 1..31) the Julian day `time_date_to_epoch` computes by its sequence of
integer divisions equals the Julian Day Number of the standard formula
`monthday + (153 m + 2) / 5 + 365 y + y / 4 - y / 100 + y / 400 - 32045` with
`a = (14 - month) / 12`, `y = 2000 + year + 4800 - a`, `m = month + 12 a - 3`. -/
theorem julian_day_matches_formula (ts : rtc_time_t) (hm1 : 1 ≤ ts.month)
    (hm2 : ts.month ≤ 12) :
    date_julian_day ts = spec_jdn ts.year ts.month ts.monthday :=
  date_julian_day_spec ts hm1 hm2

theorem julian_day_matches_formula_witness :
    1 ≤ sample_time.month ∧ sample_time.month ≤ 12 ∧
      date_julian_day sample_time =
        spec_jdn sample_time.year sample_time.month sample_time.monthday :=
  ⟨by decide, by decide, julian_day_matches_formula sample_time (by decide) (by decide)⟩

/-- The day count of a valid date is at least that of 1 January of its year. -/
theorem ref_days_year_ge (t : rtc_time_t) (h : valid_date t) :
    365 * (t.year + 30) + (t.year + 31) / 4 ≤ ref_days t.year t.month t.monthday := by
  obtain ⟨hy, hm1, hm2, hd1, hd2⟩ := h
  rw [ref_days, days_to_year_eq _ (by omega)]
  omega

/-- C40: for every valid calendar time of the years 2000..2099 the epoch
`time_date_to_epoch` computes lies in [946684800, 4102444799], so below 2^32, and the
conversion to `uint32_t` does not change it: `rtc_get_gmt_unix_time` returns it whenever
`rtc_get_gmt_time` decodes that time.  The epoch of 2038-01-19T03:14:07 is 2^31 - 1; the
epoch is above 2^31 - 1 for every time of the years 2039..2099. -/
theorem epoch_fits_uint32 (t : rtc_time_t) (hd : valid_date t) (hc : valid_clock t) :
    946684800 ≤ (time_date_to_epoch t).1 ∧ (time_date_to_epoch t).1 ≤ 4102444799 ∧
      (time_date_to_epoch t).1 < 2 ^ 32 ∧
      toU32 (time_date_to_epoch t).1 = (time_date_to_epoch t).1 ∧
      (∀ s : State, (rtc_get_gmt_time s).1 = t →
        (rtc_get_gmt_unix_time s).1 = (time_date_to_epoch t).1) ∧
      (time_date_to_epoch last_int32_time).1 = 2 ^ 31 - 1 ∧
      (39 ≤ t.year → 2 ^ 31 - 1 < (time_date_to_epoch t).1) := by
  obtain ⟨hb1, hb2⟩ := epoch_bounds t hd hc
  have hge := ref_days_year_ge t hd
  have hu := toU32_of_range (time_date_to_epoch t).1 (by omega) (by omega)
  refine ⟨hb1, hb2, by omega, hu, ?_, by decide, ?_⟩
  · intro s hs
    have hg : (rtc_get_gmt_unix_time s).1 = toU32 (time_date_to_epoch (rtc_get_gmt_time s).1).1 :=
      (get_gmt_unix_time_frame s).2.2
    rw [hg, hs, hu]
  · intro h39
    obtain ⟨hy, hm1, hm2, hd1, hd2⟩ := hd
    obtain ⟨hh, hmi, hs⟩ := hc
    have hjd := date_julian_day_ref t hy hm1 hm2 hd1
    rw [time_date_to_epoch_fst, hjd]
    omega

theorem epoch_fits_uint32_witness :
    valid_date after_int32_time ∧ valid_clock after_int32_time ∧
      (time_date_to_epoch after_int32_time).1 = 2 ^ 31 ∧
      toU32 (time_date_to_epoch after_int32_time).1 = (time_date_to_epoch after_int32_time).1 :=
  ⟨by decide, by decide, by decide,
    (epoch_fits_uint32 after_int32_time (by decide) (by decide)).2.2.2.1⟩

/-! ## Initialisation -/

/-- The test `( !status ) & 0x80` of `rtc_init` is 0 for every status byte. -/
theorem c_not_and_mask (x : Nat) : c_not x &&& 0x80 = 0 := by
  unfold c_not
  split_ifs <;> rfl

/-- When `rtc_init` returns 0 its arguments passed the range check. -/
theorem init_accepted (type : Nat) (time_zone : Int) (s : State)
    (h : (rtc_init type time_zone s).1 = 0) :
    type ≤ 3 ∧ -12 ≤ time_zone ∧ time_zone ≤ 14 := by
  by_cases hc : type > RTC6_MCP7941X ∨ time_zone > 14 ∨ time_zone < -12
  · have e : rtc_init type time_zone s = (-1, s) := by
      unfold rtc_init; rw [if_pos hc]
    rw [e] at h
    simp at h
  · simp only [RTC6_MCP7941X] at hc
    omega

/-- A successful `rtc_init` in one piece: the type and time zone are stored, the slave of
the chip is selected, register 0x00 is read and written back with the oscillator-start
bit set; the second write is not made. -/
theorem init_success (type : Nat) (time_zone : Int) (s : State)
    (h : (rtc_init type time_zone s).1 = 0) :
    (rtc_init type time_zone s).2 =
      rtc_hal_write RTC_SECONDS_ADDR
        (fun _ => (s.regs (chip_slave type) 0 % 256 ||| RTC_START_OSC_MASK) % 256) 1
        (rtc_hal_read RTC_SECONDS_ADDR (fun _ => 0) 1
          (rtc_hal_init (chip_slave type)
            { s with current_type := type, current_time_zone := time_zone })).2 := by
  obtain ⟨h1, h2, h3⟩ := init_accepted type time_zone s h
  have hc : ¬ (type > RTC6_MCP7941X ∨ time_zone > 14 ∨ time_zone < -12) := by
    simp only [RTC6_MCP7941X]; omega
  unfold rtc_init
  rw [if_neg hc]
  interval_cases type <;>
    simp [RTC_PCF8583, RTC2_DS1307, RTC3_BQ32000, RTC6_MCP7941X, chip_slave, c_not_and_mask,
      rtc_hal_init, rtc_hal_read, RTC_SECONDS_ADDR, RTC_PCF8583_SLAVE, RTC2_DS1307_SLAVE,
      RTC3_BQ32000_SLAVE, RTC6_MCP7941X_SLAVE]

/-- The byte `rtc_init` writes back: bit 7 set, bits 6..0 as read. -/
theorem osc_byte_table : ∀ r < 256,
    (r ||| 0x80) &&& 0x80 = 0x80 ∧ (r ||| 0x80) &&& 0x7f = r &&& 0x7f := by
  decide!

/-- C33: for each of the four chip types and every prior register content, a successful
`rtc_init` makes exactly two transport calls, one read and one write of register 0x00 of the
slave of the chip; afterwards that register has bit 7 set and bits 6..0 as they were, and
every other register of every slave holds the value it had. -/
theorem init_register_effect (type : Nat) (time_zone : Int) (s : State)
    (h : (rtc_init type time_zone s).1 = 0) :
    (rtc_init type time_zone s).2.calls = s.calls ++
        [HalCall.read (chip_slave type) 0 1,
          HalCall.write (chip_slave type) 0 [s.regs (chip_slave type) 0 % 256 ||| 0x80]] ∧
      (rtc_init type time_zone s).2.regs (chip_slave type) 0 &&& 0x80 = 0x80 ∧
      (rtc_init type time_zone s).2.regs (chip_slave type) 0 &&& 0x7f =
        s.regs (chip_slave type) 0 &&& 0x7f ∧
      ∀ slave a, ¬ (slave = chip_slave type ∧ a = 0) →
        (rtc_init type time_zone s).2.regs slave a = s.regs slave a := by
  obtain ⟨h1, -, -⟩ := init_accepted type time_zone s h
  have hsl : chip_slave type % 256 = chip_slave type := by
    interval_cases type <;> rfl
  have hb : s.regs (chip_slave type) 0 % 256 ||| 0x80 < 256 :=
    Nat.or_lt_two_pow (n := 8) (Nat.mod_lt _ (by decide)) (by decide)
  rw [init_success type time_zone s h]
  simp only [hal_write_calls, hal_write_regs, hal_read_calls, hal_read_regs, hal_read_addr,
    rtc_hal_init, hsl, RTC_SECONDS_ADDR, RTC_START_OSC_MASK, Nat.reduceMod, Nat.mod_mod,
    Nat.reduceShiftLeft, Nat.mod_eq_of_lt hb]
  obtain ⟨T1, T2⟩ := osc_byte_table (s.regs (chip_slave type) 0 % 256) (Nat.mod_lt _ (by decide))
  have hm : s.regs (chip_slave type) 0 % 256 &&& 0x7f = s.regs (chip_slave type) 0 &&& 0x7f := by
    rw [show s.regs (chip_slave type) 0 % 256 = s.regs (chip_slave type) 0 &&& (2 ^ 8 - 1) from
      (Nat.and_pow_two_sub_one_eq_mod _ 8).symm, Nat.and_assoc]
    rfl
  refine ⟨?_, ?_, ?_, ?_⟩
  · simp [data_chunk, List.range_succ, Nat.mod_eq_of_lt hb]
  · rw [if_pos ⟨trivial, by omega, by omega⟩]
    exact T1
  · rw [if_pos ⟨trivial, by omega, by omega⟩, ← hm]
    exact T2
  · intro slave a hne
    rw [if_neg]
    intro hh
    exact hne ⟨hh.1, by omega⟩

/-! ## What the library calls leave alone -/

/-- A rejected `rtc_init` leaves the state as it was. -/
theorem init_rejected (type : Nat) (time_zone : Int) (s : State)
    (h : (rtc_init type time_zone s).1 ≠ 0) : (rtc_init type time_zone s).2 = s := by
  by_cases hc : type > RTC6_MCP7941X ∨ time_zone > 14 ∨ time_zone < -12
  · unfold rtc_init; rw [if_pos hc]
  · exfalso
    apply h
    have h3 : type ≤ 3 := by simp only [RTC6_MCP7941X] at hc; omega
    unfold rtc_init
    rw [if_neg hc]
    interval_cases type <;>
      simp [RTC_PCF8583, RTC2_DS1307, RTC3_BQ32000, RTC6_MCP7941X, c_not_and_mask]

theorem session_kept_refl (s : State) : session_kept s s := ⟨rfl, rfl⟩

theorem session_kept_trans (s1 s2 s3 : State) (h1 : session_kept s1 s2)
    (h2 : session_kept s2 s3) : session_kept s1 s3 :=
  ⟨h2.1.trans h1.1, h2.2.trans h1.2⟩

theorem init_kept (type : Nat) (time_zone : Int) (s : State) :
    session_kept s (rtc_init type time_zone s).2 := by
  by_cases h : (rtc_init type time_zone s).1 = 0
  · rw [init_success type time_zone s h]
    exact ⟨rfl, rfl⟩
  · rw [init_rejected type time_zone s h]
    exact session_kept_refl s

theorem enable_swo_kept (swo : Nat) (s : State) : session_kept s (rtc_enable_swo swo s) := by
  unfold rtc_enable_swo
  split_ifs <;> exact ⟨rfl, rfl⟩

theorem disable_swo_kept (s : State) : session_kept s (rtc_disable_swo s) := by
  unfold rtc_disable_swo
  split_ifs <;> exact ⟨rfl, rfl⟩

theorem battery_enable_kept (s : State) : session_kept s (rtc_battery_enable s) := by
  unfold rtc_battery_enable
  split_ifs <;> exact ⟨rfl, rfl⟩

theorem get_gmt_time_kept (s : State) : session_kept s (rtc_get_gmt_time s).2 := by
  unfold rtc_get_gmt_time
  split_ifs <;> exact ⟨rfl, rfl⟩

theorem get_gmt_unix_time_kept (s : State) : session_kept s (rtc_get_gmt_unix_time s).2 :=
  session_kept_trans s (rtc_get_gmt_time s).2 _ (get_gmt_time_kept s) ⟨rfl, rfl⟩

theorem get_local_time_kept (s : State) : session_kept s (rtc_get_local_time s).2 :=
  session_kept_trans s (rtc_get_gmt_unix_time s).2 _ (get_gmt_unix_time_kept s) ⟨rfl, rfl⟩

theorem get_local_unix_time_kept (s : State) :
    session_kept s (rtc_get_local_unix_time s).2 :=
  session_kept_trans s (rtc_get_local_time s).2 _ (get_local_time_kept s) ⟨rfl, rfl⟩

theorem set_gmt_time_kept (time : rtc_time_t) (s : State) :
    session_kept s (rtc_set_gmt_time time s).2 := by
  unfold rtc_set_gmt_time
  split_ifs <;> exact ⟨rfl, rfl⟩

theorem is_leap_year_kept (s : State) : session_kept s (rtc_is_leap_year s).2 := by
  unfold rtc_is_leap_year
  dsimp only
  split_ifs <;> exact ⟨rfl, rfl⟩

theorem is_power_failure_kept (s : State) : session_kept s (rtc_is_power_failure s).2 := by
  unfold rtc_is_power_failure
  dsimp only
  split_ifs <;> exact ⟨rfl, rfl⟩

theorem get_last_power_failure_kept (s : State) :
    session_kept s (rtc_get_last_power_failure s).2 := by
  unfold rtc_get_last_power_failure
  split_ifs <;> exact ⟨rfl, rfl⟩

theorem set_alarm_kept (alarm trigger : Nat) (time : rtc_time_t) (s : State) :
    session_kept s (rtc_set_alarm alarm trigger time s) := by
  unfold rtc_set_alarm
  split_ifs <;> exact ⟨rfl, rfl⟩

theorem disable_alarm_kept (alarm : Nat) (s : State) :
    session_kept s (rtc_disable_alarm alarm s) := by
  unfold rtc_disable_alarm
  split_ifs <;> exact ⟨rfl, rfl⟩

theorem read_alarm_kept (alarm : Nat) (s : State) :
    session_kept s (rtc_read_alarm alarm s).2 := by
  unfold rtc_read_alarm
  split_ifs <;> exact ⟨rfl, rfl⟩

theorem write_sram_kept (addr data_in : Nat) (s : State) :
    session_kept s (rtc_write_sram addr data_in s) := by
  unfold rtc_write_sram
  split_ifs <;> exact ⟨rfl, rfl⟩

theorem write_sram_bulk_kept (addr : Nat) (data_in : Nat → Nat) (data_size : Nat) (s : State) :
    session_kept s (rtc_write_sram_bulk addr data_in data_size s) := by
  unfold rtc_write_sram_bulk
  split_ifs <;> exact ⟨rfl, rfl⟩

theorem read_sram_kept (addr : Nat) (s : State) : session_kept s (rtc_read_sram addr s).2 := by
  unfold rtc_read_sram
  split_ifs <;> exact ⟨rfl, rfl⟩

theorem read_sram_bulk_kept (addr : Nat) (data_out : Nat → Nat) (data_size : Nat) (s : State) :
    session_kept s (rtc_read_sram_bulk addr data_out data_size s).2 := by
  unfold rtc_read_sram_bulk
  split_ifs <;> exact ⟨rfl, rfl⟩

theorem write_protect_on_kept (s : State) :
    session_kept s (rtc_eeprom_write_protect_on s) := by
  unfold rtc_eeprom_write_protect_on
  split_ifs <;> exact ⟨rfl, rfl⟩

theorem write_protect_off_kept (s : State) :
    session_kept s (rtc_eeprom_write_protect_off s) := by
  unfold rtc_eeprom_write_protect_off
  split_ifs <;> exact ⟨rfl, rfl⟩

theorem is_locked_kept (s : State) : session_kept s (rtc_eeprom_is_locked s).2 := by
  unfold rtc_eeprom_is_locked
  split_ifs <;> exact ⟨rfl, rfl⟩

theorem eeprom_page_loop_kept (addr : Nat) (data : Nat → Nat) :
    ∀ (k i : Nat) (s : State), session_kept s (eeprom_page_loop addr data i k s) := by
  intro k
  induction k with
  | zero => intro i s; exact session_kept_refl s
  | succ k ih =>
    intro i s
    exact session_kept_trans s _ _ ⟨rfl, rfl⟩ (ih (i + 1) _)

theorem write_eeprom_kept (addr : Nat) (data_in : Nat → Nat) (data_size : Nat) (s : State) :
    session_kept s (rtc_write_eeprom addr data_in data_size s).2 := by
  unfold rtc_write_eeprom
  dsimp only
  split_ifs <;> first
    | exact ⟨rfl, rfl⟩
    | exact session_kept_trans s _ _
        (session_kept_trans s (rtc_hal_set_slave RTC6_MCP7941X_EEPROM_SLAVE s) _ ⟨rfl, rfl⟩
          (eeprom_page_loop_kept addr data_in (data_size / RTC6_EEPROM_PAGE_SIZE % 256) 0 _))
        ⟨rfl, rfl⟩

theorem read_eeprom_kept (addr : Nat) (data_out : Nat → Nat) (data_size : Nat) (s : State) :
    session_kept s (rtc_read_eeprom addr data_out data_size s).2 := by
  unfold rtc_read_eeprom
  split_ifs <;> exact ⟨rfl, rfl⟩

theorem read_unique_id_kept (s : State) : session_kept s (rtc_read_unique_id s).2 := by
  unfold rtc_read_unique_id
  split_ifs <;> exact ⟨rfl, rfl⟩

theorem write_unique_id_kept (id : Option (Nat → Nat)) (s : State) :
    session_kept s (rtc_write_unique_id id s) := by
  unfold rtc_write_unique_id
  split_ifs
  · cases id <;> exact ⟨rfl, rfl⟩
  · exact ⟨rfl, rfl⟩

/-- No library call writes the cached `current_local_time`, and none but `rtc_enable_dst`
and `rtc_disable_dst` writes the DST flag. -/
theorem api_step_kept (c : ApiCall) (s : State) :
    (api_step c s).current_local_time = s.current_local_time ∧
      ((api_step c s).dst_enabled = s.dst_enabled ∨
        (c = ApiCall.rtc_enable_dst ∧ (api_step c s).dst_enabled = true) ∨
        (c = ApiCall.rtc_disable_dst ∧ (api_step c s).dst_enabled = false)) := by
  have key : ∀ s2, session_kept s s2 →
      s2.current_local_time = s.current_local_time ∧
        (s2.dst_enabled = s.dst_enabled ∨
          (c = ApiCall.rtc_enable_dst ∧ s2.dst_enabled = true) ∨
          (c = ApiCall.rtc_disable_dst ∧ s2.dst_enabled = false)) :=
    fun s2 hk => ⟨hk.1, Or.inl hk.2⟩
  cases c
  case rtc_enable_dst => exact ⟨rfl, Or.inr (Or.inl ⟨rfl, rfl⟩)⟩
  case rtc_disable_dst => exact ⟨rfl, Or.inr (Or.inr ⟨rfl, rfl⟩)⟩
  case rtc_init type time_zone => exact key _ (init_kept type time_zone s)
  case rtc_enable_swo swo => exact key _ (enable_swo_kept swo s)
  case rtc_disable_swo => exact key _ (disable_swo_kept s)
  case rtc_battery_enable => exact key _ (battery_enable_kept s)
  case rtc_get_gmt_time => exact key _ (get_gmt_time_kept s)
  case rtc_get_local_time => exact key _ (get_local_time_kept s)
  case rtc_set_gmt_time time => exact key _ (set_gmt_time_kept time s)
  case rtc_get_gmt_unix_time => exact key _ (get_gmt_unix_time_kept s)
  case rtc_get_local_unix_time => exact key _ (get_local_unix_time_kept s)
  case rtc_is_leap_year => exact key _ (is_leap_year_kept s)
  case rtc_is_power_failure => exact key _ (is_power_failure_kept s)
  case rtc_get_last_power_failure => exact key _ (get_last_power_failure_kept s)
  case rtc_set_alarm alarm trigger time => exact key _ (set_alarm_kept alarm trigger time s)
  case rtc_disable_alarm alarm => exact key _ (disable_alarm_kept alarm s)
  case rtc_read_alarm alarm => exact key _ (read_alarm_kept alarm s)
  case rtc_write_sram addr data_in => exact key _ (write_sram_kept addr data_in s)
  case rtc_write_sram_bulk addr data_in data_size =>
    exact key _ (write_sram_bulk_kept addr data_in data_size s)
  case rtc_read_sram addr => exact key _ (read_sram_kept addr s)
  case rtc_read_sram_bulk addr data_out data_size =>
    exact key _ (read_sram_bulk_kept addr data_out data_size s)
  case rtc_eeprom_write_protect_on => exact key _ (write_protect_on_kept s)
  case rtc_eeprom_write_protect_off => exact key _ (write_protect_off_kept s)
  case rtc_eeprom_is_locked => exact key _ (is_locked_kept s)
  case rtc_write_eeprom addr data_in data_size =>
    exact key _ (write_eeprom_kept addr data_in data_size s)
  case rtc_read_eeprom addr data_out data_size =>
    exact key _ (read_eeprom_kept addr data_out data_size s)
  case rtc_read_unique_id => exact key _ (read_unique_id_kept s)
  case rtc_write_unique_id id => exact key _ (write_unique_id_kept id s)

/-! ## Sequences of calls -/

theorem run_cons (e : Event) (events : List Event) (s : State) :
    run (e :: events) s = run events (event_step e s) := rfl

/-- No sequence of library calls and device changes writes the cached
`current_local_time`. -/
theorem run_local_time (events : List Event) :
    ∀ s : State, (run events s).current_local_time = s.current_local_time := by
  induction events with
  | nil => intro s; rfl
  | cons e events ih =>
    intro s
    rw [run_cons, ih]
    cases e with
    | call c => exact (api_step_kept c s).1
    | device regs => rfl

/-- The DST flag stays false as long as `rtc_enable_dst` is not called. -/
theorem run_dst_false (events : List Event) :
    ∀ s : State, events.all not_enable_dst = true → s.dst_enabled = false →
      (run events s).dst_enabled = false := by
  induction events with
  | nil => intro s _ hs; exact hs
  | cons e events ih =>
    intro s hall hs
    rw [List.all_cons, Bool.and_eq_true] at hall
    rw [run_cons]
    apply ih _ hall.2
    cases e with
    | call c =>
      rcases (api_step_kept c s).2 with h | ⟨hc, -⟩ | ⟨-, h⟩
      · exact h.trans hs
      · subst hc
        exact absurd hall.1 (by decide)
      · exact h
    | device regs => exact hs

/-- C32 (counterexample): on a DS1307 session in which `rtc_enable_dst` was called,
`rtc_init( RTC2_DS1307, 1 )` returns 0 and the DST flag is true afterwards. -/
theorem reinit_leaves_dst_enabled :
    (rtc_enable_dst ds1307_zero_state).dst_enabled = true ∧
      (rtc_init RTC2_DS1307 1 (rtc_enable_dst ds1307_zero_state)).1 = 0 ∧
      (rtc_init RTC2_DS1307 1 (rtc_enable_dst ds1307_zero_state)).2.dst_enabled = true := by
  decide

/-- C32 (as the code has it): a successful `rtc_init(type, time_zone)` stores the type and
the time zone and leaves the DST flag as it was before the call; and in a session started
from the zero-initialised state the DST flag is false after any sequence of library calls
and device changes that contains no call of `rtc_enable_dst`. -/
theorem init_keeps_dst_flag (type : Nat) (time_zone : Int) (s : State)
    (h : (rtc_init type time_zone s).1 = 0) :
    (rtc_init type time_zone s).2.current_type = type ∧
      (rtc_init type time_zone s).2.current_time_zone = time_zone ∧
      (rtc_init type time_zone s).2.dst_enabled = s.dst_enabled ∧
      ∀ (regs : Nat → Nat → Nat) (events : List Event), events.all not_enable_dst = true →
        (run events (start_state regs)).dst_enabled = false := by
  refine ⟨?_, ?_, (init_kept type time_zone s).2, ?_⟩
  · rw [init_success type time_zone s h]; rfl
  · rw [init_success type time_zone s h]; rfl
  · intro regs events hall
    exact run_dst_false events _ hall rfl

theorem init_keeps_dst_flag_witness :
    (rtc_init RTC2_DS1307 1 (start_state regs_sample)).1 = 0 ∧
      (rtc_init RTC2_DS1307 1 (start_state regs_sample)).2.current_type = RTC2_DS1307 ∧
      (rtc_init RTC2_DS1307 1 (start_state regs_sample)).2.current_time_zone = 1 ∧
      (rtc_init RTC2_DS1307 1 (start_state regs_sample)).2.dst_enabled = false ∧
      ds1307_session.all not_enable_dst = true ∧
      (run ds1307_session (start_state regs_sample)).dst_enabled = false :=
  ⟨by decide, (init_keeps_dst_flag RTC2_DS1307 1 (start_state regs_sample) (by decide)).1,
    (init_keeps_dst_flag RTC2_DS1307 1 (start_state regs_sample) (by decide)).2.1,
    (init_keeps_dst_flag RTC2_DS1307 1 (start_state regs_sample) (by decide)).2.2.1,
    by decide,
    (init_keeps_dst_flag RTC2_DS1307 1 (start_state regs_sample) (by decide)).2.2.2
      regs_sample ds1307_session (by decide)⟩

theorem init_register_effect_witness :
    (rtc_init RTC2_DS1307 1 (start_state regs_sample)).1 = 0 ∧
      chip_slave RTC2_DS1307 = 0x68 ∧ regs_sample 0x68 0 = 0x58 ∧
      (rtc_init RTC2_DS1307 1 (start_state regs_sample)).2.calls =
        [HalCall.read 0x68 0 1, HalCall.write 0x68 0 [0xD8]] ∧
      (rtc_init RTC2_DS1307 1 (start_state regs_sample)).2.regs 0x68 0 &&& 0x7f = 0x58 :=
  ⟨by decide, by decide, by decide,
    (init_register_effect RTC2_DS1307 1 (start_state regs_sample) (by decide)).1,
    (init_register_effect RTC2_DS1307 1 (start_state regs_sample) (by decide)).2.2.1⟩

/-- C37: no library call writes the cached `current_local_time`; so after any sequence of
library calls and device changes from the zero-initialised start its year is 0, and
`rtc_is_leap_year` returns true on RTC2_DS1307 and RTC3_BQ32000 and false on RTC_PCF8583,
whatever the device registers hold: after the sample DS1307 session, whose local time is
in (20)38, it returns true. -/
theorem leap_year_cache_never_written (regs : Nat → Nat → Nat) (events : List Event) :
    (∀ (c : ApiCall) (s : State), (api_step c s).current_local_time = s.current_local_time) ∧
      (run events (start_state regs)).current_local_time = zero_time ∧
      (run events (start_state regs)).current_local_time.year = 0 ∧
      ((run events (start_state regs)).current_type = RTC2_DS1307 ∨
          (run events (start_state regs)).current_type = RTC3_BQ32000 →
        (rtc_is_leap_year (run events (start_state regs))).1 = true) ∧
      ((run events (start_state regs)).current_type = RTC_PCF8583 →
        (rtc_is_leap_year (run events (start_state regs))).1 = false) ∧
      (run ds1307_session (start_state fun _ _ => 0)).current_type = RTC2_DS1307 ∧
      (run ds1307_session (start_state fun _ _ => 0)).local_time.year = 38 ∧
      (rtc_is_leap_year (run ds1307_session (start_state fun _ _ => 0))).1 = true := by
  have hz : (run events (start_state regs)).current_local_time = zero_time :=
    run_local_time events (start_state regs)
  have hy : (run events (start_state regs)).current_local_time.year = 0 := by rw [hz]; rfl
  refine ⟨fun c s => (api_step_kept c s).1, hz, hy, ?_, ?_, by decide, by decide, by decide⟩
  · intro hty
    unfold rtc_is_leap_year
    rcases hty with h | h
    · rw [if_neg (by rw [h]; decide), if_pos h, hy]
      rfl
    · rw [if_neg (by rw [h]; decide), if_neg (by rw [h]; decide), if_pos h, hy]
      rfl
  · intro hty
    unfold rtc_is_leap_year
    rw [if_pos hty]

/-! ## Capabilities the chip lacks -/

/-- C34: the operations on a capability the active chip lacks do nothing and return the
fixed value: the state after the call, with its registers and its log of transport calls,
is the state before it. On RTC_PCF8583 and RTC3_BQ32000 this holds for `rtc_enable_swo`,
`rtc_disable_swo`, `rtc_write_sram`, `rtc_write_sram_bulk`, `rtc_read_sram` (which returns
0) and `rtc_read_sram_bulk` (which leaves the buffer as it was); on every type other than
RTC6_MCP7941X for `rtc_battery_enable`, `rtc_eeprom_write_protect_on`,
`rtc_eeprom_write_protect_off`, `rtc_read_eeprom`, `rtc_write_unique_id`,
`rtc_eeprom_is_locked` (false) and `rtc_read_unique_id` (null); on RTC_PCF8583 and
RTC2_DS1307 for `rtc_is_power_failure` (false). -/
theorem unsupported_is_noop (s : State) :
    ((s.current_type = RTC_PCF8583 ∨ s.current_type = RTC3_BQ32000) →
        (∀ swo, rtc_enable_swo swo s = s) ∧ rtc_disable_swo s = s ∧
        (∀ addr data_in, rtc_write_sram addr data_in s = s) ∧
        (∀ addr data_in data_size, rtc_write_sram_bulk addr data_in data_size s = s) ∧
        (∀ addr, rtc_read_sram addr s = (0, s)) ∧
        (∀ addr data_out data_size,
          rtc_read_sram_bulk addr data_out data_size s = (data_out, s))) ∧
      (s.current_type ≠ RTC6_MCP7941X →
        rtc_battery_enable s = s ∧ rtc_eeprom_write_protect_on s = s ∧
        rtc_eeprom_write_protect_off s = s ∧
        (∀ addr data_out data_size, rtc_read_eeprom addr data_out data_size s = (data_out, s)) ∧
        (∀ id, rtc_write_unique_id id s = s) ∧
        rtc_eeprom_is_locked s = (false, s) ∧
        rtc_read_unique_id s = (none, s)) ∧
      ((s.current_type = RTC_PCF8583 ∨ s.current_type = RTC2_DS1307) →
        rtc_is_power_failure s = (false, s)) := by
  refine ⟨?_, ?_, ?_⟩
  · intro hty
    have h1 : ¬ s.current_type = RTC2_DS1307 := by
      rcases hty with h | h <;> rw [h] <;> decide
    have h3 : ¬ s.current_type = RTC6_MCP7941X := by
      rcases hty with h | h <;> rw [h] <;> decide
    refine ⟨?_, ?_, ?_, ?_, ?_, ?_⟩
    · intro swo
      unfold rtc_enable_swo
      rw [if_neg h1, if_neg h3]
      simp
    · unfold rtc_disable_swo
      rw [if_neg h1, if_neg h3]
      simp
    · intro addr data_in
      unfold rtc_write_sram
      rw [if_neg h1, if_neg h3]
    · intro addr data_in data_size
      unfold rtc_write_sram_bulk
      rw [if_neg h1, if_neg h3]
    · intro addr
      unfold rtc_read_sram
      simp only
      rw [if_neg h1, if_neg h3]
    · intro addr data_out data_size
      unfold rtc_read_sram_bulk
      rw [if_neg h1, if_neg h3]
  · intro h3
    refine ⟨?_, ?_, ?_, ?_, ?_, ?_, ?_⟩
    · unfold rtc_battery_enable
      simp only
      rw [if_neg h3]
    · unfold rtc_eeprom_write_protect_on
      rw [if_neg h3]
    · unfold rtc_eeprom_write_protect_off
      rw [if_neg h3]
    · intro addr data_out data_size
      unfold rtc_read_eeprom
      rw [if_neg h3]
    · intro id
      unfold rtc_write_unique_id
      rw [if_neg h3]
    · unfold rtc_eeprom_is_locked
      rw [if_neg h3]
    · unfold rtc_read_unique_id
      rw [if_neg h3]
  · intro hty
    unfold rtc_is_power_failure
    rcases hty with h | h
    · rw [if_pos h]
    · rw [if_neg (by rw [h]; decide), if_pos h]

/-! ## The EEPROM range checks -/

/-- The page loop of `rtc_write_eeprom` only appends to the log of transport calls. -/
theorem eeprom_page_loop_appends (addr : Nat) (data : Nat → Nat) :
    ∀ (k i : Nat) (s : State),
      ∃ cs, (eeprom_page_loop addr data i k s).calls = s.calls ++ cs := by
  intro k
  induction k with
  | zero => intro i s; exact ⟨[], by simp [eeprom_page_loop]⟩
  | succ k ih =>
    intro i s
    obtain ⟨cs, hcs⟩ := ih (i + 1)
      (rtc_hal_write (addr + i * 8) (fun j => data (i * 8 + j)) RTC6_EEPROM_PAGE_SIZE s)
    rw [eeprom_page_loop, hcs, hal_write_calls, List.append_assoc]
    exact ⟨_, rfl⟩

/-- C38: for every 8-bit `addr` and `data_size` the range checks of `rtc_write_eeprom` and
`rtc_read_eeprom` are true, so on RTC6_MCP7941X the transfer is always issued:
`rtc_read_eeprom` makes the read of `data_size` bytes at `addr` of the EEPROM slave and
returns the registers from `addr` on, and `rtc_write_eeprom` makes at least the write of
the first `min data_size 8` bytes at `addr`, whatever `addr + data_size` is. -/
theorem eeprom_check_always_true (addr data_size : Nat) (data : Nat → Nat) (s : State)
    (hty : s.current_type = RTC6_MCP7941X) (ha : addr < 256) (hn : data_size < 256) :
    (addr ≥ RTC6_EEPROM_START ∧ addr + data_size < RTC6_EEPROM_END ∧
        data_size < RTC6_EEPROM_SIZE) ∧
      (rtc_read_eeprom addr data data_size s).2.calls =
        s.calls ++ [HalCall.read RTC6_MCP7941X_EEPROM_SLAVE addr data_size] ∧
      (∀ i, i < data_size →
        (rtc_read_eeprom addr data data_size s).1 i =
          s.regs RTC6_MCP7941X_EEPROM_SLAVE (addr + i) % 256) ∧
      ∃ cs, (rtc_write_eeprom addr data data_size s).2.calls =
        s.calls ++ HalCall.write RTC6_MCP7941X_EEPROM_SLAVE addr
          (data_chunk data 0 (min data_size 8)) :: cs := by
  have hck : addr ≥ RTC6_EEPROM_START ∧ addr + data_size < RTC6_EEPROM_END := by
    simp only [RTC6_EEPROM_START, RTC6_EEPROM_END, RTC6_EEPROM_SIZE]; omega
  have hsz : data_size < RTC6_EEPROM_SIZE := by
    simp only [RTC6_EEPROM_SIZE]; omega
  have hrd : rtc_read_eeprom addr data data_size s =
      ((rtc_hal_read addr data data_size
          (rtc_hal_set_slave RTC6_MCP7941X_EEPROM_SLAVE s)).1,
        rtc_hal_set_slave RTC6_MCP7941X_SLAVE
          (rtc_hal_read addr data data_size
            (rtc_hal_set_slave RTC6_MCP7941X_EEPROM_SLAVE s)).2) := by
    unfold rtc_read_eeprom
    rw [if_pos hty, if_pos ⟨hsz, hck.2, hck.1⟩]
  refine ⟨⟨hck.1, hck.2, hsz⟩, ?_, ?_, ?_⟩
  · rw [hrd]
    simp only [hal_set_slave_calls, hal_read_calls, hal_set_slave_addr, Nat.mod_eq_of_lt ha]
    rfl
  · intro i hi
    rw [hrd]
    simp only [rtc_hal_read, if_pos hi, Nat.mod_eq_of_lt ha]
    rfl
  · unfold rtc_write_eeprom
    rw [if_pos hty, if_pos hck]
    simp only [hal_set_slave_calls]
    by_cases h8 : data_size ≤ RTC6_EEPROM_PAGE_SIZE
    · rw [if_pos h8]
      refine ⟨[], ?_⟩
      have hmin : min data_size 8 = data_size := by
        simp only [RTC6_EEPROM_PAGE_SIZE] at h8; omega
      rw [hal_write_calls, hal_set_slave_calls, hal_set_slave_addr, Nat.mod_eq_of_lt ha, hmin]
      rfl
    · rw [if_neg h8]
      simp only [RTC6_EEPROM_PAGE_SIZE] at h8 ⊢
      have hmin : min data_size 8 = 8 := by omega
      obtain ⟨k, hk⟩ : ∃ k, data_size / 8 % 256 = k + 1 := ⟨data_size / 8 % 256 - 1, by omega⟩
      rw [hk, hmin]
      obtain ⟨cs, hcs⟩ := eeprom_page_loop_appends addr data k (0 + 1)
        (rtc_hal_write (addr + 0 * 8) (fun j => data (0 * 8 + j)) RTC6_EEPROM_PAGE_SIZE
          (rtc_hal_set_slave RTC6_MCP7941X_EEPROM_SLAVE s))
      have hloop : (eeprom_page_loop addr data 0 (k + 1)
          (rtc_hal_set_slave RTC6_MCP7941X_EEPROM_SLAVE s)).calls =
          s.calls ++ HalCall.write RTC6_MCP7941X_EEPROM_SLAVE addr (data_chunk data 0 8) ::
            cs := by
        rw [eeprom_page_loop, hcs, hal_write_calls, hal_set_slave_calls, hal_set_slave_addr,
          List.append_assoc]
        simp [data_chunk, RTC6_EEPROM_PAGE_SIZE, Nat.mod_eq_of_lt ha, RTC6_MCP7941X_EEPROM_SLAVE]
      split_ifs
      · rw [hal_write_calls, hloop, List.append_assoc]
        exact ⟨_, rfl⟩
      · exact ⟨cs, hloop⟩

theorem eeprom_check_always_true_witness :
    mcp7941x_zero_state.current_type = RTC6_MCP7941X ∧ 0xF0 < 256 ∧ 32 < 256 ∧
      0xF0 + 32 > 256 ∧
      (rtc_read_eeprom 0xF0 sample_data 32 mcp7941x_zero_state).2.calls =
        mcp7941x_zero_state.calls ++ [HalCall.read RTC6_MCP7941X_EEPROM_SLAVE 0xF0 32] ∧
      (rtc_write_eeprom 0xF8 sample_data 8 mcp7941x_zero_state).2.regs
        RTC6_MCP7941X_EEPROM_SLAVE 0xFF = 8 :=
  ⟨by decide, by decide, by decide, by decide,
    (eeprom_check_always_true 0xF0 32 sample_data mcp7941x_zero_state (by decide) (by decide)
      (by decide)).2.1,
    by decide⟩

/-! ## The power-fail time stamp -/

/-- The decodings `rtc_get_last_power_failure` applies, for every byte read. -/
theorem stamp_byte_table : ∀ b < 256,
    BCD2BIN (b &&& 0xE0) % 256 = 20 * (b >>> 5) ∧
      BCD2BIN (b &&& 0x1F) % 256 = BCD2BIN (b &&& 0x1F) ∧
      BCD2BIN (b &&& 0x3f) % 256 = BCD2BIN (b &&& 0x3f) ∧
      BCD2BIN (b &&& 0x7f) % 256 = BCD2BIN (b &&& 0x7f) ∧
      ¬ (1 ≤ 20 * (b >>> 5) ∧ 20 * (b >>> 5) ≤ 7) := by
  decide!

/-- C39: on RTC6_MCP7941X the time stamp `rtc_get_last_power_failure` returns has weekday
`20 * (b >> 5)` for the byte `b` read from register 0x1B, a multiple of 20 that is never in
1..7; its minutes, hours, monthday and month are the BCD decodings of the bytes of registers
0x18, 0x19, 0x1A and 0x1B under the masks 0x7f, 0x3f, 0x3f and 0x1f. -/
theorem power_failure_stamp_weekday (s : State) (hty : s.current_type = RTC6_MCP7941X) :
    ∃ st, (rtc_get_last_power_failure s).1 = some st ∧
      st.weekday = 20 * ((s.regs s.i2c_address 0x1B % 256) >>> 5) ∧
      st.weekday % 20 = 0 ∧ ¬ (1 ≤ st.weekday ∧ st.weekday ≤ 7) ∧
      st.minutes = BCD2BIN (s.regs s.i2c_address 0x18 % 256 &&& 0x7f) ∧
      st.hours = BCD2BIN (s.regs s.i2c_address 0x19 % 256 &&& 0x3f) ∧
      st.monthday = BCD2BIN (s.regs s.i2c_address 0x1A % 256 &&& 0x3f) ∧
      st.month = BCD2BIN (s.regs s.i2c_address 0x1B % 256 &&& 0x1f) := by
  obtain ⟨-, -, -, T0, -⟩ :=
    stamp_byte_table (s.regs s.i2c_address 0x18 % 256) (Nat.mod_lt _ (by decide))
  obtain ⟨-, -, T1, -, -⟩ :=
    stamp_byte_table (s.regs s.i2c_address 0x19 % 256) (Nat.mod_lt _ (by decide))
  obtain ⟨-, -, T2, -, -⟩ :=
    stamp_byte_table (s.regs s.i2c_address 0x1A % 256) (Nat.mod_lt _ (by decide))
  obtain ⟨T3, T4, -, -, T5⟩ :=
    stamp_byte_table (s.regs s.i2c_address 0x1B % 256) (Nat.mod_lt _ (by decide))
  have e : (rtc_get_last_power_failure s).1 = some
      { s.stamp with
        minutes := BCD2BIN (s.regs s.i2c_address 0x18 % 256 &&& 0x7f) % 256
        hours := BCD2BIN (s.regs s.i2c_address 0x19 % 256 &&& 0x3f) % 256
        monthday := BCD2BIN (s.regs s.i2c_address 0x1A % 256 &&& 0x3f) % 256
        weekday := BCD2BIN (s.regs s.i2c_address 0x1B % 256 &&& 0xE0) % 256
        month := BCD2BIN (s.regs s.i2c_address 0x1B % 256 &&& 0x1F) % 256 } := by
    unfold rtc_get_last_power_failure
    rw [if_neg (by rw [hty]; decide), if_neg (by rw [hty]; decide),
      if_neg (by rw [hty]; decide), if_pos hty]
    rfl
  refine ⟨_, e, T3, ?_, ?_, T0, T1, T2, T4⟩
  · show BCD2BIN (s.regs s.i2c_address 0x1B % 256 &&& 0xE0) % 256 % 20 = 0
    rw [T3]
    omega
  · show ¬ (1 ≤ BCD2BIN (s.regs s.i2c_address 0x1B % 256 &&& 0xE0) % 256 ∧
      BCD2BIN (s.regs s.i2c_address 0x1B % 256 &&& 0xE0) % 256 ≤ 7)
    rw [T3]
    exact T5

theorem power_failure_stamp_weekday_witness :
    mcp7941x_power_state.current_type = RTC6_MCP7941X ∧
      mcp7941x_power_state.regs mcp7941x_power_state.i2c_address 0x1B = 0xF2 ∧
      (rtc_get_last_power_failure mcp7941x_power_state).1 =
        some { seconds := 0, minutes := 59, hours := 23, weekday := 140, monthday := 31,
               month := 12, year := 0 } ∧
      ∃ st, (rtc_get_last_power_failure mcp7941x_power_state).1 = some st ∧
        st.weekday =
          20 * ((mcp7941x_power_state.regs mcp7941x_power_state.i2c_address 0x1B % 256) >>> 5) :=
  ⟨by decide, by decide, by decide,
    (power_failure_stamp_weekday mcp7941x_power_state (by decide)).imp
      fun _ h => ⟨h.1, h.2.1⟩⟩

/-! ## The alarm buffer on chips without alarms -/

/-- For a valid calendar time the epoch is above `2 ^ 31 - 1` exactly when the time is
later than 2038-01-19T03:14:07. -/
theorem epoch_above_int32_iff (t : rtc_time_t) (hd : valid_date t) (hc : valid_clock t) :
    2147483647 < (time_date_to_epoch t).1 ↔
      38 < t.year ∨ (t.year = 38 ∧ (1 < t.month ∨ (t.month = 1 ∧ (19 < t.monthday ∨
        (t.monthday = 19 ∧ 11648 ≤ t.hours * 3600 + t.minutes * 60 + t.seconds))))) := by
  have hle := ref_days_year_le t hd
  have hge := ref_days_year_ge t hd
  have he := time_date_to_epoch_fst t
  obtain ⟨hy, hm1, hm2, hd1, hd2⟩ := hd
  obtain ⟨hh, hmi, hs⟩ := hc
  have hjd := date_julian_day_ref t hy hm1 hm2 hd1
  rw [he, hjd]
  obtain ⟨sec, mi, hr, w, d, m, y⟩ := t
  simp only at hy hm1 hm2 hd1 hd2 hh hmi hs hle hge ⊢
  by_cases h38 : y = 38
  · subst h38
    have hr38 : ref_days 38 m d = 24837 + days_before_month 2038 (m - 1) + (d - 1) := by
      rw [ref_days, days_to_year_eq _ (by omega)]
    have hdb := days_before_month_eq 38 (m - 1) (by omega) (by omega)
    rw [hr38, show 2000 + 38 = 2038 from rfl] at *
    rw [hdb]
    interval_cases m <;> simp <;> omega
  · omega

end RTC
